import Mathlib

/-!
# sg_utils: CDB builders and response decoders

A shallow embedding of the command-descriptor-block builders, of the response
decoders and of the option handling of the `sg_*` utilities, with the
properties of the byte layouts, of the decoders and of the exit paths proved
over the embedding.

Conventions of the embedding.
* A C `int` / `int64_t` value is an `Int`; an unsigned value is a `Nat`.
* The bit pattern of a signed value (two's complement) is `bits32` / `bits64`;
  `x & m` on a signed `x` with a non-negative constant `m` is the bitwise and
  of the pattern with `m` (`cand32`, `cand64`).
* `x >> k` on a signed `x` is the arithmetic shift `sar` (`Int.shiftRight`).
* A buffer of `unsigned char` is a `List Nat`; a store `buf[i] = v` is
  `put buf i v`, which keeps the low eight bits of `v`.
-/

namespace CInt

/-- Two's complement bit pattern of a 32-bit signed value. -/
def bits32 (x : Int) : Nat := (x % 2 ^ 32).toNat

/-- Two's complement bit pattern of a 64-bit signed value. -/
def bits64 (x : Int) : Nat := (x % 2 ^ 64).toNat

/-- Value of a 32-bit pattern read as a signed `int`. -/
def toInt32 (x : Int) : Int :=
  if x % 2 ^ 32 < 2 ^ 31 then x % 2 ^ 32 else x % 2 ^ 32 - 2 ^ 32

/-- Value of a 64-bit pattern read as a signed `int64_t`. -/
def toInt64 (x : Int) : Int :=
  if x % 2 ^ 64 < 2 ^ 63 then x % 2 ^ 64 else x % 2 ^ 64 - 2 ^ 64

/-- The C expression `x & m` for an `int` x and a non-negative constant m. -/
def cand32 (x : Int) (m : Nat) : Nat := bits32 x &&& m

/-- The C expression `x & m` for an `int64_t` x and a non-negative constant m. -/
def cand64 (x : Int) (m : Nat) : Nat := bits64 x &&& m

/-- The C expression `x >> k` for a signed x: arithmetic shift right. -/
def sar (x : Int) (k : Nat) : Int := Int.shiftRight x k

/-- The store `buf[i] = v` into a buffer of `unsigned char`. -/
def put (buf : List Nat) (i : Nat) (v : Nat) : List Nat := buf.set i (v % 256)

/-- The compound store `buf[i] |= v`. -/
def putOr (buf : List Nat) (i : Nat) (v : Nat) : List Nat :=
  put buf i (buf.getD i 0 ||| v)

/-- Value of a byte sequence read most significant byte first. -/
def beValue (bs : List Nat) : Nat := bs.foldl (fun acc b => acc * 256 + b) 0

end CInt

open CInt

/-! ## sg_compare_and_write.c -/

namespace sg_compare_and_write

/-- The `struct caw_flags` of the source. -/
structure caw_flags where
  dpo : Int
  fua : Int
  fua_nv : Int
  group : Int
  wrprotect : Int

def COMPARE_AND_WRITE_OPCODE : Nat := 0x89
def COMPARE_AND_WRITE_CDB_SIZE : Nat := 16
def FLAG_FUA : Nat := 0x8
def FLAG_FUA_NV : Nat := 0x2
def FLAG_DPO : Nat := 0x10
def WRPROTECT_MASK : Nat := 0x7
def WRPROTECT_SHIFT : Nat := 5

/-- The function `sg_build_scsi_cdb`: the return value and the sixteen bytes
written through `cdbp`. `blocks` is the `unsigned int` argument and
`start_block` the `int64_t` one. -/
def sg_build_scsi_cdb (blocks : Nat) (start_block : Int) (flags : caw_flags) :
    Int × List Nat :=
  let cdbp : List Nat := List.replicate COMPARE_AND_WRITE_CDB_SIZE 0
  let cdbp := put cdbp 0 COMPARE_AND_WRITE_OPCODE
  let cdbp := put cdbp 1 ((cand32 flags.wrprotect WRPROTECT_MASK) <<< WRPROTECT_SHIFT)
  let cdbp := if flags.dpo ≠ 0 then putOr cdbp 1 FLAG_DPO else cdbp
  let cdbp := if flags.fua ≠ 0 then putOr cdbp 1 FLAG_FUA else cdbp
  let cdbp := if flags.fua_nv ≠ 0 then putOr cdbp 1 FLAG_FUA_NV else cdbp
  let cdbp := put cdbp 2 (cand64 (sar start_block 56) 0xff)
  let cdbp := put cdbp 3 (cand64 (sar start_block 48) 0xff)
  let cdbp := put cdbp 4 (cand64 (sar start_block 40) 0xff)
  let cdbp := put cdbp 5 (cand64 (sar start_block 32) 0xff)
  let cdbp := put cdbp 6 (cand64 (sar start_block 24) 0xff)
  let cdbp := put cdbp 7 (cand64 (sar start_block 16) 0xff)
  let cdbp := put cdbp 8 (cand64 (sar start_block 8) 0xff)
  let cdbp := put cdbp 9 (cand64 start_block 0xff)
  let cdbp := put cdbp 13 (blocks &&& 0xff)
  let cdbp := put cdbp 14 (cand32 flags.group 0x1f)
  (0, cdbp)

end sg_compare_and_write

/-! ## sg_write_same.c -/

namespace sg_write_same

/-- The `struct opts_t` of the source (the file name buffer, which no command
byte depends on, is left out). `lba` is the `uint64_t` field, the others are
`int` fields. -/
structure opts_t where
  anchor : Int
  grpnum : Int
  lba : Nat
  lbdata : Int
  ndob : Int
  numblocks : Int
  pbdata : Int
  timeout : Int
  unmap : Int
  verbose : Int
  wrprotect : Int
  xfer_len : Int
  pref_cdb_size : Int
  want_ws10 : Int

def WRITE_SAME10_OP : Nat := 0x41
def WRITE_SAME16_OP : Nat := 0x93
def VARIABLE_LEN_OP : Nat := 0x7f
def WRITE_SAME32_SA : Nat := 0xd
def WRITE_SAME32_ADD : Nat := 0x18
def WRITE_SAME10_LEN : Int := 10
def WRITE_SAME16_LEN : Int := 16
def WRITE_SAME32_LEN : Int := 32

/-- The loop `for (k = n - 1; k >= 0; --k) { buf[base + k] = (v & 0xff); v >>= 8; }`
of the source, with `n` the first argument after `base`. -/
def put_be_loop (base : Nat) : Nat → Nat → List Nat → List Nat
  | 0, _, buf => buf
  | k + 1, v, buf => put_be_loop base k (v >>> 8) (put buf (base + k) (v &&& 0xff))

/-- What `do_write_same` has done when it reaches the transport: the value
stored through `act_cdb_lenp`, and the bytes handed to `set_scsi_pt_cdb`
(the first `cdb_len` bytes of `wsCmdBlk`), or `none` when the function leaves
through its `bad cdb length` exit. -/
structure ws_cmd where
  act_cdb_len : Int
  cdb : Option (List Nat)
  deriving DecidableEq, Repr

/-- The choice of the CDB length at the head of `do_write_same` (the
statements before `memset`). `ULONG_MAX` is the constant of `<limits.h>` of
the platform the program is compiled for. -/
def ws_cdb_len (ULONG_MAX : Nat) (op : opts_t) : Int :=
  let cdb_len : Int := op.pref_cdb_size
  if WRITE_SAME10_LEN = cdb_len then
    let llba : Nat := bits64 ((op.lba : Int) + op.numblocks)
    if op.numblocks > 0xffff ∨ llba > ULONG_MAX ∨ op.ndob ≠ 0 ∨
        (op.unmap ≠ 0 ∧ 0 = op.want_ws10) then
      WRITE_SAME16_LEN
    else cdb_len
  else cdb_len

/-- The function `do_write_same` up to the call of the transport. -/
def do_write_same (ULONG_MAX : Nat) (op : opts_t) : ws_cmd :=
  let cdb_len : Int := ws_cdb_len ULONG_MAX op
  let wsCmdBlk : List Nat := List.replicate 32 0
  if cdb_len = WRITE_SAME10_LEN then
    let wsCmdBlk := put wsCmdBlk 0 WRITE_SAME10_OP
    let wsCmdBlk := put wsCmdBlk 1 ((cand32 op.wrprotect 0x7) <<< 5)
    let wsCmdBlk := if op.anchor ≠ 0 then putOr wsCmdBlk 1 0x10 else wsCmdBlk
    let wsCmdBlk := if op.unmap ≠ 0 then putOr wsCmdBlk 1 0x8 else wsCmdBlk
    let wsCmdBlk := if op.pbdata ≠ 0 then putOr wsCmdBlk 1 0x4 else wsCmdBlk
    let wsCmdBlk := if op.lbdata ≠ 0 then putOr wsCmdBlk 1 0x2 else wsCmdBlk
    let lba : Nat := op.lba % 2 ^ 32
    let wsCmdBlk := put_be_loop 2 4 lba wsCmdBlk
    let wsCmdBlk := put wsCmdBlk 6 (cand32 op.grpnum 0x1f)
    let wsCmdBlk := put wsCmdBlk 7 (cand32 (sar op.numblocks 8) 0xff)
    let wsCmdBlk := put wsCmdBlk 8 (cand32 op.numblocks 0xff)
    ⟨cdb_len, some (wsCmdBlk.take 10)⟩
  else if cdb_len = WRITE_SAME16_LEN then
    let wsCmdBlk := put wsCmdBlk 0 WRITE_SAME16_OP
    let wsCmdBlk := put wsCmdBlk 1 ((cand32 op.wrprotect 0x7) <<< 5)
    let wsCmdBlk := if op.anchor ≠ 0 then putOr wsCmdBlk 1 0x10 else wsCmdBlk
    let wsCmdBlk := if op.unmap ≠ 0 then putOr wsCmdBlk 1 0x8 else wsCmdBlk
    let wsCmdBlk := if op.pbdata ≠ 0 then putOr wsCmdBlk 1 0x4 else wsCmdBlk
    let wsCmdBlk := if op.lbdata ≠ 0 then putOr wsCmdBlk 1 0x2 else wsCmdBlk
    let wsCmdBlk := if op.ndob ≠ 0 then putOr wsCmdBlk 1 0x1 else wsCmdBlk
    let llba : Nat := op.lba % 2 ^ 64
    let wsCmdBlk := put_be_loop 2 8 llba wsCmdBlk
    let unum : Nat := bits32 op.numblocks
    let wsCmdBlk := put_be_loop 10 4 unum wsCmdBlk
    let wsCmdBlk := put wsCmdBlk 14 (cand32 op.grpnum 0x1f)
    ⟨cdb_len, some (wsCmdBlk.take 16)⟩
  else if cdb_len = WRITE_SAME32_LEN then
    let wsCmdBlk := put wsCmdBlk 0 VARIABLE_LEN_OP
    let wsCmdBlk := put wsCmdBlk 6 (cand32 op.grpnum 0x1f)
    let wsCmdBlk := put wsCmdBlk 7 WRITE_SAME32_ADD
    let wsCmdBlk := put wsCmdBlk 8 ((WRITE_SAME32_SA >>> 8) &&& 0xff)
    let wsCmdBlk := put wsCmdBlk 9 (WRITE_SAME32_SA &&& 0xff)
    let wsCmdBlk := put wsCmdBlk 10 ((cand32 op.wrprotect 0x7) <<< 5)
    let wsCmdBlk := if op.anchor ≠ 0 then putOr wsCmdBlk 10 0x10 else wsCmdBlk
    let wsCmdBlk := if op.unmap ≠ 0 then putOr wsCmdBlk 10 0x8 else wsCmdBlk
    let wsCmdBlk := if op.pbdata ≠ 0 then putOr wsCmdBlk 10 0x4 else wsCmdBlk
    let wsCmdBlk := if op.lbdata ≠ 0 then putOr wsCmdBlk 10 0x2 else wsCmdBlk
    let wsCmdBlk := if op.ndob ≠ 0 then putOr wsCmdBlk 10 0x1 else wsCmdBlk
    let llba : Nat := op.lba % 2 ^ 64
    let wsCmdBlk := put_be_loop 12 8 llba wsCmdBlk
    let unum : Nat := bits32 op.numblocks
    let wsCmdBlk := put_be_loop 28 4 unum wsCmdBlk
    ⟨cdb_len, some (wsCmdBlk.take 32)⟩
  else
    ⟨cdb_len, none⟩

end sg_write_same

/-! ## sg_write_verify.c -/

namespace sg_write_verify

def WRITE_VERIFY10_CMD : Nat := 0x2e
def WRITE_VERIFY10_CMDLEN : Nat := 10
def WRITE_VERIFY16_CMD : Nat := 0x8e
def WRITE_VERIFY16_CMDLEN : Nat := 16
def WRPROTECT_MASK : Nat := 0x7
def WRPROTECT_SHIFT : Nat := 5

/-- The function `sg_ll_write_verify10`: the ten bytes of `wv_cdb` it hands to
`run_scsi_transaction`. `lba` is the `unsigned int` argument. -/
def sg_ll_write_verify10 (wrprotect dpo bytchk : Int) (lba : Nat) (num_lb group : Int) :
    List Nat :=
  let wv_cdb : List Nat := List.replicate WRITE_VERIFY10_CMDLEN 0
  let wv_cdb := put wv_cdb 0 WRITE_VERIFY10_CMD
  let wv_cdb := put wv_cdb 1 ((cand32 wrprotect WRPROTECT_MASK) <<< WRPROTECT_SHIFT)
  let wv_cdb := if dpo ≠ 0 then putOr wv_cdb 1 0x10 else wv_cdb
  let wv_cdb := if bytchk ≠ 0 then putOr wv_cdb 1 ((cand32 bytchk 0x3) <<< 1) else wv_cdb
  let wv_cdb := put wv_cdb 2 ((lba >>> 24) &&& 0xff)
  let wv_cdb := put wv_cdb 3 ((lba >>> 16) &&& 0xff)
  let wv_cdb := put wv_cdb 4 ((lba >>> 8) &&& 0xff)
  let wv_cdb := put wv_cdb 5 (lba &&& 0xff)
  let wv_cdb := put wv_cdb 6 (cand32 group 0x1f)
  let wv_cdb := put wv_cdb 7 (cand32 (sar num_lb 8) 0xff)
  let wv_cdb := put wv_cdb 8 (cand32 num_lb 0xff)
  wv_cdb

/-- The function `sg_ll_write_verify16`: the sixteen bytes of `wv_cdb` it hands
to `run_scsi_transaction`. `llba` is the `uint64_t` argument. -/
def sg_ll_write_verify16 (wrprotect dpo bytchk : Int) (llba : Nat) (num_lb group : Int) :
    List Nat :=
  let wv_cdb : List Nat := List.replicate WRITE_VERIFY16_CMDLEN 0
  let wv_cdb := put wv_cdb 0 WRITE_VERIFY16_CMD
  let wv_cdb := put wv_cdb 1 ((cand32 wrprotect WRPROTECT_MASK) <<< WRPROTECT_SHIFT)
  let wv_cdb := if dpo ≠ 0 then putOr wv_cdb 1 0x10 else wv_cdb
  let wv_cdb := if bytchk ≠ 0 then putOr wv_cdb 1 ((cand32 bytchk 0x3) <<< 1) else wv_cdb
  let wv_cdb := put wv_cdb 2 ((llba >>> 56) &&& 0xff)
  let wv_cdb := put wv_cdb 3 ((llba >>> 48) &&& 0xff)
  let wv_cdb := put wv_cdb 4 ((llba >>> 40) &&& 0xff)
  let wv_cdb := put wv_cdb 5 ((llba >>> 32) &&& 0xff)
  let wv_cdb := put wv_cdb 6 ((llba >>> 24) &&& 0xff)
  let wv_cdb := put wv_cdb 7 ((llba >>> 16) &&& 0xff)
  let wv_cdb := put wv_cdb 8 ((llba >>> 8) &&& 0xff)
  let wv_cdb := put wv_cdb 9 (llba &&& 0xff)
  let wv_cdb := put wv_cdb 10 (cand32 (sar num_lb 24) 0xff)
  let wv_cdb := put wv_cdb 11 (cand32 (sar num_lb 16) 0xff)
  let wv_cdb := put wv_cdb 12 (cand32 (sar num_lb 8) 0xff)
  let wv_cdb := put wv_cdb 13 (cand32 num_lb 0xff)
  let wv_cdb := put wv_cdb 14 (cand32 group 0x1f)
  wv_cdb

end sg_write_verify

/-! ## sg_unaligned.h -/

namespace sg_unaligned

/-- Modelled from the spec: `sg_put_unaligned_be24` of the header
`sg_unaligned.h`, which is not among the sources. Section 4.1 (Field
Packing): the value is written most significant byte first into the three
bytes at `off`, silently truncated to the width of the field. -/
def sg_put_unaligned_be24 (val : Nat) (buf : List Nat) (off : Nat) : List Nat :=
  let buf := put buf off ((val >>> 16) &&& 0xff)
  let buf := put buf (off + 1) ((val >>> 8) &&& 0xff)
  put buf (off + 2) (val &&& 0xff)

/-- Modelled from the spec: `sg_put_unaligned_be32` of the header
`sg_unaligned.h`, which is not among the sources. Section 4.1 (Field
Packing): the value is written most significant byte first into the four
bytes at `off`. -/
def sg_put_unaligned_be32 (val : Nat) (buf : List Nat) (off : Nat) : List Nat :=
  let buf := put buf off ((val >>> 24) &&& 0xff)
  let buf := put buf (off + 1) ((val >>> 16) &&& 0xff)
  let buf := put buf (off + 2) ((val >>> 8) &&& 0xff)
  put buf (off + 3) (val &&& 0xff)

/-- Modelled from the spec: `sg_put_unaligned_be64` of the header
`sg_unaligned.h`, which is not among the sources. Section 4.1 (Field
Packing): the value is written most significant byte first into the eight
bytes at `off`. -/
def sg_put_unaligned_be64 (val : Nat) (buf : List Nat) (off : Nat) : List Nat :=
  let buf := put buf off ((val >>> 56) &&& 0xff)
  let buf := put buf (off + 1) ((val >>> 48) &&& 0xff)
  let buf := put buf (off + 2) ((val >>> 40) &&& 0xff)
  let buf := put buf (off + 3) ((val >>> 32) &&& 0xff)
  let buf := put buf (off + 4) ((val >>> 24) &&& 0xff)
  let buf := put buf (off + 5) ((val >>> 16) &&& 0xff)
  let buf := put buf (off + 6) ((val >>> 8) &&& 0xff)
  put buf (off + 7) (val &&& 0xff)

end sg_unaligned

open sg_unaligned

/-! ## sg_read_buffer.c -/

namespace sg_read_buffer

def SG_READ_BUFFER_10_CMD : Nat := 0x3c
def SG_READ_BUFFER_10_CMDLEN : Nat := 10
def SG_READ_BUFFER_16_CMD : Nat := 0x9b
def SG_READ_BUFFER_16_CMDLEN : Nat := 16

/-- The function `ll_read_buffer_10`: the ten bytes of `rb10_cb` it hands to
`set_scsi_pt_cdb`. `rb_offset` is the `uint32_t` argument; the `int`
`mx_resp_len` is converted to `uint32_t` at the call of the packing helper. -/
def ll_read_buffer_10 (rb_mode rb_mode_sp rb_id : Int) (rb_offset : Nat)
    (mx_resp_len : Int) : List Nat :=
  let rb10_cb : List Nat := [SG_READ_BUFFER_10_CMD, 0, 0, 0, 0, 0, 0, 0, 0, 0]
  let rb10_cb := put rb10_cb 1 (cand32 rb_mode 0x1f)
  let rb10_cb :=
    if rb_mode_sp ≠ 0 then putOr rb10_cb 1 ((cand32 rb_mode_sp 0x7) <<< 5) else rb10_cb
  let rb10_cb := put rb10_cb 2 (bits32 rb_id)
  let rb10_cb := sg_put_unaligned_be24 (rb_offset % 2 ^ 32) rb10_cb 3
  let rb10_cb := sg_put_unaligned_be24 (bits32 mx_resp_len) rb10_cb 6
  rb10_cb

/-- The function `ll_read_buffer_16`: the sixteen bytes of `rb16_cb` it hands
to `set_scsi_pt_cdb`. `rb_offset` is the `uint64_t` argument. -/
def ll_read_buffer_16 (rb_mode rb_mode_sp rb_id : Int) (rb_offset : Nat)
    (mx_resp_len : Int) : List Nat :=
  let rb16_cb : List Nat :=
    [SG_READ_BUFFER_16_CMD, 0, 0, 0, 0, 0, 0, 0, 0, 0, 0, 0, 0, 0, 0, 0]
  let rb16_cb := put rb16_cb 1 (cand32 rb_mode 0x1f)
  let rb16_cb :=
    if rb_mode_sp ≠ 0 then putOr rb16_cb 1 ((cand32 rb_mode_sp 0x7) <<< 5) else rb16_cb
  let rb16_cb := sg_put_unaligned_be64 (rb_offset % 2 ^ 64) rb16_cb 2
  let rb16_cb := sg_put_unaligned_be24 (bits32 mx_resp_len) rb16_cb 11
  let rb16_cb := put rb16_cb 14 (bits32 rb_id)
  rb16_cb

end sg_read_buffer

/-! ## sg_rep_zones.c -/

namespace sg_rep_zones

/-- Modelled from the spec: the opcode `SG_ZONING_IN` of the library headers,
which are not among the sources. Section 6: REPORT ZONES has opcode 0x95
(SG_ZONING_IN). -/
def SG_ZONING_IN : Nat := 0x95
def SG_ZONING_IN_CMDLEN : Nat := 16
def REPORT_ZONES_SA : Nat := 0x0

/-- The function `sg_ll_report_zones`: the sixteen bytes of `rzCmdBlk` it
hands to `set_scsi_pt_cdb`. `zs_lba` is the `uint64_t` argument. -/
def sg_ll_report_zones (zs_lba : Nat) (report_opts : Int) (mx_resp_len : Int) :
    List Nat :=
  let rzCmdBlk : List Nat :=
    [SG_ZONING_IN, REPORT_ZONES_SA, 0, 0, 0, 0, 0, 0, 0, 0, 0, 0, 0, 0, 0, 0]
  let rzCmdBlk := sg_put_unaligned_be64 (zs_lba % 2 ^ 64) rzCmdBlk 2
  let rzCmdBlk := sg_put_unaligned_be32 (bits32 mx_resp_len) rzCmdBlk 10
  let rzCmdBlk := put rzCmdBlk 14 (cand32 report_opts 0xf)
  rzCmdBlk

end sg_rep_zones

/-! ## sg_reset_wp.c -/

namespace sg_reset_wp

/-- Modelled from the spec: the opcode `SG_ZONING_OUT` of the library headers,
which are not among the sources. Section 6: RESET WRITE POINTER has opcode
0x94 (SG_ZONING_OUT). -/
def SG_ZONING_OUT : Nat := 0x94
def SG_ZONING_OUT_CMDLEN : Nat := 16
def RESET_WRITE_POINTER_SA : Nat := 0x4

/-- The function `sg_ll_reset_write_pointer`: the sixteen bytes of `rwpCmdBlk`
it hands to `set_scsi_pt_cdb`. `zid` is the `uint64_t` argument. -/
def sg_ll_reset_write_pointer (zid : Nat) (all : Int) : List Nat :=
  let rwpCmdBlk : List Nat :=
    [SG_ZONING_OUT, RESET_WRITE_POINTER_SA, 0, 0, 0, 0, 0, 0, 0, 0, 0, 0, 0, 0, 0, 0]
  let rwpCmdBlk := sg_put_unaligned_be64 (zid % 2 ^ 64) rwpCmdBlk 2
  let rwpCmdBlk := if all ≠ 0 then put rwpCmdBlk 14 0x1 else rwpCmdBlk
  rwpCmdBlk

end sg_reset_wp

/-! ## sg_luns.c -/

namespace sg_luns

def MAX_RLUNS_BUFF_LEN : Int := 1024 * 1024
def DEF_RLUNS_BUFF_LEN : Int := 1024 * 8

/-- What the REPORT LUNS decoder of `main` produces: the variables `list_len`,
`luns` and `trunc` when the loop is entered, and the LUN entries the loop
prints (eight bytes each), in order. -/
structure luns_report where
  list_len : Int
  luns : Int
  trunc : Int
  entries : List (List Nat)
  deriving DecidableEq, Repr

/-- The loop `for (k = 0, off = 8; k < luns; ++k, off += 8)` of `main`, with
the number of iterations left as first argument: each iteration prints the
eight bytes `reportLunsBuff[off + m]`, m = 0..7. A byte the buffer does not
hold reads as 0 here. -/
def lun_loop (reportLunsBuff : List Nat) : Nat → Nat → List (List Nat)
  | 0, _ => []
  | n + 1, off =>
    (List.range 8).map (fun m => reportLunsBuff.getD (off + m) 0) ::
      lun_loop reportLunsBuff n (off + 8)

/-- The REPORT LUNS decoder of `main`, from `if (0 == maxlen)` to the end of
the loop, on the path where the command succeeded and neither `--raw` nor a
single `--hex` was given. `maxlen` is the value of the option, and
`reportLunsBuff` the buffer after the command. The `int` arithmetic wraps
at 32 bits, and `/` truncates toward zero. The two assignments of the
statement `if ((list_len + 8) > maxlen)` are the two conditionals on
`too_many`. -/
def main (reportLunsBuff : List Nat) (maxlen : Int) : luns_report :=
  let maxlen : Int := if 0 = maxlen then DEF_RLUNS_BUFF_LEN else maxlen
  let trunc : Int := 0
  let b : Nat → Int := fun i => (reportLunsBuff.getD i 0 : Nat)
  let list_len : Int :=
    toInt32 (toInt32 (toInt32 (toInt32 (b 0 * 2 ^ 24) + toInt32 (b 1 * 2 ^ 16)) +
      toInt32 (b 2 * 2 ^ 8)) + b 3)
  let luns : Int := Int.tdiv list_len 8
  let too_many : Prop := toInt32 (list_len + 8) > maxlen
  let luns : Int := if too_many then Int.tdiv (toInt32 (maxlen - 8)) 8 else luns
  let trunc : Int := if too_many then 1 else trunc
  ⟨list_len, luns, trunc, lun_loop reportLunsBuff luns.toNat 8⟩

end sg_luns

/-! ## Output and library constants -/

namespace Stdio

/-- An argument of a `printf` call: a string (`%s`), a signed integer (`%d`,
`%x` of an `int`) or an unsigned 64 bit integer (`PRIx64`, `PRIu64`). -/
inductive parg where
  | s (v : String)
  | d (v : Int)
  | u (v : Nat)
  deriving DecidableEq, Repr

/-- One output event of a program: a `printf` / `fprintf` / `pr2serr` call
with its format string and arguments, or a call of an output routine of the
library (`dStrHex`, `dStrRaw`, `print_modes`, ...) with its arguments, a
buffer argument being given as its offset in the buffer at hand. -/
inductive outev where
  | printf (fmt : String) (args : List parg)
  | call (fn : String) (args : List parg)
  deriving DecidableEq, Repr

/-- The macro `PRIx64` of `<inttypes.h>` as a string (its LP64 value). -/
def PRIx64 : String := "lx"

/-- The macro `PRIu64` of `<inttypes.h>` as a string (its LP64 value). -/
def PRIu64 : String := "lu"

/-- The text `printf` writes for `%x`: lower case hexadecimal, no padding. -/
def fmt_x (n : Nat) : String := String.mk (Nat.toDigits 16 n)

end Stdio

open Stdio

namespace sg_lib

/-- Modelled from the spec: `SG_LIB_CAT_MISCOMPARE` of `sg_lib.h`, which is not
among the sources. Section 6: exit code 14 for miscompare. -/
def SG_LIB_CAT_MISCOMPARE : Int := 14

/-- Modelled from the spec: `SG_LIB_SYNTAX_ERROR` of `sg_lib.h`, which is not
among the sources. Section 6: exit code 1 for generic/syntax errors. -/
def SG_LIB_SYNTAX_ERROR : Int := 1

/-- Modelled from the spec: `SPC_SK_NO_SENSE` of `sg_lib.h`, which is not among
the sources. Section 8: sense-key=NO_SENSE (0x0). -/
def SPC_SK_NO_SENSE : Int := 0

/-- The constants of `sg_lib.h` and `sg_cmds_basic.h` the sources use and the
specification gives no value for: they are parameters of the programs. -/
structure sg_lib_h where
  SG_LIB_CAT_NOT_READY : Int
  SG_LIB_CAT_MEDIUM_HARD : Int
  SG_LIB_CAT_ILLEGAL_REQ : Int
  SG_LIB_CAT_UNIT_ATTENTION : Int
  SG_LIB_CAT_DATA_PROTECT : Int
  SG_LIB_CAT_INVALID_OP : Int
  SG_LIB_CAT_ABORTED_COMMAND : Int
  SG_LIB_FILE_ERROR : Int
  SG_LIB_CAT_NO_SENSE : Int
  SG_LIB_CAT_RECOVERED : Int
  SG_LIB_CAT_RES_CONFLICT : Int
  SG_LIB_CAT_PROTECTION : Int
  SG_LIB_CAT_MALFORMED : Int
  SG_LIB_CAT_SENSE : Int
  SG_LIB_CAT_OTHER : Int
  SPC_SK_RECOVERED_ERROR : Int
  SPC_SK_NOT_READY : Int
  SPC_SK_MEDIUM_ERROR : Int
  SPC_SK_HARDWARE_ERROR : Int
  SPC_SK_ILLEGAL_REQUEST : Int
  SPC_SK_UNIT_ATTENTION : Int
  SPC_SK_DATA_PROTECT : Int
  SPC_SK_ABORTED_COMMAND : Int
  SAM_STAT_CHECK_CONDITION : Nat
  SAM_STAT_RESERVATION_CONFLICT : Int

/-- The category codes are positive exit statuses, different from each other
and from the two the specification fixes; the sense keys are different from
each other (they are `case` labels of one `switch`). -/
def sg_lib_h.wf (K : sg_lib_h) : Prop :=
  List.Nodup [0, SG_LIB_SYNTAX_ERROR, SG_LIB_CAT_MISCOMPARE, K.SG_LIB_CAT_NOT_READY,
    K.SG_LIB_CAT_MEDIUM_HARD, K.SG_LIB_CAT_ILLEGAL_REQ, K.SG_LIB_CAT_UNIT_ATTENTION,
    K.SG_LIB_CAT_DATA_PROTECT, K.SG_LIB_CAT_INVALID_OP, K.SG_LIB_CAT_ABORTED_COMMAND,
    K.SG_LIB_FILE_ERROR, K.SG_LIB_CAT_NO_SENSE, K.SG_LIB_CAT_RECOVERED,
    K.SG_LIB_CAT_RES_CONFLICT, K.SG_LIB_CAT_PROTECTION, K.SG_LIB_CAT_MALFORMED,
    K.SG_LIB_CAT_SENSE, K.SG_LIB_CAT_OTHER] ∧
  List.Nodup [SPC_SK_NO_SENSE, K.SPC_SK_RECOVERED_ERROR, K.SPC_SK_NOT_READY,
    K.SPC_SK_MEDIUM_ERROR, K.SPC_SK_HARDWARE_ERROR, K.SPC_SK_ILLEGAL_REQUEST,
    K.SPC_SK_UNIT_ATTENTION, K.SPC_SK_DATA_PROTECT, K.SPC_SK_ABORTED_COMMAND]

instance (K : sg_lib_h) : Decidable K.wf := by
  unfold sg_lib_h.wf
  infer_instance

/-- One choice of the constants, used where a concrete value is needed. -/
def sample : sg_lib_h :=
  ⟨2, 3, 5, 6, 7, 9, 11, 15, 20, 21, 24, 40, 97, 98, 99,
   1, 2, 3, 4, 5, 6, 7, 11, 2, 24⟩

end sg_lib

open sg_lib

namespace sg_unaligned

/-- Modelled from the spec: `sg_get_unaligned_be32` of the header
`sg_unaligned.h`, which is not among the sources. Sections 3 and 4.3: the
four bytes at `off` read as a big-endian integer. -/
def sg_get_unaligned_be32 (buf : List Nat) (off : Nat) : Nat :=
  beValue ((List.range 4).map (fun i => buf.getD (off + i) 0))

/-- Modelled from the spec: `sg_get_unaligned_be64` of the header
`sg_unaligned.h`, which is not among the sources. Section 3: the eight bytes
at `off` read as a big-endian integer. -/
def sg_get_unaligned_be64 (buf : List Nat) (off : Nat) : Nat :=
  beValue ((List.range 8).map (fun i => buf.getD (off + i) 0))

end sg_unaligned

namespace sg_rep_zones

def MAX_RZONES_BUFF_LEN : Int := 1024 * 1024
def DEF_RZONES_BUFF_LEN : Int := 1024 * 8

/-- The function `zone_type_str` (for a buffer `b` that is not NULL): the text
it leaves in `b`. -/
def zone_type_str (zt : Nat) (vb : Int) : String :=
  let cp : Option String :=
    if zt = 1 then some "Conventional"
    else if zt = 2 then some "Sequential write required"
    else if zt = 3 then some "Sequential write preferred"
    else none
  match cp with
  | some c => if vb ≠ 0 then c ++ " [0x" ++ fmt_x zt ++ "]" else c
  | none => "Reserved [0x" ++ fmt_x zt ++ "]"

/-- The function `zone_condition_str` (for a buffer `b` that is not NULL): the
text it leaves in `b`. -/
def zone_condition_str (zc : Nat) (vb : Int) : String :=
  let cp : Option String :=
    if zc = 0 then some "No write pointer"
    else if zc = 1 then some "Empty"
    else if zc = 2 then some "Open"
    else if zc = 0xd then some "Read only"
    else if zc = 0xe then some "Full"
    else if zc = 0xf then some "Offline"
    else none
  match cp with
  | some c => if vb ≠ 0 then c ++ " [0x" ++ fmt_x zc ++ "]" else c
  | none => "Reserved [0x" ++ fmt_x zc ++ "]"

def same_desc_arr : List String :=
  ["zone type and length may differ in each descriptor",
   "zone type and length same in each descriptor",
   "zone type and length same apart from length in last descriptor",
   "Reserved"]

/-- One pass of the descriptor loop of `main`: the offset `ucp` of the
descriptor in `reportZonesBuff` and what the pass prints. -/
structure zone_pass where
  k : Nat
  ucp : Nat
  out : List outev
  deriving DecidableEq, Repr

/-- The body of the loop `for (k = 0, ucp = reportZonesBuff + 64; k < zones;
++k, ucp += 64)` of `main`, for the descriptor at offset `ucp`. -/
def zone_body (reportZonesBuff : List Nat) (len do_hex verbose : Int) (k ucp : Nat) :
    zone_pass :=
  let u : Nat → Nat := fun i => reportZonesBuff.getD (ucp + i) 0
  let head : outev := .printf " Zone descriptor: %d\n" [.d k]
  if do_hex ≠ 0 then
    ⟨k, ucp, [head, .call "dStrHex" [.u ucp, .d len, .d (-1)]]⟩
  else
    let zt : Nat := u 0 &&& 0xf
    let zc : Nat := (u 1 >>> 4) &&& 0xf
    ⟨k, ucp,
     [head,
      .printf "   Zone type: %s\n" [.s (zone_type_str zt verbose)],
      .printf "   Zone condition: %s\n" [.s (zone_condition_str zc verbose)],
      .printf "   Non_seq: %d\n" [.d (if (u 1 &&& 0x2) ≠ 0 then 1 else 0)],
      .printf "   Reset: %d\n" [.d ((u 1 &&& 0x1 : Nat) : Int)],
      .printf ("   Zone Length: 0x%" ++ PRIx64 ++ "\n")
        [.u (sg_get_unaligned_be64 reportZonesBuff (ucp + 8))],
      .printf ("   Zone start LBA: 0x%" ++ PRIx64 ++ "\n")
        [.u (sg_get_unaligned_be64 reportZonesBuff (ucp + 16))],
      .printf ("   Write pointer LBA: 0x%" ++ PRIx64 ++ "\n")
        [.u (sg_get_unaligned_be64 reportZonesBuff (ucp + 24))]]⟩

/-- The descriptor loop of `main`, with the number of passes left as first
argument after the options. -/
def zone_loop (reportZonesBuff : List Nat) (len do_hex verbose : Int) :
    Nat → Nat → Nat → List zone_pass
  | 0, _, _ => []
  | n + 1, k, ucp =>
    zone_body reportZonesBuff len do_hex verbose k ucp ::
      zone_loop reportZonesBuff len do_hex verbose n (k + 1) (ucp + 64)

/-- What the REPORT ZONES decoder of `main` has done when it reaches
`the_end`: the variable `ret`, the output on stdout and on stderr, and the
passes of the descriptor loop. -/
structure zones_report where
  ret : Int
  out : List outev
  err : List outev
  passes : List zone_pass
  deriving DecidableEq, Repr

/-- The REPORT ZONES decoder of `main`: the branch `if (0 == res)` after the
command, up to the label `the_end`. `maxlen` is the size of
`reportZonesBuff` (the option, or 8192 for 0) and `resid` the residual count
of the command. The `int` arithmetic wraps at 32 bits; the sum
`sg_get_unaligned_be32(...) + 64` is an `unsigned int` converted to `int`. -/
def main (K : sg_lib_h) (reportZonesBuff : List Nat)
    (maxlen resid do_raw do_hex verbose : Int) : zones_report :=
  let rlen : Int := toInt32 (maxlen - resid)
  if rlen < 4 then
    ⟨K.SG_LIB_CAT_MALFORMED, [],
      [.printf "Response length (%d) too short\n" [.d rlen]], []⟩
  else
    let zl_len : Int := toInt32 ((sg_get_unaligned_be32 reportZonesBuff 0 : Nat) + 64)
    let err1 : List outev :=
      if zl_len > rlen ∧ verbose ≠ 0 then
        [.printf "zl_len available is %d, response length is %d\n" [.d zl_len, .d rlen]]
      else []
    let len : Int := if zl_len > rlen then rlen else zl_len
    if do_raw ≠ 0 then
      ⟨0, [.call "dStrRaw" [.u 0, .d len]], err1, []⟩
    else if do_hex ≠ 0 ∧ 2 ≠ do_hex then
      ⟨0, [.call "dStrHex" [.u 0, .d len, .d (if 1 = do_hex then 1 else -1)]], err1, []⟩
    else
      let out1 : List outev := [.printf "Report zones response:\n" []]
      if len < 64 then
        ⟨K.SG_LIB_CAT_MALFORMED, out1,
          err1 ++ [.printf "Zone length [%d] too short (perhaps after truncation\n)"
            [.d len]], []⟩
      else
        let same : Nat := reportZonesBuff.getD 4 0 &&& 3
        let out2 : List outev :=
          [.printf "  Same=%d: %s\n\n" [.d same, .s (same_desc_arr.getD same "")]]
        let zones : Int := Int.tdiv (toInt32 (len - 64)) 64
        let passes := zone_loop reportZonesBuff len do_hex verbose zones.toNat 0 64
        let out3 : List outev :=
          if toInt32 (64 + toInt32 (64 * zones)) < zl_len then
            [.printf "\n>>> Beware: Zone list truncated, may need another call\n" []]
          else []
        ⟨0, out1 ++ out2 ++ (passes.map (fun p => p.out)).flatten ++ out3, err1, passes⟩

end sg_rep_zones

/-! ## sg_luns.c: decode_lun -/

namespace sg_luns

/-- The array `not_spec` of `decode_lun`. -/
def not_spec : List Nat := [0xff, 0xff, 0xff, 0xff, 0xff, 0xff, 0xff, 0xff]

/-- The call `strncpy(l_leadin, leadin, sizeof(l_leadin) - 3)` on the 128 byte
buffer `l_leadin`: the string the buffer holds afterwards. A `leadin` of less
than 125 characters replaces the contents; of a longer one the first 125
characters are copied without a terminator, and what the buffer held from
position 125 on stays. -/
def strncpy_l_leadin (l_leadin leadin : String) : String :=
  if leadin.length < 125 then leadin
  else String.mk (leadin.data.take 125 ++ l_leadin.data.drop 125)

/-- The loops `for (j = 0; j < x; ++j) { if (j > 0) ull <<= 8; ull |= lunp[1 + j]; }`
of `decode_lun`, with `x` the first argument and `lunp` at offset `off`. -/
def ull_loop (lun : List Nat) (off : Nat) (x : Nat) : Nat :=
  (List.range x).foldl
    (fun ull j => ((if j > 0 then (ull <<< 8) % 2 ^ 64 else ull) ||| lun.getD (off + 1 + j) 0))
    0

/-- The `case 0` of the switch of `decode_lun` (peripheral device addressing
method): what it prints and the value it leaves in `next_level`. -/
def case_0 (l_leadin : String) (lunp0 lunp1 : Nat) (lu_cong lu_cong_admin do_hex verbose : Int) :
    List outev × Int :=
  if lu_cong ≠ 0 then
    let b : String := l_leadin ++ "Simple lu addressing: "
    let x : Int := (((lunp0 &&& 0x3f) <<< 8) + lunp1 : Nat)
    ([if do_hex ≠ 0 then .printf "%s0x%04x\n" [.s b, .d x] else .printf "%s%d\n" [.s b, .d x]],
     if lu_cong_admin ≠ 0 then 1 else 0)
  else
    let bus_id : Nat := lunp0 &&& 0x3f
    let b : String := l_leadin ++ "Peripheral device addressing: "
    ([if 0 = bus_id ∧ 0 = verbose then
        (if do_hex ≠ 0 then .printf "%slun=0x%02x\n" [.s b, .d lunp1]
         else .printf "%slun=%d\n" [.s b, .d lunp1])
      else
        (if do_hex ≠ 0 then
          .printf "%sbus_id=0x%02x, %s=0x%02x\n"
            [.s b, .d bus_id, .s (if bus_id ≠ 0 then "target" else "lun"), .d lunp1]
         else
          .printf "%sbus_id=%d, %s=%d\n"
            [.s b, .d bus_id, .s (if bus_id ≠ 0 then "target" else "lun"), .d lunp1])],
     if bus_id ≠ 0 then 1 else 0)

/-- The `case 1` of the switch of `decode_lun` (flat space addressing). -/
def case_1 (l_leadin : String) (lunp0 lunp1 : Nat) (lu_cong do_hex : Int) : List outev :=
  let lun : Int := (((lunp0 &&& 0x3f) <<< 8) + lunp1 : Nat)
  if lu_cong ≠ 0 then
    [.printf "%sSince LU_CONG=1, unexpected Flat space addressing: lun=0x%04x\n"
      [.s l_leadin, .d lun]]
  else if do_hex ≠ 0 then
    [.printf "%sFlat space addressing: lun=0x%04x\n" [.s l_leadin, .d lun]]
  else
    [.printf "%sFlat space addressing: lun=%d\n" [.s l_leadin, .d lun]]

/-- The `case 2` of the switch of `decode_lun` (logical unit addressing). -/
def case_2 (l_leadin : String) (lunp0 lunp1 : Nat) (lu_cong do_hex : Int) : List outev :=
  let target : Int := ((lunp0 &&& 0x3f : Nat) : Int)
  let bus_id : Int := (((lunp1 >>> 5) &&& 0x7 : Nat) : Int)
  let lun : Int := ((lunp1 &&& 0x1f : Nat) : Int)
  if lu_cong ≠ 0 then
    [.printf
      "%sSince LU_CONG=1, unexpected lu addressing: bus_id=0x%x, target=0x%02x, lun=0x%02x\n"
      [.s l_leadin, .d bus_id, .d target, .d lun]]
  else if do_hex ≠ 0 then
    [.printf "%sLogical unit addressing: bus_id=0x%x, target=0x%02x, lun=0x%02x\n"
      [.s l_leadin, .d bus_id, .d target, .d lun]]
  else
    [.printf "%sLogical unit addressing: bus_id=%d, target=%d, lun=%d\n"
      [.s l_leadin, .d bus_id, .d target, .d lun]]

/-- The `case 3` of the switch of `decode_lun` (extended logical unit and flat
space addressing), for the level whose two bytes are at offset `off`. -/
def case_3 (l_leadin : String) (lun : List Nat) (off : Nat) (do_hex : Int) : List outev :=
  let lunp : Nat → Nat := fun i => lun.getD (off + i) 0
  let len_fld : Nat := (lunp 0 &&& 0x30) >>> 4
  let e_a_method : Nat := lunp 0 &&& 0xf
  let x : Int := (lunp 1 : Nat)
  let x3 : Int := (((lunp 1 <<< 16) + (lunp 2 <<< 8) + lunp 3 : Nat) : Int)
  if 0 = len_fld ∧ 1 = e_a_method then
    let b : String := "well known logical unit"
    if x = 1 then [.printf "%sREPORT LUNS %s\n" [.s l_leadin, .s b]]
    else if x = 2 then [.printf "%sACCESS CONTROLS %s\n" [.s l_leadin, .s b]]
    else if x = 3 then [.printf "%sTARGET LOG PAGES %s\n" [.s l_leadin, .s b]]
    else if x = 4 then [.printf "%sSECURITY PROTOCOL %s\n" [.s l_leadin, .s b]]
    else if x = 5 then [.printf "%sMANAGEMENT PROTOCOL %s\n" [.s l_leadin, .s b]]
    else if do_hex ≠ 0 then [.printf "%s%s 0x%02x\n" [.s l_leadin, .s b, .d x]]
    else [.printf "%s%s %d\n" [.s l_leadin, .s b, .d x]]
  else if 1 = len_fld ∧ 2 = e_a_method then
    if do_hex ≠ 0 then
      [.printf "%sExtended flat space addressing: lun=0x%06x\n" [.s l_leadin, .d x3]]
    else
      [.printf "%sExtended flat space addressing: lun=%d\n" [.s l_leadin, .d x3]]
  else if 2 = len_fld ∧ 2 = e_a_method then
    let ull : Nat := ull_loop lun off 5
    if do_hex ≠ 0 then
      [.printf ("%sLong extended flat space addressing: lun=0x%010" ++ PRIx64 ++ "\n")
        [.s l_leadin, .u ull]]
    else
      [.printf ("%sLong extended flat space addressing: lun=%" ++ PRIu64 ++ "\n")
        [.s l_leadin, .u ull]]
  else if 3 = len_fld ∧ 0xf = e_a_method then
    [.printf "%sLogical unit _not_ specified addressing\n" [.s l_leadin]]
  else if len_fld < 2 then
    let x : Int := if 1 = len_fld then x3 else x
    if do_hex ≠ 0 then
      [.printf "%sExtended logical unit addressing: length=%d, e.a. method=%d, value=0x%06x\n"
        [.s l_leadin, .d len_fld, .d e_a_method, .d x]]
    else
      [.printf "%sExtended logical unit addressing: length=%d, e.a. method=%d, value=%d\n"
        [.s l_leadin, .d len_fld, .d e_a_method, .d x]]
  else
    let x : Nat := if 2 = len_fld then 5 else 7
    let ull : Nat := ull_loop lun off x
    if do_hex ≠ 0 then
      [.printf "%sExtended logical unit addressing: length=%d, e. a. method=%d, "
        [.s l_leadin, .d len_fld, .d e_a_method],
       if 5 = len_fld then .printf ("value=0x%010" ++ PRIx64 ++ "\n") [.u ull]
       else .printf ("value=0x%014" ++ PRIx64 ++ "\n") [.u ull]]
    else
      [.printf ("%sExtended logical unit addressing: length=%d, e. a. method=%d, value=%"
          ++ PRIu64 ++ "\n")
        [.s l_leadin, .d len_fld, .d e_a_method, .u ull]]

/-- One pass of the loop `for (k = 0; k < 4; ++k, lunp += 2)` of `decode_lun`:
the level `k`, the addressing method read (none when the pass leaves the
loop before the switch), what the pass prints, and `next_level` at its end. -/
structure lun_level where
  k : Nat
  a_method : Option Nat
  out : List outev
  next_level : Int
  deriving DecidableEq, Repr

/-- The state one pass of the loop leaves: the record of the pass and the
variables `lu_cong_admin` and `l_leadin`. -/
structure lun_pass where
  level : lun_level
  lu_cong_admin : Int
  l_leadin : String

/-- The body of the loop of `decode_lun` for level `k`, whose two bytes are
`lunp[0]`, `lunp[1]` at offset `2 k` of the LUN. -/
def decode_lun_body (leadin : String) (lun : List Nat) (lu_cong do_hex verbose : Int)
    (k : Nat) (lu_cong_admin : Int) (l_leadin : String) : lun_pass :=
  let lunp : Nat → Nat := fun i => lun.getD (2 * k + i) 0
  let l_leadin : String := strncpy_l_leadin l_leadin leadin
  if k > 0 ∧ lu_cong ≠ 0 ∧ (0 = lunp 0 ∧ 0 = lunp 1) then
    ⟨⟨k, none,
      [.printf "%s>>>> Administrative LU\n" [.s l_leadin]] ++
        (if do_hex ≠ 0 ∨ verbose ≠ 0 then
          [.printf "        since Subsidiary element is 0x0000\n" []] else []),
      0⟩, 0, l_leadin⟩
  else
    let lu_cong_admin : Int := if k > 0 ∧ lu_cong ≠ 0 then 0 else lu_cong_admin
    let out1 : List outev :=
      if k > 0 then
        if lu_cong ≠ 0 then [.printf "%s>>Subsidiary element:\n" [.s l_leadin]]
        else [.printf "%s>>%s level addressing:\n"
          [.s l_leadin, .s (if 1 = k then "Second" else if 2 = k then "Third" else "Fourth")]]
      else if lu_cong ≠ 0 then [.printf "%s>>Administrative element:\n" [.s l_leadin]]
      else []
    let l_leadin : String := if k > 0 ∨ lu_cong ≠ 0 then l_leadin ++ "  " else l_leadin
    let a_method : Nat := (lunp 0 >>> 6) &&& 0x3
    let sw : List outev × Int :=
      if a_method = 0 then
        case_0 l_leadin (lunp 0) (lunp 1) lu_cong lu_cong_admin do_hex verbose
      else if a_method = 1 then (case_1 l_leadin (lunp 0) (lunp 1) lu_cong do_hex, 0)
      else if a_method = 2 then (case_2 l_leadin (lunp 0) (lunp 1) lu_cong do_hex, 0)
      else if a_method = 3 then (case_3 l_leadin lun (2 * k) do_hex, 0)
      else ([.printf "%s<<decode_lun: faulty logic>>\n" [.s l_leadin]], 0)
    let out3 : List outev :=
      if sw.2 = 0 ∧ 2 = a_method ∧ k < 3 ∧ (lunp 2 ≠ 0 ∨ lunp 3 ≠ 0) then
        [.printf "%s<<unexpected data at next level, continue>>\n" [.s l_leadin]]
      else []
    ⟨⟨k, some a_method, out1 ++ sw.1 ++ out3, sw.2⟩, lu_cong_admin, l_leadin⟩

/-- The loop `for (k = 0; k < 4; ++k, lunp += 2)` of `decode_lun` from level
`k` on, with the number of levels left (4 - k) as first argument after the
options: the passes made, in order. A pass that ends with `next_level` set
goes on to the next level (`continue`); any other pass leaves the loop. -/
def decode_lun_loop (leadin : String) (lun : List Nat) (lu_cong do_hex verbose : Int) :
    Nat → Nat → Int → String → List lun_level
  | 0, _, _, _ => []
  | n + 1, k, lu_cong_admin, l_leadin =>
    let p := decode_lun_body leadin lun lu_cong do_hex verbose k lu_cong_admin l_leadin
    p.level ::
      (if p.level.next_level ≠ 0 then
        decode_lun_loop leadin lun lu_cong do_hex verbose n (k + 1) p.lu_cong_admin p.l_leadin
       else [])

/-- The passes of the loop of `decode_lun` for a LUN that is not the pattern
`not_spec`. -/
def decode_lun_levels (leadin : String) (lun : List Nat) (lu_cong do_hex verbose : Int) :
    List lun_level :=
  decode_lun_loop leadin lun lu_cong do_hex verbose 4 0 lu_cong ""

/-- The function `decode_lun`: what it prints for the eight bytes `lunp`. -/
def decode_lun (leadin : String) (lunp : List Nat) (lu_cong do_hex verbose : Int) :
    List outev :=
  if (List.range 8).map (fun i => lunp.getD i 0) = not_spec then
    [.printf "%sLogical unit not specified\n" [.s leadin]]
  else
    ((decode_lun_levels leadin lunp lu_cong do_hex verbose).map (fun l => l.out)).flatten

end sg_luns

/-! ## sg_sat_set_features.c -/

namespace sg_sat_set_features

def SAT_ATA_RETURN_DESC : Nat := 9
def ASCQ_ATA_PT_INFO_AVAILABLE : Int := 0x1d

/-- The fields of `struct sg_scsi_sense_hdr` that `do_set_features` reads. -/
structure sg_scsi_sense_hdr where
  response_code : Int
  sense_key : Int
  asc : Int
  ascq : Int
  deriving DecidableEq, Repr

/-- What `do_set_features` returns and what it writes to stderr. -/
structure sf_result where
  ret : Int
  err : List outev
  deriving DecidableEq, Repr

/-- The end of `do_set_features`, after the classification of the result:
the note about an ATA result descriptor that was not indicated, and the test
of the error bit of the descriptor when `got_ard` is set. -/
def do_set_features_end (K : sg_lib_h) (ata_return_desc : List Nat) (got_ard : Int)
    (err : List outev) : sf_result :=
  let err : List outev :=
    err ++
      (if SAT_ATA_RETURN_DESC = ata_return_desc.getD 0 0 ∧ 0 = got_ard then
        [.printf "Seem to have got ATA Result Descriptor but it was not indicated\n" []]
       else [])
  if got_ard ≠ 0 ∧ (ata_return_desc.getD 3 0 &&& 0x4) ≠ 0 then
    ⟨K.SG_LIB_CAT_ABORTED_COMMAND,
      err ++ [.printf "error indication in returned FIS: aborted command\n" []]⟩
  else ⟨0, err⟩

/-- The statement after the switch on the sense key in `do_set_features`,
reached by the `break`s of the switch: the sense data must be in descriptor
format. -/
def do_set_features_format (K : sg_lib_h) (sense_buffer ata_return_desc : List Nat)
    (got_ard : Int) (err : List outev) : sf_result :=
  if 0x72 ≠ (sense_buffer.getD 0 0 &&& 0x7f) then
    ⟨K.SG_LIB_CAT_MALFORMED,
      err ++ [.printf "expected descriptor sense format, response code=0x%x\n"
        [.d (sense_buffer.getD 0 0)]]⟩
  else do_set_features_end K ata_return_desc got_ard err

/-- The function `do_set_features` from the statement `if (0 == res)` on:
`res` is what `sg_ll_ata_pt` returned, `sense_buffer` and `ata_return_desc`
are the buffers it filled, and `ssh` is the header `sg_scsi_normalize_sense`
extracts from the sense buffer (none when it returns 0). -/
def do_set_features (K : sg_lib_h) (cdb_len verbose : Int) (res : Int)
    (sense_buffer : List Nat) (ssh : Option sg_scsi_sense_hdr)
    (ata_return_desc : List Nat) : sf_result :=
  if 0 = res then
    do_set_features_end K ata_return_desc 0
      (if verbose > 2 then [.printf "command completed with SCSI GOOD status\n" []] else [])
  else if res > 0 ∧ cand32 res K.SAM_STAT_CHECK_CONDITION ≠ 0 then
    let err : List outev :=
      if verbose > 1 then
        [.call "sg_print_sense" [.s "ATA pass through", .d 64,
          .d (if verbose > 2 then 1 else 0)]]
      else []
    match ssh with
    | none => ⟨K.SG_LIB_CAT_SENSE, err ++ [.printf "CHECK CONDITION without response code ??\n" []]⟩
    | some ssh =>
      if ssh.sense_key = K.SPC_SK_ILLEGAL_REQUEST then
        if 0x20 = ssh.asc ∧ 0x0 = ssh.ascq then
          ⟨K.SG_LIB_CAT_INVALID_OP,
            err ++ (if verbose < 2 then
              [.printf "ATA PASS-THROUGH (%d) not supported\n" [.d cdb_len]] else [])⟩
        else
          ⟨K.SG_LIB_CAT_ILLEGAL_REQ,
            err ++ (if verbose < 2 then
              [.printf "ATA PASS-THROUGH (%d), bad field in cdb\n" [.d cdb_len]] else [])⟩
      else if ssh.sense_key = SPC_SK_NO_SENSE ∨ ssh.sense_key = K.SPC_SK_RECOVERED_ERROR then
        if 0x0 = ssh.asc ∧ ASCQ_ATA_PT_INFO_AVAILABLE = ssh.ascq then
          if SAT_ATA_RETURN_DESC ≠ ata_return_desc.getD 0 0 then
            ⟨K.SG_LIB_CAT_RECOVERED,
              err ++ (if verbose ≠ 0 then
                [.printf "did not find ATA Return (sense) Descriptor\n" []] else [])⟩
          else do_set_features_format K sense_buffer ata_return_desc 1 err
        else if K.SPC_SK_RECOVERED_ERROR = ssh.sense_key then
          ⟨K.SG_LIB_CAT_RECOVERED, err⟩
        else if 0x0 = ssh.asc ∧ 0x0 = ssh.ascq then
          do_set_features_format K sense_buffer ata_return_desc 0 err
        else ⟨K.SG_LIB_CAT_SENSE, err⟩
      else if ssh.sense_key = K.SPC_SK_UNIT_ATTENTION then
        ⟨K.SG_LIB_CAT_UNIT_ATTENTION,
          err ++ (if verbose < 2 then
            [.printf "ATA PASS-THROUGH (%d), Unit Attention detected\n" [.d cdb_len]]
           else [])⟩
      else if ssh.sense_key = K.SPC_SK_NOT_READY then
        ⟨K.SG_LIB_CAT_NOT_READY,
          err ++ (if verbose < 2 then
            [.printf "ATA PASS-THROUGH (%d), device not ready\n" [.d cdb_len]] else [])⟩
      else if ssh.sense_key = K.SPC_SK_MEDIUM_ERROR ∨
          ssh.sense_key = K.SPC_SK_HARDWARE_ERROR then
        ⟨K.SG_LIB_CAT_MEDIUM_HARD,
          err ++ (if verbose < 2 then
            [.printf "ATA PASS-THROUGH (%d), medium or hardware error\n" [.d cdb_len]]
           else [])⟩
      else if ssh.sense_key = K.SPC_SK_ABORTED_COMMAND then
        if 0x10 = ssh.asc then
          ⟨K.SG_LIB_CAT_PROTECTION,
            err ++ [.printf "Aborted command: protection information\n" []]⟩
        else
          ⟨K.SG_LIB_CAT_ABORTED_COMMAND, err ++ [.printf "Aborted command\n" []]⟩
      else if ssh.sense_key = K.SPC_SK_DATA_PROTECT then
        ⟨K.SG_LIB_CAT_DATA_PROTECT,
          err ++ [.printf "ATA PASS-THROUGH (%d): data protect, read only media?\n"
            [.d cdb_len]]⟩
      else
        ⟨K.SG_LIB_CAT_SENSE,
          err ++ (if verbose < 2 then
            [.printf
              "ATA PASS-THROUGH (%d), some sense data, use '-v' for more information\n"
              [.d cdb_len]]
           else [])⟩
  else if res > 0 then
    if K.SAM_STAT_RESERVATION_CONFLICT = res then
      ⟨K.SG_LIB_CAT_RES_CONFLICT, [.printf "SCSI status: RESERVATION CONFLICT\n" []]⟩
    else
      ⟨K.SG_LIB_CAT_MALFORMED, [.printf "Unexpected SCSI status=0x%x\n" [.d res]]⟩
  else
    ⟨-1,
      [.printf "ATA pass through (%d) failed\n" [.d cdb_len]] ++
        (if verbose < 2 then [.printf "    try adding '-v' for more information\n" []]
         else [])⟩

end sg_sat_set_features

/-! ## sg_compare_and_write.c: the options, the command and main -/

namespace sg_compare_and_write

def DEF_BLOCK_SIZE : Int := 512
def DEF_NUM_BLOCKS : Int := 1
def DEF_TIMEOUT_SECS : Int := 60
def ME : String := "sg_compare_and_write: "

/-- The `struct opts_t` of the source; a NULL string is none. -/
structure opts_t where
  ifn : Option String
  wfn : Option String
  wfn_given : Int
  lba : Nat
  numblocks : Int
  quiet : Int
  verbose : Int
  timeout : Int
  xfer_len : Int
  device_name : Option String
  flags : caw_flags

/-- One return of `getopt_long` in `parse_args`, with what the case reads
from `optarg`: the string itself, or the value `sg_get_num` or
`sg_get_llnum` returns for it. The constructor `h` stands for both 'h' and
'?', and `other` for a code the switch has no case for. -/
inductive getopt_t where
  | C (optarg : String)
  | i (optarg : String)
  | d
  | D (optarg : String)
  | F
  | f
  | g (num : Int)
  | h
  | l (ll : Int)
  | n (num : Int)
  | q
  | t (num : Int)
  | v
  | V
  | w (num : Int)
  | x (num : Int)
  | other (c : Int)

/-- The variables of `parse_args` that the option loop changes. -/
structure parse_st where
  op : opts_t
  lba_given : Int
  if_given : Int

/-- The switch of `parse_args` for one option: the variables afterwards, or
the status the program exits with. The messages are not recorded. -/
def parse_args_case (st : parse_st) : getopt_t → Except Int parse_st
  | .C optarg => .ok { st with op := { st.op with ifn := some optarg }, if_given := 1 }
  | .i optarg => .ok { st with op := { st.op with ifn := some optarg }, if_given := 1 }
  | .d => .ok { st with op := { st.op with flags := { st.op.flags with dpo := 1 } } }
  | .D optarg => .ok { st with op := { st.op with wfn := some optarg, wfn_given := 1 } }
  | .F => .ok { st with op := { st.op with flags := { st.op.flags with fua_nv := 1 } } }
  | .f => .ok { st with op := { st.op with flags := { st.op.flags with fua := 1 } } }
  | .g num =>
    if num < 0 ∨ num > 31 then .error 1
    else .ok { st with op := { st.op with flags := { st.op.flags with group := num } } }
  | .h => .error 0
  | .l ll =>
    if -1 = ll then .error 1
    else .ok { st with op := { st.op with lba := bits64 ll }, lba_given := 1 }
  | .n num =>
    if num < 0 ∨ num > 255 then .error 1
    else .ok { st with op := { st.op with numblocks := num } }
  | .q => .ok { st with op := { st.op with quiet := toInt32 (st.op.quiet + 1) } }
  | .t num =>
    if num < 0 then .error 1
    else .ok { st with op := { st.op with timeout := num } }
  | .v => .ok { st with op := { st.op with verbose := toInt32 (st.op.verbose + 1) } }
  | .V => .error 0
  | .w num =>
    if sar num 3 ≠ 0 then .error 1
    else .ok { st with op := { st.op with flags := { st.op.flags with wrprotect := num } } }
  | .x num =>
    if num < 0 then .error 1
    else .ok { st with op := { st.op with xfer_len := num } }
  | .other _ => .error 1

/-- The option loop of `parse_args` over the options `getopt_long` returns
in turn. -/
def parse_args_loop : List getopt_t → parse_st → Except Int parse_st
  | [], st => .ok st
  | c :: cs, st =>
    match parse_args_case st c with
    | .error e => .error e
    | .ok st => parse_args_loop cs st

/-- The function `parse_args`, called by `main` with a zeroed `opts_t`:
`opts` are the options of the command line as `getopt_long` returns them and
`args` the arguments left from `optind` on. The result is the options
structure when `parse_args` returns (it then returns 0), or the status the
program exits with. -/
def parse_args (opts : List getopt_t) (args : List String) : Except Int opts_t :=
  let op : opts_t :=
    ⟨none, none, 0, 0, DEF_NUM_BLOCKS, 0, 0, DEF_TIMEOUT_SECS, 0, none, ⟨0, 0, 0, 0, 0⟩⟩
  match parse_args_loop opts ⟨op, 0, 0⟩ with
  | .error e => .error e
  | .ok st =>
    let op := st.op
    let device_name : Option String :=
      match args with
      | [] => op.device_name
      | a :: _ => if op.device_name = none then some a else op.device_name
    let rest : List String :=
      match args with
      | [] => []
      | _ :: r => if op.device_name = none then r else args
    if rest ≠ [] then .error 1
    else if device_name = none then .error 1
    else if st.if_given = 0 then .error 1
    else if st.lba_given = 0 then .error 1
    else
      .ok { op with
        device_name := device_name,
        xfer_len :=
          if 0 = op.xfer_len then toInt32 (2 * op.numblocks * DEF_BLOCK_SIZE)
          else op.xfer_len }

/-- What the pass-through layer and the library report for one command:
whether `construct_scsi_pt_obj` returned NULL, what `sg_cmds_process_resp`
returned and the sense category it stored, and what
`sg_get_sense_info_fld` returned and stored. -/
structure pt_outcome where
  ptvp_null : Bool
  process_resp : Int
  sense_cat : Int
  valid : Int
  ull : Nat

/-- The arguments of the command as given to the pass-through layer: the CDB
of `set_scsi_pt_cdb`, the length of `set_scsi_pt_data_out`, and the timeout
and verbosity of `do_scsi_pt`. -/
structure pt_call where
  cdb : List Nat
  dxfer_len : Int
  timeout_secs : Int
  verbose : Int
  deriving DecidableEq, Repr

/-- What `sg_compare_and_write` returns, what it writes to stderr, and the
command it executed, if any. -/
structure caw_result where
  ret : Int
  err : List outev
  pt : Option pt_call
  deriving DecidableEq, Repr

/-- The statements of `sg_compare_and_write` under `if (verbose > 1)` and
`if ((verbose > 2) && (xfer_len > 0))`, which print the CDB and the data-out
buffer. -/
def caw_trace (cawCmd : List Nat) (xfer_len verbose : Int) : List outev :=
  (if verbose > 1 then
    [.printf "    Compare and write cdb: " []] ++
      (cawCmd.take COMPARE_AND_WRITE_CDB_SIZE).map (fun c => .printf "%02x " [.u c]) ++
      [.printf "\n" []]
   else []) ++
  (if verbose > 2 ∧ xfer_len > 0 then
    [.printf "    Data-out buffer contents:\n" [], .call "dStrHexErr" [.d xfer_len, .d 1]]
   else [])

/-- The function `sg_compare_and_write`; `T` is what the pass-through layer
reports for the command. -/
def sg_compare_and_write (K : sg_lib_h) (blocks : Int) (lba : Int) (xfer_len : Int)
    (flags : caw_flags) (noisy verbose : Int) (T : pt_outcome) : caw_result :=
  let b := sg_build_scsi_cdb (bits32 blocks) lba flags
  let cawCmd : List Nat := b.2
  if b.1 ≠ 0 then
    ⟨-1, [.printf (ME ++ "bad cdb build, lba=0x%" ++ PRIx64 ++ ", blocks=%d\n")
      [.d lba, .d blocks]], none⟩
  else if T.ptvp_null then
    ⟨-1, [.printf "Could not construct scsit_pt_obj, out of memory\n" []], none⟩
  else
    let err : List outev := caw_trace cawCmd xfer_len verbose
    let pt : pt_call := ⟨cawCmd, xfer_len, DEF_TIMEOUT_SECS, verbose⟩
    let ret : Int := T.process_resp
    if -1 = ret then ⟨ret, err, some pt⟩
    else if -2 = ret then
      if T.sense_cat = K.SG_LIB_CAT_RECOVERED ∨ T.sense_cat = K.SG_LIB_CAT_NO_SENSE then
        ⟨0, err, some pt⟩
      else if T.sense_cat = K.SG_LIB_CAT_MEDIUM_HARD then
        ⟨T.sense_cat,
          err ++
            [if T.valid ≠ 0 then
              .printf ("Medium or hardware error starting at lba=%" ++ PRIu64 ++ " [0x%" ++
                PRIx64 ++ "]\n") [.u T.ull, .u T.ull]
             else .printf "Medium or hardware error\n" []],
          some pt⟩
      else if T.sense_cat = SG_LIB_CAT_MISCOMPARE then
        if ¬ (noisy ≠ 0 ∨ verbose ≠ 0) then ⟨T.sense_cat, err, some pt⟩
        else
          ⟨T.sense_cat,
            err ++
              [if T.valid ≠ 0 then
                .printf ("Miscompare at byte offset: %" ++ PRIu64 ++ " [0x%" ++ PRIx64 ++
                  "]\n") [.u T.ull, .u T.ull]
               else .printf "Miscompare reported\n" []],
            some pt⟩
      else ⟨T.sense_cat, err, some pt⟩
    else ⟨0, err, some pt⟩

/-- What `main` meets outside the program, once `parse_args` has returned:
the descriptors `open_if` returns for the two input files and `open_dev` for
the device (negative for an error), whether `malloc` succeeds, what the
`read` calls on the two input files return, and the outcome of the
command. -/
structure main_env where
  infd : Int
  wfd : Int
  devfd : Int
  malloc_ok : Bool
  rd_in : Int
  rd_w : Int
  pt : pt_outcome

/-- What `main` returns (the exit status), what it writes to stderr, and the
command it executed, if any. The messages `open_if` and `open_dev` print
themselves are not recorded. -/
structure main_result where
  res : Int
  err : List outev
  pt : Option pt_call
  deriving DecidableEq, Repr

/-- The statements of `main` at the label `out` that report `res`. -/
def main_out (K : sg_lib_h) (op : opts_t) (res : Int) : List outev :=
  if 0 ≠ res then
    if res = K.SG_LIB_CAT_MEDIUM_HARD ∨ res = SG_LIB_CAT_MISCOMPARE ∨
        res = K.SG_LIB_FILE_ERROR then []
    else
      [.call "sg_get_category_sense_str" [.d res, .d 80, .d op.verbose],
       .printf (ME ++ "SCSI COMPARE AND WRITE: %s\n") [.s "b"]]
  else []

/-- The statements of `main` under `if (op->verbose)`, which print the
options. -/
def main_banner (op : opts_t) : List outev :=
  if op.verbose ≠ 0 then
    [.printf
      "Running COMPARE AND WRITE command with the following options:\n  in=%s "
      [.s (op.ifn.getD "")]] ++
    (if op.wfn_given ≠ 0 then [.printf "inw=%s " [.s (op.wfn.getD "")]] else []) ++
    [.printf ("device=%s\n  lba=0x%" ++ PRIx64 ++
        " num_blocks=%d xfer_len=%d timeout=%d\n")
      [.s (op.device_name.getD ""), .u op.lba, .d op.numblocks, .d op.xfer_len,
       .d op.timeout]]
  else []

/-- The statements of `main` that read the input files into `wrkBuff`: none
when they fall through to the command, else the value of `res` and the
message at the `goto out`. -/
def main_read (op : opts_t) (E : main_env) : Option (Int × List outev) :=
  let half_xlen : Int := Int.tdiv op.xfer_len 2
  if op.wfn_given ≠ 0 then
    if E.rd_in < 0 then
      some (E.rd_in, [.printf "Could not read from %s" [.s (op.ifn.getD "")]])
    else if E.rd_in < half_xlen then
      some (E.rd_in, [.printf "Read only %d bytes (expected %d) from %s\n"
        [.d E.rd_in, .d half_xlen, .s (op.ifn.getD "")]])
    else if E.rd_w < 0 then
      some (E.rd_w, [.printf "Could not read from %s" [.s (op.wfn.getD "")]])
    else if E.rd_w < half_xlen then
      some (E.rd_w, [.printf "Read only %d bytes (expected %d) from %s\n"
        [.d E.rd_w, .d half_xlen, .s (op.wfn.getD "")]])
    else none
  else
    if E.rd_in < 0 then
      some (E.rd_in, [.printf "Could not read from %s" [.s (op.ifn.getD "")]])
    else if E.rd_in < op.xfer_len then
      some (E.rd_in, [.printf "Read only %d bytes (expected %d) from %s\n"
        [.d E.rd_in, .d op.xfer_len, .s (op.ifn.getD "")]])
    else none

/-- The end of `main` from the label `out` on, reached with the value `res`
after the messages `err`: the result of `main`. -/
def main_fin (K : sg_lib_h) (op : opts_t) (res : Int) (err : List outev)
    (pt : Option pt_call) : main_result :=
  ⟨res, main_banner op ++ err ++ main_out K op res, pt⟩

/-- The function `main` after `parse_args` has returned 0 with the options
`op`. -/
def main (K : sg_lib_h) (op : opts_t) (E : main_env) : main_result :=
  if E.infd < 0 then main_fin K op (-E.infd) [] none
  else if op.wfn_given ≠ 0 ∧ op.wfn = some "-" then
    main_fin K op K.SG_LIB_FILE_ERROR
      [.printf (ME ++ "don't allow stdin for write file\n") []] none
  else if op.wfn_given ≠ 0 ∧ E.wfd < 0 then main_fin K op (-E.wfd) [] none
  else if E.devfd < 0 then main_fin K op (-E.devfd) [] none
  else if ¬ E.malloc_ok then
    main_fin K op K.SG_LIB_CAT_OTHER [.printf "Not enough user memory\n" []] none
  else
    match main_read op E with
    | some (res, err) => main_fin K op res err none
    | none =>
      let r := sg_compare_and_write K op.numblocks (toInt64 op.lba) op.xfer_len op.flags
        (if op.quiet = 0 then 1 else 0) op.verbose E.pt
      main_fin K op r.ret r.err r.pt

end sg_compare_and_write

/-! ## sg_read_buffer.c: the mode option -/

namespace sg_read_buffer

def MODE_HEADER_DATA : Int := 0
def MODE_VENDOR : Int := 1
def MODE_DATA : Int := 2
def MODE_DESCRIPTOR : Int := 3
def MODE_ECHO_BUFFER : Int := 0x0A
def MODE_ECHO_BDESC : Int := 0x0B
def MODE_EN_EX_ECHO : Int := 0x1A
def MODE_ERR_HISTORY : Int := 0x1C

/-- The `struct mode_s` of the source; a NULL string is none. -/
structure mode_s where
  mode_string : Option String
  mode : Int
  comment : Option String
  deriving DecidableEq, Repr

/-- The table `modes`, its end sentinel included. -/
def modes : List mode_s :=
  [⟨some "hd", MODE_HEADER_DATA, some "combined header and data"⟩,
   ⟨some "vendor", MODE_VENDOR, some "vendor specific"⟩,
   ⟨some "data", MODE_DATA, some "data"⟩,
   ⟨some "desc", MODE_DESCRIPTOR, some "descriptor"⟩,
   ⟨some "echo", MODE_ECHO_BUFFER, some "read data from echo buffer (spc-2)"⟩,
   ⟨some "echo_desc", MODE_ECHO_BDESC, some "echo buffer descriptor (spc-2)"⟩,
   ⟨some "en_ex", MODE_EN_EX_ECHO,
     some "enable expander communications protocol and echo buffer (spc-3)"⟩,
   ⟨some "err_hist", MODE_ERR_HISTORY, some "error history (spc-4)"⟩,
   ⟨none, 999, none⟩]

/-- The function `strncmp` of the C library on two strings given as lists of
characters: zero when they agree on the first `n` characters or up to their
common end, else the difference of the first two characters that differ (the
end of a string counting as the character 0). -/
def strncmp : List Char → List Char → Nat → Int
  | _, _, 0 => 0
  | [], [], _ + 1 => 0
  | [], y :: _, _ + 1 => 0 - (y.toNat : Int)
  | x :: _, [], _ + 1 => (x.toNat : Int)
  | x :: xs, y :: ys, n + 1 =>
    if x = y then strncmp xs ys n else (x.toNat : Int) - (y.toNat : Int)

/-- The loop `for (mp = modes; mp->mode_string; ++mp)` of `main` from the
entry of index `i` on, `tbl` being the entries from there: the index of the
entry `mp` points to when the loop is left, and the mode stored in `rb_mode`
when an entry matched. -/
def mode_loop (optarg : String) (len : Nat) : List mode_s → Nat → Nat × Option Int
  | [], i => (i, none)
  | e :: tbl, i =>
    match e.mode_string with
    | none => (i, none)
    | some str =>
      if 0 = strncmp str.data optarg.data len then (i, some e.mode)
      else mode_loop optarg len tbl (i + 1)

/-- What the `case 'm'` of the switch of `main` leaves: the value `main`
returns at once (none when it goes on with the next option), `rb_mode`, and
what is written to stderr. -/
structure mode_opt where
  ret : Option Int
  rb_mode : Int
  err : List outev
  deriving DecidableEq, Repr

/-- The `case 'm'` of the switch of `main` for the argument `optarg`, with
`rb_mode` as it was before and `num` what `sg_get_num` returns for
`optarg`. The pointer `mp` is the index of a table entry (some) or NULL
(none); the loop always leaves it at an entry. -/
def main_mode (optarg : String) (rb_mode : Int) (num : Int) : mode_opt :=
  if (optarg.data.headD (Char.ofNat 0)).isDigit then
    let rb_mode : Int := num
    if rb_mode < 0 ∨ rb_mode > 31 then
      ⟨some SG_LIB_SYNTAX_ERROR, rb_mode,
        [.printf "argument to '--mode' should be in the range 0 to 31\n" []]⟩
    else ⟨none, rb_mode, []⟩
  else
    let len : Nat := optarg.data.length
    let r := mode_loop optarg len modes 0
    let mp : Option Nat := some r.1
    let rb_mode : Int := match r.2 with
      | some m => m
      | none => rb_mode
    if mp = none then ⟨some SG_LIB_SYNTAX_ERROR, rb_mode, [.call "print_modes" []]⟩
    else ⟨none, rb_mode, []⟩

end sg_read_buffer

/-! ## Shifts of an int -/

namespace CInt

/-- The C expression `x << n` for an `int` x with 32 bit `int`: for a count
below 32 the low 32 bits of the product, read as signed. For a count of 32
or more C leaves the result undefined; the `int` the machine delivers is
the parameter `ub`, cut to 32 bits. -/
def shl32 (ub : Int → Nat → Int) (x : Int) (n : Nat) : Int :=
  if n < 32 then toInt32 (x * 2 ^ n) else toInt32 (ub x n)

end CInt

/-! ## sg_read_buffer.c: the decoding of the response -/

namespace sg_read_buffer

end sg_read_buffer

/-! ## sg_luns.c: the Linux form of a LUN -/

namespace sg_luns

/-- The function `linux2t10_lun`: the array `t10_lun` after the call, for the
`uint64_t` argument `linux_lun`. Pass `k` of the loop stores the low 16 bits
of `linux_lun >> 16 k` at `t10_lun[2 k]` (high byte) and `t10_lun[2 k + 1]`
(low byte). -/
def linux2t10_lun (linux_lun : Nat) (t10_lun : List Nat) : List Nat :=
  ((List.range 4).foldl
    (fun (st : Nat × List Nat) k =>
      let u : Nat := st.1 &&& 0xffff
      let t := put st.2 (2 * k + 1) (u &&& 0xff)
      let t := put t (2 * k) ((u >>> 8) &&& 0xff)
      (st.1 >>> 16, t))
    (linux_lun % 2 ^ 64, t10_lun)).2

/-- The function `t10_2linux_lun`: the loop runs with `cp` at the offsets 4,
2 and 0 of `t10_lun`; the `uint64_t` arithmetic wraps at 64 bits. -/
def t10_2linux_lun (t10_lun : List Nat) : Nat :=
  let b : Nat → Nat := fun i => t10_lun.getD i 0
  let res : Nat := (b 6 <<< 8) + b 7
  [4, 2, 0].foldl
    (fun res cp => ((res <<< 16) % 2 ^ 64 + ((b cp <<< 8) + b (cp + 1))) % 2 ^ 64)
    res

/-- The function `t10_2linux_lun64bitBR` with a 32 bit `int`: the word
`(t10_lun[i] << 8) | t10_lun[i + 1]` is an `int`, shifted as an `int` by
`i * 8` (`shl32`; the counts 32 and 48 of the passes i = 4 and i = 6 are
undefined in C), and converted to `uint64_t` (sign extension) for the
bitwise or. -/
def t10_2linux_lun64bitBR (ub : Int → Nat → Int) (t10_lun : List Nat) : Nat :=
  let b : Nat → Nat := fun i => t10_lun.getD i 0
  [0, 2, 4, 6].foldl
    (fun lun i => lun ||| bits64 (shl32 ub (((b i <<< 8) ||| b (i + 1) : Nat) : Int) (i * 8)))
    0

end sg_luns

/-! ## sg_start.c -/

namespace sg_start

/-- The `struct opts_t` of the source; a NULL `device_name` is none. -/
structure opts_t where
  do_eject : Int
  do_fl : Int
  do_help : Int
  do_immed : Int
  do_load : Int
  do_loej : Int
  do_mod : Int
  do_noflush : Int
  do_readonly : Int
  do_pc : Int
  do_start : Int
  do_stop : Int
  do_verbose : Int
  do_version : Int
  device_name : Option String
  opt_new : Int
  deriving DecidableEq, Repr

/-- One return of `getopt_long` in `process_cl_new`, with the value
`sg_get_num` returns for `optarg` where the case reads it. The constructor
`h` stands for both 'h' and '?', and `other` for a code the switch has no
case for. -/
inductive getopt_t where
  | e
  | f (num : Int)
  | h
  | i
  | l
  | L
  | m (num : Int)
  | n
  | N
  | O
  | p (num : Int)
  | r
  | s
  | S
  | v
  | V
  | other (c : Int)
  deriving DecidableEq, Repr

/-- How one case of the switch of `process_cl_new` ends: with `break`, the
loop going on, or with a `return` of the value given. -/
inductive case_end where
  | go (op : opts_t)
  | ret (val : Int) (op : opts_t)

/-- The switch of `process_cl_new` for one option. A counter `++x` is `x + 1`:
there are fewer options than `argc`, an `int`, so no counter overflows. The
messages are not recorded. -/
def process_cl_new_case (op : opts_t) : getopt_t → case_end
  | .e => .go { op with do_eject := op.do_eject + 1, do_loej := op.do_loej + 1 }
  | .f num =>
    if num < 0 ∨ num > 3 then .ret SG_LIB_SYNTAX_ERROR op
    else .go { op with do_loej := op.do_loej + 1, do_start := op.do_start + 1, do_fl := num }
  | .h => .go { op with do_help := op.do_help + 1 }
  | .i => .go { op with do_immed := op.do_immed + 1 }
  | .l => .go { op with do_load := op.do_load + 1, do_loej := op.do_loej + 1 }
  | .L => .go { op with do_loej := op.do_loej + 1 }
  | .m num =>
    if num < 0 ∨ num > 15 then .ret SG_LIB_SYNTAX_ERROR op
    else .go { op with do_mod := num }
  | .n => .go { op with do_noflush := op.do_noflush + 1 }
  | .N => .go op
  | .O => .ret 0 { op with opt_new := 0 }
  | .p num =>
    if num < 0 ∨ num > 15 then .ret SG_LIB_SYNTAX_ERROR op
    else .go { op with do_pc := num }
  | .r => .go { op with do_readonly := op.do_readonly + 1 }
  | .s => .go { op with do_start := op.do_start + 1 }
  | .S => .go { op with do_stop := op.do_stop + 1 }
  | .v => .go { op with do_verbose := op.do_verbose + 1 }
  | .V => .go { op with do_version := op.do_version + 1 }
  | .other _ => if op.do_help ≠ 0 then .go op else .ret SG_LIB_SYNTAX_ERROR op

/-- The option loop of `process_cl_new` over the options `getopt_long`
returns in turn. -/
def process_cl_new_loop : List getopt_t → opts_t → case_end
  | [], op => .go op
  | c :: cs, op =>
    match process_cl_new_case op c with
    | .ret val op => .ret val op
    | .go op => process_cl_new_loop cs op

/-- The loop `for (; optind < argc; ++optind)` of `process_cl_new` over the
arguments that are not options: the options structure and `err`. -/
def process_cl_new_args : List String → opts_t → Int → opts_t × Int
  | [], op, err => (op, err)
  | a :: as, op, err =>
    if a = "0" then process_cl_new_args as { op with do_stop := op.do_stop + 1 } err
    else if a = "1" then process_cl_new_args as { op with do_start := op.do_start + 1 } err
    else if op.device_name = none then
      process_cl_new_args as { op with device_name := some a } err
    else process_cl_new_args as op (err + 1)

/-- The function `process_cl_new`: its return value and the options
structure afterwards. `g` are the options of the command line as
`getopt_long` returns them and `rest` the arguments left from `optind` on. -/
def process_cl_new (op : opts_t) (g : List getopt_t) (rest : List String) : Int × opts_t :=
  match process_cl_new_loop g op with
  | .ret val op => (val, op)
  | .go op =>
    let r := process_cl_new_args rest op 0
    if r.2 ≠ 0 then (SG_LIB_SYNTAX_ERROR, r.1) else (0, r.1)

/-- The character class `isspace` of the C library. -/
def isspace (c : Char) : Bool :=
  c = ' ' ∨ c = '\t' ∨ c = '\n' ∨ c = '\r' ∨ c.toNat = 11 ∨ c.toNat = 12

/-- The value of a hexadecimal digit, none for another character. -/
def hexval (c : Char) : Option Nat :=
  if '0' ≤ c ∧ c ≤ '9' then some (c.toNat - '0'.toNat)
  else if 'a' ≤ c ∧ c ≤ 'f' then some (c.toNat - 'a'.toNat + 10)
  else if 'A' ≤ c ∧ c ≤ 'F' then some (c.toNat - 'A'.toNat + 10)
  else none

/-- The leading run of hexadecimal digits of a string, as a number, and
whether the run is not empty. -/
def hexrun : List Char → Nat → Bool → Nat × Bool
  | [], acc, any => (acc, any)
  | c :: cs, acc, any =>
    match hexval c with
    | some d => hexrun cs (acc * 16 + d) true
    | none => (acc, any)

/-- The call `sscanf(str, "%x", &u)` of the C library: the value stored in the
`unsigned int` u when the call returns 1, none when it returns 0 or EOF
(no number at the start of `str`). White space is skipped, then an optional
sign and an optional prefix 0x are taken, then the hexadecimal digits; the
value is reduced to 32 bits. -/
def sscanf_x (str : List Char) : Option Nat :=
  let str := str.dropWhile isspace
  let neg : Bool := str.head? = some '-'
  let str := if str.head? = some '-' ∨ str.head? = some '+' then str.tail else str
  let body : List Char :=
    match str with
    | '0' :: x :: d :: cs =>
      if (x = 'x' ∨ x = 'X') ∧ (hexval d).isSome then d :: cs else str
    | _ => str
  let r := hexrun body 0 false
  if r.2 then some (if neg then (2 ^ 32 - r.1 % 2 ^ 32) % 2 ^ 32 else r.1 % 2 ^ 32)
  else none

/-- The function `strcmp` of the C library, as far as its result is compared
with 0. -/
def strcmp (a b : List Char) : Int := if a = b then 0 else 1

/-- What the loop over the characters after a leading '-' leaves in
`process_cl_old`: the rest `cp` of the argument (`plen` is its length
throughout), `jmp_out`, the options structure, and whether the function has
returned 0 from the case 'N'. -/
structure old_scan where
  cp : List Char
  jmp_out : Int
  op : opts_t
  returned : Bool

/-- The loop `for (--plen, ++cp, jmp_out = 0; plen > 0; --plen, ++cp)` of
`process_cl_old` from the character at the head of `cp` on. -/
def old_flags : List Char → opts_t → old_scan
  | [], op => ⟨[], 0, op, false⟩
  | c :: cs, op =>
    if c = 'i' then
      if cs = [] then old_flags cs { op with do_immed := 1 }
      else ⟨c :: cs, 1, op, false⟩
    else if c = 'r' then old_flags cs { op with do_readonly := op.do_readonly + 1 }
    else if c = 'v' then old_flags cs { op with do_verbose := op.do_verbose + 1 }
    else if c = 'V' then old_flags cs { op with do_version := op.do_version + 1 }
    else if c = 'h' ∨ c = '?' then old_flags cs { op with do_help := op.do_help + 1 }
    else if c = 'N' then ⟨c :: cs, 0, { op with opt_new := 1 }, true⟩
    else if c = 'O' then old_flags cs op
    else if c = '-' then ⟨cs, 1, op, false⟩
    else ⟨c :: cs, 1, op, false⟩

/-- The variables of `process_cl_old` that live across the arguments. -/
structure old_st where
  op : opts_t
  ambigu : Int
  startstop : Int

/-- How the body of the loop over the arguments of `process_cl_old` ends for
one argument: at the end of the body or with `continue`, the loop going on,
or with a `return` of the value given. -/
inductive old_end where
  | go (st : old_st)
  | ret (val : Int) (op : opts_t)

/-- The end of the body of the loop of `process_cl_old`, from `if (ambigu)`
on. -/
def old_tail (st : old_st) : old_end :=
  if st.ambigu ≠ 0 then .ret SG_LIB_SYNTAX_ERROR st.op
  else if 0 = st.startstop then
    .go { st with op := { st.op with do_stop := st.op.do_stop + 1 } }
  else if 1 = st.startstop then
    .go { st with op := { st.op with do_start := st.op.do_start + 1 } }
  else .go st

/-- The chain of comparisons of `process_cl_old` for the rest `cp` of an
argument that starts with '-', up to the end of the body. The unsigned value
`sscanf` stores is converted to `int` at the assignment. -/
def old_words (cp : List Char) (jmp_out : Int) (st : old_st) : old_end :=
  let op := st.op
  if 0 = sg_read_buffer.strncmp cp "eject".data 5 then
    old_tail { st with op := { op with do_loej := 1 },
                       ambigu := if st.startstop = 1 then 1 else st.ambigu,
                       startstop := if st.startstop = 1 then st.startstop else 0 }
  else if 0 = sg_read_buffer.strncmp "fl=".data cp 3 then
    match sscanf_x (cp.drop 3) with
    | none => .ret SG_LIB_SYNTAX_ERROR op
    | some u =>
      old_tail { st with op := { op with do_loej := 1, do_fl := toInt32 u }, startstop := 1 }
  else if 0 = sg_read_buffer.strncmp "imm=".data cp 4 then
    match sscanf_x (cp.drop 4) with
    | none => .ret SG_LIB_SYNTAX_ERROR op
    | some u =>
      if u > 1 then .ret SG_LIB_SYNTAX_ERROR op
      else old_tail { st with op := { op with do_immed := toInt32 u } }
  else if 0 = sg_read_buffer.strncmp cp "load".data 4 then
    old_tail { st with op := { op with do_loej := 1 },
                       ambigu := if st.startstop = 0 then 1 else st.ambigu,
                       startstop := if st.startstop = 0 then st.startstop else 1 }
  else if 0 = sg_read_buffer.strncmp cp "loej".data 4 then
    old_tail { st with op := { op with do_loej := 1 } }
  else if 0 = sg_read_buffer.strncmp "pc=".data cp 3 then
    match sscanf_x (cp.drop 3) with
    | none => .ret SG_LIB_SYNTAX_ERROR op
    | some u =>
      if u > 15 then .ret SG_LIB_SYNTAX_ERROR op
      else old_tail { st with op := { op with do_pc := toInt32 u } }
  else if 0 = sg_read_buffer.strncmp "mod=".data cp 4 then
    match sscanf_x (cp.drop 3) with
    | none => .ret SG_LIB_SYNTAX_ERROR op
    | some u => old_tail { st with op := { op with do_mod := toInt32 u } }
  else if 0 = sg_read_buffer.strncmp cp "noflush".data 7 then
    old_tail { st with op := { op with do_noflush := 1 } }
  else if 0 = sg_read_buffer.strncmp cp "start".data 5 then
    old_tail { st with ambigu := if st.startstop = 0 then 1 else st.ambigu,
                       startstop := if st.startstop = 0 then st.startstop else 1 }
  else if 0 = sg_read_buffer.strncmp cp "stop".data 4 then
    old_tail { st with ambigu := if st.startstop = 1 then 1 else st.ambigu,
                       startstop := if st.startstop = 1 then st.startstop else 0 }
  else if 0 = sg_read_buffer.strncmp cp "old".data 3 then old_tail st
  else if jmp_out ≠ 0 then .ret SG_LIB_SYNTAX_ERROR op
  else old_tail st

/-- The body of the loop `for (k = 1; k < argc; ++k)` of `process_cl_old` for
the argument `arg`. -/
def old_body (arg : String) (st : old_st) : old_end :=
  let cp := arg.data
  match cp with
  | [] => .go st
  | c :: cs =>
    if '-' = c then
      let sc := old_flags cs st.op
      if sc.returned then .ret 0 sc.op
      else if sc.cp = [] then .go { st with op := sc.op }
      else old_words sc.cp sc.jmp_out { st with op := sc.op }
    else if 0 = strcmp "0".data cp then
      old_tail { st with ambigu := if 1 = st.startstop then 1 else st.ambigu,
                         startstop := if 1 = st.startstop then st.startstop else 0 }
    else if 0 = strcmp "1".data cp then
      old_tail { st with ambigu := if 0 = st.startstop then 1 else st.ambigu,
                         startstop := if 0 = st.startstop then st.startstop else 1 }
    else if st.op.device_name = none then
      old_tail { st with op := { st.op with device_name := some arg } }
    else .ret SG_LIB_SYNTAX_ERROR st.op

/-- The loop over the arguments of `process_cl_old`. -/
def old_loop : List String → old_st → Int × opts_t
  | [], st => (0, st.op)
  | a :: as, st =>
    match old_body a st with
    | .ret val op => (val, op)
    | .go st => old_loop as st

/-- The function `process_cl_old`: its return value and the options
structure afterwards, for the arguments `argv[1]`, `argv[2]`, ... of the
command line. -/
def process_cl_old (op : opts_t) (argv : List String) : Int × opts_t :=
  old_loop argv ⟨op, 0, -1⟩

/-- The function `process_cl`. `old_opts` tells whether the environment
variable SG3_UTILS_OLD_OPTS is set; `argv` are the arguments of the command
line after the program name, and `g`, `rest` what `getopt_long` makes of
them. -/
def process_cl (op : opts_t) (old_opts : Bool) (g : List getopt_t) (rest argv : List String) :
    Int × opts_t :=
  if old_opts then
    let r := process_cl_old { op with opt_new := 0 } argv
    if 0 = r.1 ∧ r.2.opt_new ≠ 0 then process_cl_new r.2 g rest else r
  else
    let r := process_cl_new { op with opt_new := 1 } g rest
    if 0 = r.1 ∧ 0 = r.2.opt_new then process_cl_old r.2 argv else r

/-- The arguments of a call of `sg_ll_start_stop_unit`, after the file
descriptor, under the names the library gives them. -/
structure ssu_call where
  immed : Int
  pc_mod__fl_num : Int
  power_cond : Int
  noflush__fl : Int
  loej : Int
  start : Int
  noisy : Int
  verbose : Int
  deriving DecidableEq, Repr

/-- What `main` returns and the START STOP UNIT command it sent, if any. -/
structure main_result where
  ret : Int
  call : Option ssu_call
  deriving DecidableEq, Repr

/-- The assignments of `main` to `op->do_start` before the command. -/
def main_start (op : opts_t) : opts_t :=
  if op.do_load ≠ 0 then { op with do_start := 1 }
  else if op.do_eject ≠ 0 ∨ op.do_stop ≠ 0 then { op with do_start := 0 }
  else if op.opt_new ≠ 0 ∧ op.do_loej ≠ 0 ∧ 0 = op.do_start then { op with do_start := 1 }
  else if 0 = op.do_loej ∧ -1 = op.do_fl ∧ 0 = op.do_pc then { op with do_start := 1 }
  else op

/-- The call of `sg_ll_start_stop_unit` `main` makes for the options `op`. -/
def main_call (op : opts_t) : ssu_call :=
  if op.do_fl ≥ 0 then ⟨op.do_immed, op.do_fl, 0, 1, 1, 1, 1, op.do_verbose⟩
  else if op.do_pc > 0 then
    ⟨op.do_immed, op.do_mod, op.do_pc, op.do_noflush, 0, 0, 1, op.do_verbose⟩
  else ⟨op.do_immed, 0, 0, op.do_noflush, op.do_loej, op.do_start, 1, op.do_verbose⟩

/-- The function `main` from the test of `op->do_help` on, for the options
`op` that `process_cl` left. `fd` is what `sg_cmds_open_device` returns,
`res` what `sg_ll_start_stop_unit` returns and `close_res` what
`sg_cmds_close_device` returns. The messages are not recorded. -/
def main_op (K : sg_lib_h) (op : opts_t) (fd res close_res : Int) : main_result :=
  if op.do_help ≠ 0 then ⟨0, none⟩
  else if op.do_version ≠ 0 then ⟨0, none⟩
  else if op.do_start ≠ 0 ∧ op.do_stop ≠ 0 then ⟨SG_LIB_SYNTAX_ERROR, none⟩
  else if op.do_load ≠ 0 ∧ op.do_eject ≠ 0 then ⟨SG_LIB_SYNTAX_ERROR, none⟩
  else
    let op := main_start op
    if op.device_name = none then ⟨SG_LIB_SYNTAX_ERROR, none⟩
    else if op.do_fl ≥ 0 ∧ op.do_start = 0 then ⟨SG_LIB_SYNTAX_ERROR, none⟩
    else if op.do_fl ≥ 0 ∧ op.do_pc > 0 then ⟨SG_LIB_SYNTAX_ERROR, none⟩
    else if fd < 0 then ⟨K.SG_LIB_FILE_ERROR, none⟩
    else
      let ret : Int := res
      if close_res < 0 ∧ 0 = ret then ⟨K.SG_LIB_FILE_ERROR, some (main_call op)⟩
      else ⟨if ret ≥ 0 then ret else K.SG_LIB_CAT_OTHER, some (main_call op)⟩

/-- The options structure of `main` before `process_cl`: zeroed, with
`do_fl` set to -1. -/
def main_opts : opts_t := ⟨0, -1, 0, 0, 0, 0, 0, 0, 0, 0, 0, 0, 0, 0, none, 0⟩

/-- The function `main`. `old_opts`, `g`, `rest` and `argv` are the command
line as for `process_cl`, and `fd`, `res`, `close_res` as for `main_op`. -/
def main (K : sg_lib_h) (old_opts : Bool) (g : List getopt_t) (rest argv : List String)
    (fd res close_res : Int) : main_result :=
  let r := process_cl main_opts old_opts g rest argv
  if r.1 ≠ 0 then ⟨SG_LIB_SYNTAX_ERROR, none⟩
  else main_op K r.2 fd res close_res

end sg_start

/-! ## sg_write_verify.c: the options and the command loop -/

namespace sg_write_verify

def DEF_TIMEOUT_SECS : Int := 60

/-- The constant `UINT_MAX` of `<limits.h>` for the 32 bit `unsigned int` of
the embedding. -/
def UINT_MAX : Nat := 4294967295

/-- One return of `getopt_long` in `main`, with what the case reads from
`optarg`: the string itself, or the value `sg_get_num` or `sg_get_llnum`
returns for it. The constructor `h` stands for both 'h' and '?', and
`other` for a code the switch has no case for. -/
inductive getopt_t where
  | b (num : Int)
  | d
  | g (num : Int)
  | h
  | i (optarg : String)
  | I (num : Int)
  | l (ll : Int)
  | n (num : Int)
  | R
  | S
  | t (num : Int)
  | v
  | V
  | w (num : Int)
  | other (c : Int)

/-- The local variables of `main` that the options set. The variable
`repeat` of the source is `repeat_` here. -/
structure vars where
  dpo : Int
  bytchk : Int
  group : Int
  do_16 : Int
  given_do_16 : Int
  llba : Nat
  lba_given : Int
  num_lb : Nat
  repeat_ : Int
  timeout : Int
  verbose : Int
  wrprotect : Int
  device_name : Option String
  ifnp : String
  has_filename : Int
  ilen : Int
  deriving DecidableEq, Repr

/-- The variables of `vars` as `main` initialises them. -/
def main_vars : vars :=
  ⟨0, 0, 0, 0, 0, 0, 0, 1, 0, DEF_TIMEOUT_SECS, 0, 0, none, "", 0, -1⟩

/-- The switch of `main` for one option: the variables afterwards, or the
value `main` returns at once. A counter `++x` is `x + 1` (there are fewer
options than `argc`). The messages are not recorded. -/
def main_case (x : vars) : getopt_t → Except Int vars
  | .b num =>
    if num < 0 ∨ num > 3 then .error SG_LIB_SYNTAX_ERROR else .ok { x with bytchk := num }
  | .d => .ok { x with dpo := 1 }
  | .g num =>
    if num < 0 ∨ num > 31 then .error SG_LIB_SYNTAX_ERROR else .ok { x with group := num }
  | .h => .error 0
  | .i optarg => .ok { x with ifnp := optarg, has_filename := 1 }
  | .I num => if -1 = num then .error SG_LIB_SYNTAX_ERROR else .ok { x with ilen := num }
  | .l ll =>
    if x.lba_given ≠ 0 then .error SG_LIB_SYNTAX_ERROR
    else if ll < 0 then .error SG_LIB_SYNTAX_ERROR
    else .ok { x with llba := bits64 ll, lba_given := x.lba_given + 1 }
  | .n num =>
    if -1 = num then .error SG_LIB_SYNTAX_ERROR else .ok { x with num_lb := bits32 num }
  | .R => .ok { x with repeat_ := x.repeat_ + 1 }
  | .S => .ok { x with do_16 := 1, given_do_16 := 1 }
  | .t num => if num < 1 then .error SG_LIB_SYNTAX_ERROR else .ok { x with timeout := num }
  | .v => .ok { x with verbose := x.verbose + 1 }
  | .V => .error 0
  | .w num =>
    if num < 0 ∨ num > 7 then .error SG_LIB_SYNTAX_ERROR else .ok { x with wrprotect := num }
  | .other _ => .error SG_LIB_SYNTAX_ERROR

/-- The option loop of `main` over the options `getopt_long` returns in
turn. -/
def main_options : List getopt_t → vars → Except Int vars
  | [], x => .ok x
  | c :: cs, x =>
    match main_case x c with
    | .error e => .error e
    | .ok x => main_options cs x

/-- How a run of `main` ends: it returns a status, or it divides by zero. -/
inductive wv_end where
  | ret (status : Int)
  | div_by_zero
  deriving DecidableEq, Repr

/-- The checks of `main` between the option loop and the opening of the
device, `rest` being the arguments left from `optind` on: the variables and
`b_p_lb` when the checks pass, or how `main` ends. In `ilen / num_lb` the
`int` is converted to `unsigned int` for the division by the `uint32_t`,
and the quotient to `int`. -/
def main_checks (x : vars) (rest : List String) : Except wv_end (vars × Int) :=
  let x : vars :=
    match rest with
    | [] => x
    | a :: _ => if x.device_name = none then { x with device_name := some a } else x
  if rest.length > 1 then .error (.ret SG_LIB_SYNTAX_ERROR)
  else if x.device_name = none then .error (.ret SG_LIB_SYNTAX_ERROR)
  else if x.lba_given = 0 then .error (.ret SG_LIB_SYNTAX_ERROR)
  else if x.repeat_ ≠ 0 then
    if x.has_filename = 0 then .error (.ret SG_LIB_SYNTAX_ERROR)
    else if x.ilen < 1 then .error (.ret SG_LIB_SYNTAX_ERROR)
    else if x.num_lb = 0 then .error .div_by_zero
    else
      let b_p_lb : Int := toInt32 ((bits32 x.ilen / x.num_lb : Nat) : Int)
      if b_p_lb < 64 then .error (.ret SG_LIB_SYNTAX_ERROR)
      else .ok (x, b_p_lb)
  else .ok (x, 512)

/-- What `main` meets outside the program: what `sg_cmds_open_device` and
`open_if` return, what `fstat` returns, whether the input is a regular file
and its size as an `int`, whether `malloc` succeeds, what the successive
calls of `read` return (0 once the list is used up), what the successive
commands return (`run_scsi_transaction`; 0 once the list is used up), and
what `sg_cmds_close_device` returns. -/
structure wv_env where
  sg_fd : Int
  ifd : Int
  fstat_res : Int
  is_reg : Bool
  st_size : Int
  malloc_ok : Bool
  reads : List Int
  rets : List Int
  close_res : Int

/-- One WRITE AND VERIFY command as `main` issues it: the CDB that
`sg_ll_write_verify10` or `sg_ll_write_verify16` builds, the variables
`llba` and `snum_lb` at the call, and the length, timeout and verbosity
passed on. -/
structure wv_call where
  cdb : List Nat
  llba : Nat
  snum_lb : Nat
  do_len : Int
  timeout : Int
  verbose : Int
  deriving DecidableEq, Repr

/-- The call `sg_ll_write_verify16(...)` or `sg_ll_write_verify10(...)` of
`main`: `llba` is cast to `unsigned int` for the 10 byte command, and the
`uint32_t` `snum_lb` is converted to the `int` parameter `num_lb`. -/
def issue (x : vars) (do_16 : Int) (llba snum_lb : Nat) (ilen : Int) : wv_call :=
  if do_16 ≠ 0 then
    ⟨sg_ll_write_verify16 x.wrprotect x.dpo x.bytchk llba (toInt32 snum_lb) x.group,
      llba, snum_lb, ilen, x.timeout, x.verbose⟩
  else
    ⟨sg_ll_write_verify10 x.wrprotect x.dpo x.bytchk (llba % 2 ^ 32) (toInt32 snum_lb) x.group,
      llba, snum_lb, ilen, x.timeout, x.verbose⟩

/-- The passes of the loop `do ... while (repeat)` of `main` after the first
one (`first_time` is 0), entered with the variables `llba` and `snum_lb` of
the pass before: the value of `ret` at `err_out` and the commands issued.
The first argument holds what the calls of `read` still to come return. -/
def main_repeat (x : vars) (do_16 b_p_lb ilen : Int) :
    List Int → List Int → Nat → Nat → Int × List wv_call
  | [], _, _, _ => (0, [])
  | res :: reads, rets, llba, snum_lb =>
    let llba : Nat := (llba + snum_lb) % 2 ^ 64
    if res < 0 then (0, [])
    else if 0 = res then (0, [])
    else
      let snum_lb : Nat := if res < ilen then bits32 (Int.tdiv res b_p_lb) else snum_lb
      if res < ilen ∧ snum_lb < 1 then (0, [])
      else
        let c := issue x do_16 llba snum_lb ilen
        let ret : Int := rets.headD 0
        if ret ≠ 0 ∨ snum_lb ≠ x.num_lb then (ret, [c])
        else
          let r := main_repeat x do_16 b_p_lb ilen reads rets.tail llba snum_lb
          (r.1, c :: r.2)

/-- The first pass of the loop of `main` up to the command (`first_time` is
1): the value of `ilen` and what the calls of `read` still to come return
when the pass reaches the command, or the value of `ret` at `err_out`. -/
def main_first (K : sg_lib_h) (x : vars) (E : wv_env) : Except Int (Int × List Int) :=
  if x.has_filename ≠ 0 then
    if ¬ (x.ifnp = "-") ∧ E.ifd < 0 then .error (-E.ifd)
    else if x.ilen < 1 ∧ E.fstat_res < 0 then .error 1
    else if x.ilen < 1 ∧ ¬ E.is_reg then .error 1
    else if x.ilen < 1 ∧ E.st_size < 1 then .error 1
    else
      let ilen : Int := if x.ilen < 1 then E.st_size else x.ilen
      if ¬ E.malloc_ok then .error K.SG_LIB_CAT_OTHER
      else
        let res : Int := E.reads.headD 0
        if res < 0 then .error 1
        else if res < ilen then .error 1
        else .ok (ilen, E.reads.tail)
  else
    let ilen : Int := if x.ilen < 1 then toInt32 ((512 * x.num_lb % 2 ^ 32 : Nat) : Int)
      else x.ilen
    if ¬ E.malloc_ok then .error K.SG_LIB_CAT_OTHER
    else .ok (ilen, E.reads)

/-- What a run of `main` does: how it ends and the commands it issued. -/
structure wv_run where
  ending : wv_end
  cmds : List wv_call
  deriving DecidableEq, Repr

/-- The end of `main` from `err_out` on, for the value of `ret` there. -/
def main_end (K : sg_lib_h) (E : wv_env) (ret : Int) : wv_end :=
  if E.close_res < 0 ∧ 0 = ret then .ret K.SG_LIB_FILE_ERROR
  else .ret (if ret ≥ 0 then ret else K.SG_LIB_CAT_OTHER)

/-- The function `main`. `g` are the options of the command line as
`getopt_long` returns them and `rest` the arguments left from `optind` on.
The messages are not recorded. -/
def main (K : sg_lib_h) (g : List getopt_t) (rest : List String) (E : wv_env) : wv_run :=
  match main_options g main_vars with
  | .error e => ⟨.ret e, []⟩
  | .ok x =>
    match main_checks x rest with
    | .error e => ⟨e, []⟩
    | .ok (x, b_p_lb) =>
      if E.sg_fd < 0 then ⟨.ret K.SG_LIB_FILE_ERROR, []⟩
      else
        let do_16 : Int := if 0 = x.do_16 ∧ x.llba > UINT_MAX then 1 else x.do_16
        let do_16 : Int := if 0 = do_16 ∧ x.num_lb > 0xffff then 1 else do_16
        match main_first K x E with
        | .error ret => ⟨main_end K E ret, []⟩
        | .ok (ilen, reads) =>
          let snum_lb : Nat := x.num_lb
          let c := issue x do_16 x.llba snum_lb ilen
          let ret : Int := E.rets.headD 0
          if ret ≠ 0 ∨ snum_lb ≠ x.num_lb then ⟨main_end K E ret, [c]⟩
          else if x.repeat_ = 0 then ⟨main_end K E ret, [c]⟩
          else
            let r := main_repeat x do_16 b_p_lb ilen reads E.rets.tail x.llba snum_lb
            ⟨main_end K E r.1, c :: r.2⟩

end sg_write_verify

/-! ## Lemmas on the integer layer -/

namespace CInt

theorem and_255 (x : Nat) : x &&& 255 = x % 256 :=
  Nat.and_pow_two_sub_one_eq_mod x 8

theorem and_7 (x : Nat) : x &&& 7 = x % 8 :=
  Nat.and_pow_two_sub_one_eq_mod x 3

theorem and_31 (x : Nat) : x &&& 31 = x % 32 :=
  Nat.and_pow_two_sub_one_eq_mod x 5

theorem and_3 (x : Nat) : x &&& 3 = x % 4 :=
  Nat.and_pow_two_sub_one_eq_mod x 2

theorem and_15 (x : Nat) : x &&& 15 = x % 16 :=
  Nat.and_pow_two_sub_one_eq_mod x 4

theorem sar_eq (x : Int) (k : Nat) : sar x k = x / 2 ^ k := by
  have h := Int.shiftRight_eq_div_pow x k
  rw [Nat.cast_pow] at h
  exact h

theorem cand64_sar (x : Int) (k : Nat) (hk : k ≤ 56) :
    cand64 (sar x k) 0xff = bits64 x / 2 ^ k % 256 := by
  unfold cand64 bits64
  rw [and_255, sar_eq]
  interval_cases k <;> omega

theorem cand32_sar (x : Int) (k : Nat) (hk : k ≤ 24) :
    cand32 (sar x k) 0xff = bits32 x / 2 ^ k % 256 := by
  unfold cand32 bits32
  rw [and_255, sar_eq]
  interval_cases k <;> omega

theorem cand64_255 (x : Int) : cand64 x 0xff = bits64 x % 256 := by
  unfold cand64
  rw [and_255]

theorem cand32_255 (x : Int) : cand32 x 0xff = bits32 x % 256 := by
  unfold cand32
  rw [and_255]

theorem cand32_7 (x : Int) : cand32 x 0x7 = (x % 8).toNat := by
  unfold cand32 bits32
  rw [and_7]
  omega

theorem cand32_31 (x : Int) : cand32 x 0x1f = (x % 32).toNat := by
  unfold cand32 bits32
  rw [and_31]
  omega

theorem cand32_3 (x : Int) : cand32 x 0x3 = (x % 4).toNat := by
  unfold cand32 bits32
  rw [and_3]
  omega

theorem div_div_16 (x : Nat) : x / 2 ^ 8 / 2 ^ 8 = x / 2 ^ 16 := by omega

theorem div_div_24 (x : Nat) : x / 2 ^ 16 / 2 ^ 8 = x / 2 ^ 24 := by omega

theorem div_div_32 (x : Nat) : x / 2 ^ 24 / 2 ^ 8 = x / 2 ^ 32 := by omega

theorem div_div_40 (x : Nat) : x / 2 ^ 32 / 2 ^ 8 = x / 2 ^ 40 := by omega

theorem div_div_48 (x : Nat) : x / 2 ^ 40 / 2 ^ 8 = x / 2 ^ 48 := by omega

theorem div_div_56 (x : Nat) : x / 2 ^ 48 / 2 ^ 8 = x / 2 ^ 56 := by omega

theorem or_mod_256 {x y : Nat} (hx : x < 256) (hy : y < 256) : (x ||| y) % 256 = x ||| y :=
  Nat.mod_eq_of_lt (Nat.or_lt_two_pow (n := 8) hx hy)

theorem cand32_15 (x : Int) : cand32 x 0xf = (x % 16).toNat := by
  unfold cand32 bits32
  rw [and_15]
  omega

end CInt


/-! ## COMPARE AND WRITE -/

namespace sg_compare_and_write

/-- The sixteen bytes `sg_build_scsi_cdb` writes, whatever the flags are: the
flag byte apart, every byte is given in closed form. -/
theorem sg_build_scsi_cdb_shape (blocks : Nat) (start_block : Int) (flags : caw_flags) :
    ∃ b1, (sg_build_scsi_cdb blocks start_block flags).2 =
      [0x89, b1,
       bits64 start_block / 2 ^ 56 % 256, bits64 start_block / 2 ^ 48 % 256,
       bits64 start_block / 2 ^ 40 % 256, bits64 start_block / 2 ^ 32 % 256,
       bits64 start_block / 2 ^ 24 % 256, bits64 start_block / 2 ^ 16 % 256,
       bits64 start_block / 2 ^ 8 % 256, bits64 start_block % 256,
       0, 0, 0, blocks % 256, (flags.group % 32).toNat, 0] := by
  obtain ⟨dpo, fua, fua_nv, group, wrprotect⟩ := flags
  simp only [sg_build_scsi_cdb, COMPARE_AND_WRITE_CDB_SIZE, COMPARE_AND_WRITE_OPCODE,
    WRPROTECT_MASK, WRPROTECT_SHIFT, FLAG_DPO, FLAG_FUA, FLAG_FUA_NV]
  rw [cand64_sar _ 56 (by norm_num), cand64_sar _ 48 (by norm_num),
    cand64_sar _ 40 (by norm_num), cand64_sar _ 32 (by norm_num),
    cand64_sar _ 24 (by norm_num), cand64_sar _ 16 (by norm_num),
    cand64_sar _ 8 (by norm_num), cand64_255, and_255, cand32_7, cand32_31]
  have hgm : (group % 32).toNat % 256 = (group % 32).toNat := by omega
  by_cases hd : dpo = 0 <;> by_cases hf : fua = 0 <;> by_cases hn : fua_nv = 0 <;>
    simp only [hd, hf, hn, ne_eq, not_true_eq_false, not_false_eq_true, if_true, if_false,
      put, putOr, List.replicate, List.set_cons_zero, List.set_cons_succ,
      List.getD_cons_succ, List.getD_cons_zero, Nat.mod_mod, hgm] <;>
    exact ⟨_, rfl⟩

/-- C1. For wrprotect in [0,7] and group in [0,31], whatever the dpo, fua and
fua_nv flags, the block count and the start block are, `sg_build_scsi_cdb`
returns 0 and writes sixteen bytes: 0x89, the flag byte
`(wrprotect << 5) | dpo 0x10 | fua 0x08 | fua_nv 0x02`, the eight bytes of the
start block, three zero bytes, `blocks mod 256`, the group, and a zero byte. -/
theorem caw_cdb_layout (blocks : Nat) (start_block : Int) (flags : caw_flags)
    (hw : 0 ≤ flags.wrprotect ∧ flags.wrprotect ≤ 7)
    (hg : 0 ≤ flags.group ∧ flags.group ≤ 31) :
    (sg_build_scsi_cdb blocks start_block flags).1 = 0 ∧
    (sg_build_scsi_cdb blocks start_block flags).2 =
      [0x89,
       (flags.wrprotect.toNat <<< 5) ||| (if flags.dpo ≠ 0 then 0x10 else 0) |||
         (if flags.fua ≠ 0 then 0x08 else 0) ||| (if flags.fua_nv ≠ 0 then 0x02 else 0),
       bits64 start_block / 2 ^ 56 % 256, bits64 start_block / 2 ^ 48 % 256,
       bits64 start_block / 2 ^ 40 % 256, bits64 start_block / 2 ^ 32 % 256,
       bits64 start_block / 2 ^ 24 % 256, bits64 start_block / 2 ^ 16 % 256,
       bits64 start_block / 2 ^ 8 % 256, bits64 start_block % 256,
       0, 0, 0, blocks % 256, flags.group.toNat, 0] := by
  obtain ⟨dpo, fua, fua_nv, group, wrprotect⟩ := flags
  simp only at hw hg
  refine ⟨rfl, ?_⟩
  simp only [sg_build_scsi_cdb, COMPARE_AND_WRITE_CDB_SIZE, COMPARE_AND_WRITE_OPCODE,
    WRPROTECT_MASK, WRPROTECT_SHIFT, FLAG_DPO, FLAG_FUA, FLAG_FUA_NV]
  rw [cand64_sar _ 56 (by norm_num), cand64_sar _ 48 (by norm_num),
    cand64_sar _ 40 (by norm_num), cand64_sar _ 32 (by norm_num),
    cand64_sar _ 24 (by norm_num), cand64_sar _ 16 (by norm_num),
    cand64_sar _ 8 (by norm_num), cand64_255, and_255, cand32_7, cand32_31]
  obtain ⟨h0, h7⟩ := hw
  have hgr : (group % 32).toNat = group.toNat := by omega
  have hgm : group.toNat % 256 = group.toNat := by omega
  rw [hgr]
  by_cases hd : dpo = 0 <;> by_cases hf : fua = 0 <;> by_cases hn : fua_nv = 0 <;>
    simp only [hd, hf, hn, ne_eq, not_true_eq_false, not_false_eq_true, if_true, if_false,
      put, putOr, List.replicate, List.set_cons_zero, List.set_cons_succ,
      List.getD_cons_succ, List.getD_cons_zero, Nat.mod_mod, hgm, List.cons.injEq,
      true_and, and_true] <;>
    interval_cases wrprotect <;> rfl

/-- Witness of C1: wrprotect 5, group 17, dpo and fua_nv set, 300 blocks. -/
theorem caw_cdb_layout_witness :
    (sg_build_scsi_cdb 300 0x0102030405060708 ⟨1, 0, 4, 17, 5⟩).2 =
      [0x89, 0xb2, 1, 2, 3, 4, 5, 6, 7, 8, 0, 0, 0, 44, 17, 0] :=
  (caw_cdb_layout 300 0x0102030405060708 ⟨1, 0, 4, 17, 5⟩
    ⟨by decide, by decide⟩ ⟨by decide, by decide⟩).2

/-- C2. For every 64-bit LBA, passed to `sg_build_scsi_cdb` as the `int64_t`
it converts to (negative from 2^63 on), bytes 2..9 of the CDB read as a
big-endian number are the LBA again. -/
theorem caw_lba_roundtrip (blocks : Nat) (lba : Nat) (flags : caw_flags)
    (h : lba < 2 ^ 64) :
    beValue (((sg_build_scsi_cdb blocks (toInt64 lba) flags).2.drop 2).take 8) = lba := by
  obtain ⟨b1, hb⟩ := sg_build_scsi_cdb_shape blocks (toInt64 lba) flags
  have hbits : bits64 (toInt64 lba) = lba := by
    unfold bits64 toInt64
    split <;> omega
  rw [hb, hbits]
  simp only [List.drop_succ_cons, List.drop_zero, List.take_succ_cons, List.take_zero,
    beValue, List.foldl_cons, List.foldl_nil]
  omega

/-- Witness of C2: an LBA above 2^63, which is a negative `start_block`. -/
theorem caw_lba_roundtrip_witness :
    toInt64 0xfedcba9876543210 < 0 ∧
    beValue (((sg_build_scsi_cdb 1 (toInt64 0xfedcba9876543210)
      ⟨0, 0, 0, 0, 0⟩).2.drop 2).take 8) = 0xfedcba9876543210 :=
  ⟨by decide, caw_lba_roundtrip 1 0xfedcba9876543210 ⟨0, 0, 0, 0, 0⟩ (by decide)⟩

end sg_compare_and_write

/-! ## WRITE SAME -/

namespace sg_write_same

/-- The ten byte command `do_write_same` builds when the length chosen is 10. -/
theorem ws10_shape (U : Nat) (op : opts_t) (h : ws_cdb_len U op = 10) :
    do_write_same U op = ⟨10, some
      [0x41,
       ((cand32 op.wrprotect 0x7) <<< 5) ||| (if op.anchor ≠ 0 then 0x10 else 0) |||
         (if op.unmap ≠ 0 then 0x08 else 0) ||| (if op.pbdata ≠ 0 then 0x04 else 0) |||
         (if op.lbdata ≠ 0 then 0x02 else 0),
       op.lba % 2 ^ 32 / 2 ^ 24 % 256, op.lba % 2 ^ 32 / 2 ^ 16 % 256,
       op.lba % 2 ^ 32 / 2 ^ 8 % 256, op.lba % 2 ^ 32 % 256,
       cand32 op.grpnum 0x1f,
       bits32 op.numblocks / 2 ^ 8 % 256, bits32 op.numblocks % 256, 0]⟩ := by
  unfold do_write_same
  simp only [h, WRITE_SAME10_LEN, if_true, WRITE_SAME10_OP]
  rw [cand32_sar _ 8 (by norm_num), cand32_255, cand32_7, cand32_31]
  have hw : (op.wrprotect % 8).toNat < 8 := by omega
  generalize (op.wrprotect % 8).toNat = w at hw
  have hgm : (op.grpnum % 32).toNat % 256 = (op.grpnum % 32).toNat := by omega
  by_cases ha : op.anchor = 0 <;> by_cases hu : op.unmap = 0 <;>
    by_cases hp : op.pbdata = 0 <;> by_cases hl : op.lbdata = 0 <;>
    simp only [ha, hu, hp, hl, ne_eq, not_true_eq_false, not_false_eq_true, if_true, if_false,
      put, putOr, put_be_loop, List.replicate, List.set_cons_zero, List.set_cons_succ,
      List.getD_cons_succ, List.getD_cons_zero, Nat.mod_mod, hgm, Nat.reduceAdd,
      List.take_succ_cons, List.take_zero, and_255, Nat.shiftRight_eq_div_pow,
      ws_cmd.mk.injEq, Option.some.injEq, List.cons.injEq, true_and, and_true,
      div_div_16, div_div_24] <;>
    interval_cases w <;> rfl

/-- The sixteen byte command `do_write_same` builds when the length chosen is 16. -/
theorem ws16_shape (U : Nat) (op : opts_t) (h : ws_cdb_len U op = 16) :
    do_write_same U op = ⟨16, some
      [0x93,
       ((cand32 op.wrprotect 0x7) <<< 5) ||| (if op.anchor ≠ 0 then 0x10 else 0) |||
         (if op.unmap ≠ 0 then 0x08 else 0) ||| (if op.pbdata ≠ 0 then 0x04 else 0) |||
         (if op.lbdata ≠ 0 then 0x02 else 0) ||| (if op.ndob ≠ 0 then 0x01 else 0),
       op.lba % 2 ^ 64 / 2 ^ 56 % 256, op.lba % 2 ^ 64 / 2 ^ 48 % 256,
       op.lba % 2 ^ 64 / 2 ^ 40 % 256, op.lba % 2 ^ 64 / 2 ^ 32 % 256,
       op.lba % 2 ^ 64 / 2 ^ 24 % 256, op.lba % 2 ^ 64 / 2 ^ 16 % 256,
       op.lba % 2 ^ 64 / 2 ^ 8 % 256, op.lba % 2 ^ 64 % 256,
       bits32 op.numblocks / 2 ^ 24 % 256, bits32 op.numblocks / 2 ^ 16 % 256,
       bits32 op.numblocks / 2 ^ 8 % 256, bits32 op.numblocks % 256,
       cand32 op.grpnum 0x1f, 0]⟩ := by
  unfold do_write_same
  simp only [h, WRITE_SAME10_LEN, WRITE_SAME16_LEN, if_true, WRITE_SAME16_OP,
    show ¬ ((16 : Int) = 10) by decide, if_false]
  rw [cand32_7, cand32_31]
  have hw : (op.wrprotect % 8).toNat < 8 := by omega
  generalize (op.wrprotect % 8).toNat = w at hw
  have hgm : (op.grpnum % 32).toNat % 256 = (op.grpnum % 32).toNat := by omega
  by_cases ha : op.anchor = 0 <;> by_cases hu : op.unmap = 0 <;>
    by_cases hp : op.pbdata = 0 <;> by_cases hl : op.lbdata = 0 <;>
    by_cases hd : op.ndob = 0 <;>
    simp only [ha, hu, hp, hl, hd, ne_eq, not_true_eq_false, not_false_eq_true, if_true,
      if_false, put, putOr, put_be_loop, List.replicate, List.set_cons_zero,
      List.set_cons_succ, List.getD_cons_succ, List.getD_cons_zero, Nat.mod_mod, hgm,
      Nat.reduceAdd, List.take_succ_cons, List.take_zero, and_255,
      Nat.shiftRight_eq_div_pow, ws_cmd.mk.injEq, Option.some.injEq, List.cons.injEq,
      true_and, and_true, div_div_16, div_div_24, div_div_32, div_div_40, div_div_48,
      div_div_56] <;>
    interval_cases w <;> rfl

/-- The thirty-two byte command `do_write_same` builds when the length chosen is 32. -/
theorem ws32_shape (U : Nat) (op : opts_t) (h : ws_cdb_len U op = 32) :
    do_write_same U op = ⟨32, some
      [0x7f, 0, 0, 0, 0, 0, cand32 op.grpnum 0x1f, 0x18, 0x00, 0x0d,
       ((cand32 op.wrprotect 0x7) <<< 5) ||| (if op.anchor ≠ 0 then 0x10 else 0) |||
         (if op.unmap ≠ 0 then 0x08 else 0) ||| (if op.pbdata ≠ 0 then 0x04 else 0) |||
         (if op.lbdata ≠ 0 then 0x02 else 0) ||| (if op.ndob ≠ 0 then 0x01 else 0),
       0,
       op.lba % 2 ^ 64 / 2 ^ 56 % 256, op.lba % 2 ^ 64 / 2 ^ 48 % 256,
       op.lba % 2 ^ 64 / 2 ^ 40 % 256, op.lba % 2 ^ 64 / 2 ^ 32 % 256,
       op.lba % 2 ^ 64 / 2 ^ 24 % 256, op.lba % 2 ^ 64 / 2 ^ 16 % 256,
       op.lba % 2 ^ 64 / 2 ^ 8 % 256, op.lba % 2 ^ 64 % 256,
       0, 0, 0, 0, 0, 0, 0, 0,
       bits32 op.numblocks / 2 ^ 24 % 256, bits32 op.numblocks / 2 ^ 16 % 256,
       bits32 op.numblocks / 2 ^ 8 % 256, bits32 op.numblocks % 256]⟩ := by
  unfold do_write_same
  simp only [h, WRITE_SAME10_LEN, WRITE_SAME16_LEN, WRITE_SAME32_LEN, if_true,
    VARIABLE_LEN_OP, WRITE_SAME32_ADD, WRITE_SAME32_SA,
    show ¬ ((32 : Int) = 10) by decide, show ¬ ((32 : Int) = 16) by decide, if_false]
  rw [cand32_7, cand32_31]
  have hw : (op.wrprotect % 8).toNat < 8 := by omega
  generalize (op.wrprotect % 8).toNat = w at hw
  have hgm : (op.grpnum % 32).toNat % 256 = (op.grpnum % 32).toNat := by omega
  by_cases ha : op.anchor = 0 <;> by_cases hu : op.unmap = 0 <;>
    by_cases hp : op.pbdata = 0 <;> by_cases hl : op.lbdata = 0 <;>
    by_cases hd : op.ndob = 0 <;>
    simp only [ha, hu, hp, hl, hd, ne_eq, not_true_eq_false, not_false_eq_true, if_true,
      if_false, put, putOr, put_be_loop, List.replicate, List.set_cons_zero,
      List.set_cons_succ, List.getD_cons_succ, List.getD_cons_zero, Nat.mod_mod, hgm,
      Nat.reduceAdd, List.take_succ_cons, List.take_zero, and_255,
      Nat.shiftRight_eq_div_pow, ws_cmd.mk.injEq, Option.some.injEq, List.cons.injEq,
      true_and, and_true, div_div_16, div_div_24, div_div_32, div_div_40, div_div_48,
      div_div_56] <;>
    interval_cases w <;> rfl

/-- The value stored through `act_cdb_lenp` is the length chosen. -/
theorem act_cdb_len_eq (U : Nat) (op : opts_t) :
    (do_write_same U op).act_cdb_len = ws_cdb_len U op := by
  by_cases h10 : ws_cdb_len U op = 10
  · rw [ws10_shape U op h10, h10]
  by_cases h16 : ws_cdb_len U op = 16
  · rw [ws16_shape U op h16, h16]
  by_cases h32 : ws_cdb_len U op = 32
  · rw [ws32_shape U op h32, h32]
  unfold do_write_same
  simp only [WRITE_SAME10_LEN, WRITE_SAME16_LEN, WRITE_SAME32_LEN, h10, h16, h32, if_false]

/-- The ten byte form is kept only for a preferred size of 10 and a block
count of at most 0xFFFF. -/
theorem ws_cdb_len_10 (U : Nat) (op : opts_t) (h : ws_cdb_len U op = 10) :
    op.pref_cdb_size = 10 ∧ op.numblocks ≤ 0xffff := by
  unfold ws_cdb_len at h
  simp only [WRITE_SAME10_LEN, WRITE_SAME16_LEN] at h
  split_ifs at h with h1 h2
  · omega
  · exact ⟨h, by omega⟩
  · omega

/-- Where `unsigned long` has 64 bits, the comparison `llba > ULONG_MAX` is
never true: with a preferred size of 10 the length stays 10 unless the block
count, `ndob` or `unmap` asks for 16, however large the LBA is. -/
theorem ws_cdb_len_lp64 (op : opts_t) (hp : op.pref_cdb_size = 10)
    (hn : op.numblocks ≤ 0xffff) (hd : op.ndob = 0)
    (hu : op.unmap = 0 ∨ op.want_ws10 ≠ 0) :
    ws_cdb_len (2 ^ 64 - 1) op = 10 := by
  unfold ws_cdb_len
  simp only [WRITE_SAME10_LEN, WRITE_SAME16_LEN, hp, if_true]
  rw [if_neg]
  rintro (h | h | h | ⟨h1, h2⟩)
  · omega
  · unfold bits64 at h
    omega
  · exact h hd
  · rcases hu with hu | hu
    · exact h1 hu
    · exact hu h2.symm

/-- Where `unsigned long` has 32 bits, an LBA plus block count above
0xFFFFFFFF chooses the length 16, as long as the sum stays below 2^64. -/
theorem ws_cdb_len_ilp32 (op : opts_t) (hp : op.pref_cdb_size = 10)
    (hs : (op.lba : Int) + op.numblocks < 2 ^ 64)
    (h : (op.lba : Int) + op.numblocks > 0xffffffff) :
    ws_cdb_len (2 ^ 32 - 1) op = 16 := by
  unfold ws_cdb_len
  simp only [WRITE_SAME10_LEN, WRITE_SAME16_LEN, hp, if_true]
  rw [if_pos]
  right; left
  unfold bits64
  omega

/-- C4, at the failing input. With a 64 bit `unsigned long`, the options of
`--lba=0x100000000 --num=1` keep the ten byte form, and the four LBA bytes of
the command are zero: the LBA sent is 0, not 0x100000000. -/
theorem ws_lba_not_upgraded_lp64 :
    do_write_same (2 ^ 64 - 1) ⟨0, 0, 0x100000000, 0, 0, 1, 0, 60, 0, 0, 0, 512, 10, 0⟩ =
      ⟨10, some [0x41, 0, 0, 0, 0, 0, 0, 0, 1, 0]⟩ := by
  decide

/-- A block count that `main` never passes on: it rejects a negative `--num`
(lines 381-386) before its one call of `do_write_same`. Called with
`numblocks = -1` the function would choose the ten byte form and store
0xFF 0xFF, which read 65535. -/
theorem ws10_negative_numblocks :
    do_write_same (2 ^ 64 - 1) ⟨0, 0, 1, 0, 0, -1, 0, 60, 0, 0, 0, 512, 10, 0⟩ =
      ⟨10, some [0x41, 0, 0, 0, 0, 1, 0, 0xff, 0xff, 0]⟩ ∧
    ((beValue [0xff, 0xff] : Nat) : Int) ≠ -1 := by
  decide

/-- C5. For every block count that reaches `do_write_same` (`main` rejects a
negative `--num` before its one call, so `0 ≤ numblocks`), whenever
`do_write_same` chooses the ten byte form the command is 0x41, the flag byte
`((wrprotect & 7) << 5) | anchor 0x10 | unmap 0x08 | pbdata 0x04 | lbdata 0x02`,
the low 32 bits of the LBA most significant byte first, `grpnum & 0x1f`,
the block count in two bytes, and a zero byte; the block count is at most
0xFFFF and bytes 7..8 read back as the block count. -/
theorem ws10_layout (U : Nat) (op : opts_t) (hn : 0 ≤ op.numblocks)
    (h : (do_write_same U op).act_cdb_len = 10) :
    op.numblocks ≤ 0xffff ∧
    (do_write_same U op).cdb = some
      [0x41,
       ((cand32 op.wrprotect 0x7) <<< 5) ||| (if op.anchor ≠ 0 then 0x10 else 0) |||
         (if op.unmap ≠ 0 then 0x08 else 0) ||| (if op.pbdata ≠ 0 then 0x04 else 0) |||
         (if op.lbdata ≠ 0 then 0x02 else 0),
       op.lba % 2 ^ 32 / 2 ^ 24 % 256, op.lba % 2 ^ 32 / 2 ^ 16 % 256,
       op.lba % 2 ^ 32 / 2 ^ 8 % 256, op.lba % 2 ^ 32 % 256,
       cand32 op.grpnum 0x1f,
       op.numblocks.toNat / 2 ^ 8 % 256, op.numblocks.toNat % 256, 0] ∧
    beValue [op.lba % 2 ^ 32 / 2 ^ 24 % 256, op.lba % 2 ^ 32 / 2 ^ 16 % 256,
       op.lba % 2 ^ 32 / 2 ^ 8 % 256, op.lba % 2 ^ 32 % 256] = op.lba % 2 ^ 32 ∧
    ((beValue [op.numblocks.toNat / 2 ^ 8 % 256, op.numblocks.toNat % 256] : Nat) : Int)
      = op.numblocks := by
  rw [act_cdb_len_eq] at h
  obtain ⟨_, hle⟩ := ws_cdb_len_10 U op h
  have hb : bits32 op.numblocks = op.numblocks.toNat := by
    unfold bits32
    omega
  rw [ws10_shape U op h, hb]
  refine ⟨hle, rfl, ?_, ?_⟩
  · simp only [beValue, List.foldl_cons, List.foldl_nil]
    omega
  · simp only [beValue, List.foldl_cons, List.foldl_nil]
    omega

/-- Witness of C5: wrprotect 3, anchor and unmap with `--10`, 258 blocks. -/
theorem ws10_layout_witness :
    (do_write_same (2 ^ 64 - 1)
      ⟨1, 9, 0x11223344, 0, 0, 258, 0, 60, 1, 0, 3, 512, 10, 1⟩).cdb =
      some [0x41, 0x78, 0x11, 0x22, 0x33, 0x44, 9, 1, 2, 0] :=
  (ws10_layout (2 ^ 64 - 1) ⟨1, 9, 0x11223344, 0, 0, 258, 0, 60, 1, 0, 3, 512, 10, 1⟩
    (by decide) (by decide)).2.1

/-- C6. For a non-negative block count (an `int`, so below 2^31) and a 64 bit
LBA: when `do_write_same` builds the 16 byte form the command is 0x93, the
flag byte
`((wrprotect & 7) << 5) | anchor 0x10 | unmap 0x08 | pbdata 0x04 | lbdata 0x02 | ndob 0x01`,
the LBA in eight bytes, the block count in four bytes, `grpnum & 0x1f` and a
zero byte; when it builds the 32 byte form the command is 0x7F, five zero
bytes, `grpnum & 0x1f`, 0x18, 0x00 0x0D, the same flag byte, a zero byte, the
LBA in eight bytes, eight zero bytes and the block count in four bytes. The
LBA and block count bytes read back as the LBA and the block count. -/
theorem ws16_32_layout (U : Nat) (op : opts_t) (hn : 0 ≤ op.numblocks)
    (hn31 : op.numblocks < 2 ^ 31) (hl : op.lba < 2 ^ 64) :
    ((do_write_same U op).act_cdb_len = 16 →
      (do_write_same U op).cdb = some
        [0x93,
         ((cand32 op.wrprotect 0x7) <<< 5) ||| (if op.anchor ≠ 0 then 0x10 else 0) |||
           (if op.unmap ≠ 0 then 0x08 else 0) ||| (if op.pbdata ≠ 0 then 0x04 else 0) |||
           (if op.lbdata ≠ 0 then 0x02 else 0) ||| (if op.ndob ≠ 0 then 0x01 else 0),
         op.lba / 2 ^ 56 % 256, op.lba / 2 ^ 48 % 256, op.lba / 2 ^ 40 % 256,
         op.lba / 2 ^ 32 % 256, op.lba / 2 ^ 24 % 256, op.lba / 2 ^ 16 % 256,
         op.lba / 2 ^ 8 % 256, op.lba % 256,
         op.numblocks.toNat / 2 ^ 24 % 256, op.numblocks.toNat / 2 ^ 16 % 256,
         op.numblocks.toNat / 2 ^ 8 % 256, op.numblocks.toNat % 256,
         cand32 op.grpnum 0x1f, 0]) ∧
    ((do_write_same U op).act_cdb_len = 32 →
      (do_write_same U op).cdb = some
        [0x7f, 0, 0, 0, 0, 0, cand32 op.grpnum 0x1f, 0x18, 0x00, 0x0d,
         ((cand32 op.wrprotect 0x7) <<< 5) ||| (if op.anchor ≠ 0 then 0x10 else 0) |||
           (if op.unmap ≠ 0 then 0x08 else 0) ||| (if op.pbdata ≠ 0 then 0x04 else 0) |||
           (if op.lbdata ≠ 0 then 0x02 else 0) ||| (if op.ndob ≠ 0 then 0x01 else 0),
         0,
         op.lba / 2 ^ 56 % 256, op.lba / 2 ^ 48 % 256, op.lba / 2 ^ 40 % 256,
         op.lba / 2 ^ 32 % 256, op.lba / 2 ^ 24 % 256, op.lba / 2 ^ 16 % 256,
         op.lba / 2 ^ 8 % 256, op.lba % 256,
         0, 0, 0, 0, 0, 0, 0, 0,
         op.numblocks.toNat / 2 ^ 24 % 256, op.numblocks.toNat / 2 ^ 16 % 256,
         op.numblocks.toNat / 2 ^ 8 % 256, op.numblocks.toNat % 256]) ∧
    beValue [op.lba / 2 ^ 56 % 256, op.lba / 2 ^ 48 % 256, op.lba / 2 ^ 40 % 256,
         op.lba / 2 ^ 32 % 256, op.lba / 2 ^ 24 % 256, op.lba / 2 ^ 16 % 256,
         op.lba / 2 ^ 8 % 256, op.lba % 256] = op.lba ∧
    ((beValue [op.numblocks.toNat / 2 ^ 24 % 256, op.numblocks.toNat / 2 ^ 16 % 256,
         op.numblocks.toNat / 2 ^ 8 % 256, op.numblocks.toNat % 256] : Nat) : Int)
      = op.numblocks := by
  have hb : bits32 op.numblocks = op.numblocks.toNat := by
    unfold bits32
    omega
  have hm : op.lba % 2 ^ 64 = op.lba := Nat.mod_eq_of_lt hl
  refine ⟨?_, ?_, ?_, ?_⟩
  · intro h
    rw [act_cdb_len_eq] at h
    rw [ws16_shape U op h, hb, hm]
  · intro h
    rw [act_cdb_len_eq] at h
    rw [ws32_shape U op h, hb, hm]
  · simp only [beValue, List.foldl_cons, List.foldl_nil]
    omega
  · simp only [beValue, List.foldl_cons, List.foldl_nil]
    omega

/-- Witness of C6: the options of `--32 --ndob --anchor` with wrprotect 7,
group 31, 0x12345 blocks at LBA 0x1122334455667788. -/
theorem ws16_32_layout_witness :
    (do_write_same (2 ^ 64 - 1)
      ⟨1, 31, 0x1122334455667788, 0, 1, 0x12345, 0, 60, 0, 0, 7, 0, 32, 0⟩).cdb =
      some [0x7f, 0, 0, 0, 0, 0, 31, 0x18, 0x00, 0x0d, 0xf1, 0,
        0x11, 0x22, 0x33, 0x44, 0x55, 0x66, 0x77, 0x88, 0, 0, 0, 0, 0, 0, 0, 0,
        0, 1, 0x23, 0x45] :=
  (ws16_32_layout (2 ^ 64 - 1)
    ⟨1, 31, 0x1122334455667788, 0, 1, 0x12345, 0, 60, 0, 0, 7, 0, 32, 0⟩
    (by decide) (by decide) (by decide)).2.1 (by decide)

end sg_write_same

/-! ## WRITE AND VERIFY -/

namespace sg_write_verify

/-- C7. For wrprotect in [0,7], bytchk in [0,3], group in [0,31] and any dpo
flag, `sg_ll_write_verify10` builds the ten bytes 0x2E, the flag byte
`(wrprotect << 5) | dpo 0x10 | (bytchk << 1)`, the 32 bit LBA most significant
byte first, the group, the low 16 bits of `num_lb` in two bytes, and a zero
byte; `sg_ll_write_verify16` builds the sixteen bytes 0x8E, the same flag
byte, the 64 bit LBA in eight bytes, the 32 bits of `num_lb` in four bytes,
the group, and a zero byte. -/
theorem write_verify_layout (wrprotect dpo bytchk num_lb group : Int) (lba llba : Nat)
    (hw : 0 ≤ wrprotect ∧ wrprotect ≤ 7) (hb : 0 ≤ bytchk ∧ bytchk ≤ 3)
    (hg : 0 ≤ group ∧ group ≤ 31) (hl : lba < 2 ^ 32) (hll : llba < 2 ^ 64) :
    sg_ll_write_verify10 wrprotect dpo bytchk lba num_lb group =
      [0x2e,
       (wrprotect.toNat <<< 5) ||| (if dpo ≠ 0 then 0x10 else 0) ||| (bytchk.toNat <<< 1),
       lba / 2 ^ 24 % 256, lba / 2 ^ 16 % 256, lba / 2 ^ 8 % 256, lba % 256,
       group.toNat,
       bits32 num_lb / 2 ^ 8 % 256, bits32 num_lb % 256, 0] ∧
    sg_ll_write_verify16 wrprotect dpo bytchk llba num_lb group =
      [0x8e,
       (wrprotect.toNat <<< 5) ||| (if dpo ≠ 0 then 0x10 else 0) ||| (bytchk.toNat <<< 1),
       llba / 2 ^ 56 % 256, llba / 2 ^ 48 % 256, llba / 2 ^ 40 % 256, llba / 2 ^ 32 % 256,
       llba / 2 ^ 24 % 256, llba / 2 ^ 16 % 256, llba / 2 ^ 8 % 256, llba % 256,
       bits32 num_lb / 2 ^ 24 % 256, bits32 num_lb / 2 ^ 16 % 256,
       bits32 num_lb / 2 ^ 8 % 256, bits32 num_lb % 256,
       group.toNat, 0] ∧
    beValue [lba / 2 ^ 24 % 256, lba / 2 ^ 16 % 256, lba / 2 ^ 8 % 256, lba % 256] = lba ∧
    beValue [bits32 num_lb / 2 ^ 8 % 256, bits32 num_lb % 256] = bits32 num_lb % 2 ^ 16 ∧
    beValue [llba / 2 ^ 56 % 256, llba / 2 ^ 48 % 256, llba / 2 ^ 40 % 256,
       llba / 2 ^ 32 % 256, llba / 2 ^ 24 % 256, llba / 2 ^ 16 % 256, llba / 2 ^ 8 % 256,
       llba % 256] = llba ∧
    beValue [bits32 num_lb / 2 ^ 24 % 256, bits32 num_lb / 2 ^ 16 % 256,
       bits32 num_lb / 2 ^ 8 % 256, bits32 num_lb % 256] = bits32 num_lb := by
  obtain ⟨hw0, hw7⟩ := hw
  obtain ⟨hb0, hb3⟩ := hb
  have hgr : (group % 32).toNat = group.toNat := by omega
  have hgm : group.toNat % 256 = group.toNat := by omega
  have hbl : bits32 num_lb < 2 ^ 32 := by
    unfold bits32
    omega
  refine ⟨?_, ?_, ?_, ?_, ?_, ?_⟩
  · simp only [sg_ll_write_verify10, WRITE_VERIFY10_CMDLEN, WRITE_VERIFY10_CMD,
      WRPROTECT_MASK, WRPROTECT_SHIFT]
    rw [cand32_sar _ 8 (by norm_num), cand32_255, cand32_7, cand32_31, cand32_3, hgr]
    by_cases hd : dpo = 0 <;> by_cases hz : bytchk = 0 <;>
      simp only [hd, hz, ne_eq, not_true_eq_false, not_false_eq_true, if_true, if_false,
        put, putOr, List.replicate, List.set_cons_zero, List.set_cons_succ,
        List.getD_cons_succ, List.getD_cons_zero, Nat.mod_mod, hgm, and_255,
        Nat.shiftRight_eq_div_pow, List.cons.injEq, true_and, and_true] <;>
      interval_cases wrprotect <;> interval_cases bytchk <;> rfl
  · simp only [sg_ll_write_verify16, WRITE_VERIFY16_CMDLEN, WRITE_VERIFY16_CMD,
      WRPROTECT_MASK, WRPROTECT_SHIFT]
    rw [cand32_sar _ 24 (by norm_num), cand32_sar _ 16 (by norm_num),
      cand32_sar _ 8 (by norm_num), cand32_255, cand32_7, cand32_31, cand32_3, hgr]
    by_cases hd : dpo = 0 <;> by_cases hz : bytchk = 0 <;>
      simp only [hd, hz, ne_eq, not_true_eq_false, not_false_eq_true, if_true, if_false,
        put, putOr, List.replicate, List.set_cons_zero, List.set_cons_succ,
        List.getD_cons_succ, List.getD_cons_zero, Nat.mod_mod, hgm, and_255,
        Nat.shiftRight_eq_div_pow, List.cons.injEq, true_and, and_true] <;>
      interval_cases wrprotect <;> interval_cases bytchk <;> rfl
  · simp only [beValue, List.foldl_cons, List.foldl_nil]
    omega
  · simp only [beValue, List.foldl_cons, List.foldl_nil]
    omega
  · simp only [beValue, List.foldl_cons, List.foldl_nil]
    omega
  · simp only [beValue, List.foldl_cons, List.foldl_nil]
    omega

/-- Witness of C7: wrprotect 5, dpo set, bytchk 2, group 17. -/
theorem write_verify_layout_witness :
    sg_ll_write_verify10 5 1 2 0x11223344 0x10203 17 =
      [0x2e, 0xb4, 0x11, 0x22, 0x33, 0x44, 17, 2, 3, 0] ∧
    sg_ll_write_verify16 5 1 2 0x1122334455667788 0x10203 17 =
      [0x8e, 0xb4, 0x11, 0x22, 0x33, 0x44, 0x55, 0x66, 0x77, 0x88, 0, 1, 2, 3, 17, 0] :=
  ⟨(write_verify_layout 5 1 2 0x10203 17 0x11223344 0x1122334455667788
      ⟨by decide, by decide⟩ ⟨by decide, by decide⟩ ⟨by decide, by decide⟩
      (by decide) (by decide)).1,
   (write_verify_layout 5 1 2 0x10203 17 0x11223344 0x1122334455667788
      ⟨by decide, by decide⟩ ⟨by decide, by decide⟩ ⟨by decide, by decide⟩
      (by decide) (by decide)).2.1⟩

end sg_write_verify

/-! ## READ BUFFER -/

namespace sg_read_buffer

/-- The byte 1 of both READ BUFFER commands, for a mode in [0,31] and a
mode specific value in [0,7]. -/
theorem mode_byte (rb_mode rb_mode_sp : Int) (hm : 0 ≤ rb_mode ∧ rb_mode ≤ 31)
    (hs : 0 ≤ rb_mode_sp ∧ rb_mode_sp ≤ 7) :
    ((rb_mode % 32).toNat % 256 ||| (rb_mode_sp % 8).toNat <<< 5) % 256 =
      rb_mode.toNat ||| (rb_mode_sp.toNat <<< 5) ∧
    (rb_mode % 32).toNat % 256 = rb_mode.toNat := by
  have h1 : (rb_mode % 32).toNat % 256 = rb_mode.toNat := by omega
  have h2 : (rb_mode_sp % 8).toNat = rb_mode_sp.toNat := by omega
  have h3 : rb_mode_sp.toNat <<< 5 < 256 := by
    rw [Nat.shiftLeft_eq]
    omega
  rw [h1, h2]
  exact ⟨or_mod_256 (by omega) h3, rfl⟩

/-- C8. For a mode in [0,31], a mode specific value in [0,7], a buffer id in
[0,255] and a length in [0,0xFFFFFF], `ll_read_buffer_10` sends the ten bytes
0x3C, `mode | (mode_specific << 5)`, the id, the low 24 bits of the offset
most significant byte first, the length in three bytes, and a zero byte;
`ll_read_buffer_16` sends the sixteen bytes 0x9B, the same byte 1, the 64 bit
offset in eight bytes, a zero byte, the length in three bytes, the id, and a
zero byte. -/
theorem read_buffer_layout (rb_mode rb_mode_sp rb_id mx_resp_len : Int)
    (off10 off16 : Nat)
    (hm : 0 ≤ rb_mode ∧ rb_mode ≤ 31) (hs : 0 ≤ rb_mode_sp ∧ rb_mode_sp ≤ 7)
    (hi : 0 ≤ rb_id ∧ rb_id ≤ 255) (hlen : 0 ≤ mx_resp_len ∧ mx_resp_len ≤ 0xffffff)
    (h10 : off10 < 2 ^ 32) (h16 : off16 < 2 ^ 64) :
    ll_read_buffer_10 rb_mode rb_mode_sp rb_id off10 mx_resp_len =
      [0x3c, rb_mode.toNat ||| (rb_mode_sp.toNat <<< 5), rb_id.toNat,
       off10 / 2 ^ 16 % 256, off10 / 2 ^ 8 % 256, off10 % 256,
       mx_resp_len.toNat / 2 ^ 16 % 256, mx_resp_len.toNat / 2 ^ 8 % 256,
       mx_resp_len.toNat % 256, 0] ∧
    ll_read_buffer_16 rb_mode rb_mode_sp rb_id off16 mx_resp_len =
      [0x9b, rb_mode.toNat ||| (rb_mode_sp.toNat <<< 5),
       off16 / 2 ^ 56 % 256, off16 / 2 ^ 48 % 256, off16 / 2 ^ 40 % 256,
       off16 / 2 ^ 32 % 256, off16 / 2 ^ 24 % 256, off16 / 2 ^ 16 % 256,
       off16 / 2 ^ 8 % 256, off16 % 256,
       0,
       mx_resp_len.toNat / 2 ^ 16 % 256, mx_resp_len.toNat / 2 ^ 8 % 256,
       mx_resp_len.toNat % 256, rb_id.toNat, 0] ∧
    beValue [off10 / 2 ^ 16 % 256, off10 / 2 ^ 8 % 256, off10 % 256] = off10 % 2 ^ 24 ∧
    beValue [mx_resp_len.toNat / 2 ^ 16 % 256, mx_resp_len.toNat / 2 ^ 8 % 256,
       mx_resp_len.toNat % 256] = mx_resp_len.toNat ∧
    beValue [off16 / 2 ^ 56 % 256, off16 / 2 ^ 48 % 256, off16 / 2 ^ 40 % 256,
       off16 / 2 ^ 32 % 256, off16 / 2 ^ 24 % 256, off16 / 2 ^ 16 % 256,
       off16 / 2 ^ 8 % 256, off16 % 256] = off16 := by
  obtain ⟨hb1, hb0⟩ := mode_byte rb_mode rb_mode_sp hm hs
  have hid : bits32 rb_id % 256 = rb_id.toNat := by
    unfold bits32
    omega
  have hln : bits32 mx_resp_len = mx_resp_len.toNat := by
    unfold bits32
    omega
  have ho10 : off10 % 2 ^ 32 = off10 := Nat.mod_eq_of_lt h10
  have ho16 : off16 % 2 ^ 64 = off16 := Nat.mod_eq_of_lt h16
  refine ⟨?_, ?_, ?_, ?_, ?_⟩
  · simp only [ll_read_buffer_10, SG_READ_BUFFER_10_CMD, sg_put_unaligned_be24]
    rw [cand32_7, cand32_31, hln, ho10]
    by_cases h0 : rb_mode_sp = 0
    · subst h0
      simp only [ne_eq, not_true_eq_false, if_false, put, List.set_cons_zero,
        List.set_cons_succ, Nat.mod_mod, and_255, Nat.shiftRight_eq_div_pow, hid, hb0,
        Nat.reduceAdd, Int.toNat_zero, Nat.zero_shiftLeft, Nat.or_zero]
    · simp only [h0, ne_eq, not_false_eq_true, if_true, put, putOr, List.set_cons_zero,
        List.set_cons_succ, List.getD_cons_succ, List.getD_cons_zero, Nat.mod_mod, and_255,
        Nat.shiftRight_eq_div_pow, hid, hb1, Nat.reduceAdd]
  · simp only [ll_read_buffer_16, SG_READ_BUFFER_16_CMD, sg_put_unaligned_be24,
      sg_put_unaligned_be64]
    rw [cand32_7, cand32_31, hln, ho16]
    by_cases h0 : rb_mode_sp = 0
    · subst h0
      simp only [ne_eq, not_true_eq_false, if_false, put, List.set_cons_zero,
        List.set_cons_succ, Nat.mod_mod, and_255, Nat.shiftRight_eq_div_pow, hid, hb0,
        Nat.reduceAdd, Int.toNat_zero, Nat.zero_shiftLeft, Nat.or_zero]
    · simp only [h0, ne_eq, not_false_eq_true, if_true, put, putOr, List.set_cons_zero,
        List.set_cons_succ, List.getD_cons_succ, List.getD_cons_zero, Nat.mod_mod, and_255,
        Nat.shiftRight_eq_div_pow, hid, hb1, Nat.reduceAdd]
  · simp only [beValue, List.foldl_cons, List.foldl_nil]
    omega
  · simp only [beValue, List.foldl_cons, List.foldl_nil]
    omega
  · simp only [beValue, List.foldl_cons, List.foldl_nil]
    omega

/-- Witness of C8: mode 0x1f, mode specific 7, id 255, length 0x010203. -/
theorem read_buffer_layout_witness :
    ll_read_buffer_10 0x1f 7 255 0x1223344 0x10203 =
      [0x3c, 0xff, 0xff, 0x22, 0x33, 0x44, 1, 2, 3, 0] ∧
    ll_read_buffer_16 0x1f 7 255 0x1122334455667788 0x10203 =
      [0x9b, 0xff, 0x11, 0x22, 0x33, 0x44, 0x55, 0x66, 0x77, 0x88, 0, 1, 2, 3, 0xff, 0] :=
  ⟨(read_buffer_layout 0x1f 7 255 0x10203 0x1223344 0x1122334455667788
      ⟨by decide, by decide⟩ ⟨by decide, by decide⟩ ⟨by decide, by decide⟩
      ⟨by decide, by decide⟩ (by decide) (by decide)).1,
   (read_buffer_layout 0x1f 7 255 0x10203 0x1223344 0x1122334455667788
      ⟨by decide, by decide⟩ ⟨by decide, by decide⟩ ⟨by decide, by decide⟩
      ⟨by decide, by decide⟩ (by decide) (by decide)).2.1⟩

end sg_read_buffer

/-! ## REPORT ZONES and RESET WRITE POINTER -/

namespace sg_rep_zones

/-- C9. For every 64 bit LBA, every `mx_resp_len` (whose 32 bit pattern is the
allocation length) and every reporting option, `sg_ll_report_zones` sends the
sixteen bytes 0x95, 0x00, the LBA in eight bytes, the allocation length in
four bytes, `report_opts & 0x0F` and a zero byte; for every 64 bit zone id,
`sg_ll_reset_write_pointer` sends 0x94, 0x04, the zone id in eight bytes,
four zero bytes, 0x01 if `all` is non-zero and 0x00 otherwise, and a zero
byte. In both, bytes 2..9 read back as the LBA or the zone id. -/
theorem zoning_layout (zs_lba zid : Nat) (report_opts mx_resp_len all : Int)
    (hl : zs_lba < 2 ^ 64) (hz : zid < 2 ^ 64) :
    sg_ll_report_zones zs_lba report_opts mx_resp_len =
      [0x95, 0x00,
       zs_lba / 2 ^ 56 % 256, zs_lba / 2 ^ 48 % 256, zs_lba / 2 ^ 40 % 256,
       zs_lba / 2 ^ 32 % 256, zs_lba / 2 ^ 24 % 256, zs_lba / 2 ^ 16 % 256,
       zs_lba / 2 ^ 8 % 256, zs_lba % 256,
       bits32 mx_resp_len / 2 ^ 24 % 256, bits32 mx_resp_len / 2 ^ 16 % 256,
       bits32 mx_resp_len / 2 ^ 8 % 256, bits32 mx_resp_len % 256,
       cand32 report_opts 0x0f, 0] ∧
    sg_reset_wp.sg_ll_reset_write_pointer zid all =
      [0x94, 0x04,
       zid / 2 ^ 56 % 256, zid / 2 ^ 48 % 256, zid / 2 ^ 40 % 256, zid / 2 ^ 32 % 256,
       zid / 2 ^ 24 % 256, zid / 2 ^ 16 % 256, zid / 2 ^ 8 % 256, zid % 256,
       0, 0, 0, 0, if all ≠ 0 then 0x01 else 0x00, 0] ∧
    beValue [zs_lba / 2 ^ 56 % 256, zs_lba / 2 ^ 48 % 256, zs_lba / 2 ^ 40 % 256,
       zs_lba / 2 ^ 32 % 256, zs_lba / 2 ^ 24 % 256, zs_lba / 2 ^ 16 % 256,
       zs_lba / 2 ^ 8 % 256, zs_lba % 256] = zs_lba ∧
    beValue [bits32 mx_resp_len / 2 ^ 24 % 256, bits32 mx_resp_len / 2 ^ 16 % 256,
       bits32 mx_resp_len / 2 ^ 8 % 256, bits32 mx_resp_len % 256] = bits32 mx_resp_len ∧
    beValue [zid / 2 ^ 56 % 256, zid / 2 ^ 48 % 256, zid / 2 ^ 40 % 256, zid / 2 ^ 32 % 256,
       zid / 2 ^ 24 % 256, zid / 2 ^ 16 % 256, zid / 2 ^ 8 % 256, zid % 256] = zid := by
  have hbl : bits32 mx_resp_len < 2 ^ 32 := by
    unfold bits32
    omega
  have hro : cand32 report_opts 0x0f % 256 = cand32 report_opts 0x0f := by
    rw [cand32_15]
    omega
  have ho : zs_lba % 2 ^ 64 = zs_lba := Nat.mod_eq_of_lt hl
  have hzo : zid % 2 ^ 64 = zid := Nat.mod_eq_of_lt hz
  refine ⟨?_, ?_, ?_, ?_, ?_⟩
  · simp only [sg_ll_report_zones, SG_ZONING_IN, REPORT_ZONES_SA, sg_put_unaligned_be64,
      sg_put_unaligned_be32, ho, put, List.set_cons_zero, List.set_cons_succ, Nat.mod_mod,
      and_255, Nat.shiftRight_eq_div_pow, Nat.reduceAdd, hro]
  · simp only [sg_reset_wp.sg_ll_reset_write_pointer, sg_reset_wp.SG_ZONING_OUT,
      sg_reset_wp.RESET_WRITE_POINTER_SA, sg_put_unaligned_be64, hzo]
    by_cases ha : all = 0 <;>
      simp only [ha, ne_eq, not_true_eq_false, not_false_eq_true, if_true, if_false, put,
        List.set_cons_zero, List.set_cons_succ, Nat.mod_mod, and_255,
        Nat.shiftRight_eq_div_pow, Nat.reduceAdd, Nat.reduceMod]
  · simp only [beValue, List.foldl_cons, List.foldl_nil]
    omega
  · simp only [beValue, List.foldl_cons, List.foldl_nil]
    omega
  · simp only [beValue, List.foldl_cons, List.foldl_nil]
    omega

/-- Witness of C9: an LBA above 2^63, reporting option 0x3f, 8192 bytes. -/
theorem zoning_layout_witness :
    sg_ll_report_zones 0xfedcba9876543210 0x3f 8192 =
      [0x95, 0, 0xfe, 0xdc, 0xba, 0x98, 0x76, 0x54, 0x32, 0x10, 0, 0, 0x20, 0, 0x0f, 0] ∧
    sg_reset_wp.sg_ll_reset_write_pointer 0x1122334455667788 3 =
      [0x94, 4, 0x11, 0x22, 0x33, 0x44, 0x55, 0x66, 0x77, 0x88, 0, 0, 0, 0, 1, 0] :=
  ⟨(zoning_layout 0xfedcba9876543210 0x1122334455667788 0x3f 8192 3
      (by decide) (by decide)).1,
   (zoning_layout 0xfedcba9876543210 0x1122334455667788 0x3f 8192 3
      (by decide) (by decide)).2.1⟩

end sg_rep_zones

/-! ## REPORT LUNS -/

namespace sg_luns

/-- A value in the range of `int` is its own 32 bit reading. -/
theorem toInt32_of_range (x : Int) (h0 : -2 ^ 31 ≤ x) (h1 : x < 2 ^ 31) : toInt32 x = x := by
  unfold toInt32
  split <;> omega

/-- The loop prints as many entries as it has iterations. -/
theorem lun_loop_length (buf : List Nat) (n off : Nat) :
    (lun_loop buf n off).length = n := by
  induction n generalizing off with
  | zero => rfl
  | succ n ih => simp only [lun_loop, List.length_cons, ih]

/-- The k-th entry of the loop is the eight bytes from offset `off + 8k` on. -/
theorem lun_loop_getElem? (buf : List Nat) (n off k : Nat) (hk : k < n) :
    (lun_loop buf n off)[k]? =
      some ((List.range 8).map (fun m => buf.getD (off + 8 * k + m) 0)) := by
  induction n generalizing off k with
  | zero => omega
  | succ n ih =>
    cases k with
    | zero => simp only [lun_loop, List.getElem?_cons_zero, Nat.mul_zero, Nat.add_zero]
    | succ k =>
      simp only [lun_loop, List.getElem?_cons_succ]
      rw [ih (off + 8) k (by omega)]
      have e : off + 8 + 8 * k = off + 8 * (k + 1) := by omega
      rw [e]

/-- C10, at the failing input. With `--maxlen=16` and a response whose list
length field is 0x80000000, `list_len` is -2147483648: the decoder prints no
entry and leaves `trunc` at 0, although the declared length exceeds the
16 bytes of the buffer and min(L, maxlen - 8) / 8 is 1. -/
theorem report_luns_huge_list_len :
    main [0x80, 0, 0, 0, 0, 0, 0, 0, 0, 1, 0, 0, 0, 0, 0, 0] 16 =
      ⟨-2147483648, -268435456, 0, []⟩ ∧
    beValue [0x80, 0, 0, 0] > 16 ∧
    min (beValue [0x80, 0, 0, 0]) (16 - 8) / 8 = 1 := by
  decide

/-- With a first byte below 0x80 the sum of shifts does not wrap: `list_len`
is the big-endian value of the four bytes. -/
theorem list_len_in_range (b0 b1 b2 b3 : Nat)
    (h0 : b0 < 128) (h1 : b1 < 256) (h2 : b2 < 256) (h3 : b3 < 256) :
    toInt32 (toInt32 (toInt32 (toInt32 ((b0 : Int) * 2 ^ 24) +
      toInt32 ((b1 : Int) * 2 ^ 16)) + toInt32 ((b2 : Int) * 2 ^ 8)) + (b3 : Int)) =
      ((beValue [b0, b1, b2, b3] : Nat) : Int) := by
  simp only [beValue, List.foldl_cons, List.foldl_nil]
  rw [toInt32_of_range ((b0 : Int) * 2 ^ 24) (by omega) (by omega),
    toInt32_of_range ((b1 : Int) * 2 ^ 16) (by omega) (by omega),
    toInt32_of_range ((b2 : Int) * 2 ^ 8) (by omega) (by omega),
    toInt32_of_range ((b0 : Int) * 2 ^ 24 + (b1 : Int) * 2 ^ 16) (by omega) (by omega),
    toInt32_of_range ((b0 : Int) * 2 ^ 24 + (b1 : Int) * 2 ^ 16 + (b2 : Int) * 2 ^ 8)
      (by omega) (by omega),
    toInt32_of_range _ (by omega) (by omega)]
  omega

/-- The number of entries and the truncation flag, for a list length in range. -/
theorem luns_choice (L : Nat) (maxlen : Int) (hL : L + 8 < 2 ^ 31) (hm : 8 ≤ maxlen)
    (hm1 : maxlen < 2 ^ 31) :
    ((if toInt32 ((L : Int) + 8) > maxlen then Int.tdiv (toInt32 (maxlen - 8)) 8
      else Int.tdiv (L : Int) 8).toNat = min L (maxlen.toNat - 8) / 8) ∧
    ((if toInt32 ((L : Int) + 8) > maxlen then (1 : Int) else 0) = 1 ↔
      (L : Int) + 8 > maxlen) := by
  rw [toInt32_of_range ((L : Int) + 8) (by omega) (by omega),
    toInt32_of_range (maxlen - 8) (by omega) (by omega)]
  by_cases hc : (L : Int) + 8 > maxlen
  · rw [if_pos hc, if_pos hc, Int.tdiv_eq_ediv (by omega) (by omega)]
    refine ⟨?_, by simp [hc]⟩
    have e : min L (maxlen.toNat - 8) = maxlen.toNat - 8 := by omega
    rw [e]
    show ((maxlen - 8) / 8).toNat = (maxlen.toNat - 8) / 8
    omega
  · rw [if_neg hc, if_neg hc, Int.tdiv_eq_ediv (by omega) (by omega)]
    refine ⟨?_, by simp [hc]⟩
    have e : min L (maxlen.toNat - 8) = L := by omega
    rw [e]
    show ((L : Int) / 8).toNat = L / 8
    omega

/-- For a list length L with L + 8 below 2^31 and a buffer of 8 bytes or more,
the decoder of `main` prints min(L, maxlen - 8) / 8 entries, the k-th being
the eight bytes from offset 8 + 8k on, and sets `trunc` exactly when L + 8
exceeds `maxlen`. -/
theorem main_in_range (buf : List Nat) (maxlen : Int)
    (h0 : buf.getD 0 0 < 128) (h1 : buf.getD 1 0 < 256) (h2 : buf.getD 2 0 < 256)
    (h3 : buf.getD 3 0 < 256)
    (hL : beValue [buf.getD 0 0, buf.getD 1 0, buf.getD 2 0, buf.getD 3 0] + 8 < 2 ^ 31)
    (hm : 8 ≤ maxlen) (hm1 : maxlen < 2 ^ 31) :
    (main buf maxlen).entries.length =
      min (beValue [buf.getD 0 0, buf.getD 1 0, buf.getD 2 0, buf.getD 3 0])
        (maxlen.toNat - 8) / 8 ∧
    (∀ k, k < min (beValue [buf.getD 0 0, buf.getD 1 0, buf.getD 2 0, buf.getD 3 0])
        (maxlen.toNat - 8) / 8 →
      (main buf maxlen).entries[k]? =
        some ((List.range 8).map (fun m => buf.getD (8 + 8 * k + m) 0))) ∧
    ((main buf maxlen).trunc = 1 ↔
      ((beValue [buf.getD 0 0, buf.getD 1 0, buf.getD 2 0, buf.getD 3 0] : Nat) : Int) + 8
        > maxlen) := by
  have hne : ¬ (0 = maxlen) := by omega
  have hll := list_len_in_range _ _ _ _ h0 h1 h2 h3
  generalize beValue [buf.getD 0 0, buf.getD 1 0, buf.getD 2 0, buf.getD 3 0] = L at hL hll ⊢
  obtain ⟨c1, c2⟩ := luns_choice L maxlen hL hm hm1
  unfold main
  simp only [if_neg hne, hll, lun_loop_length]
  refine ⟨c1, ?_, c2⟩
  intro k hk
  rw [← c1] at hk
  exact lun_loop_getElem? buf _ 8 k hk

end sg_luns

/-! ## REPORT ZONES decoder -/

namespace sg_rep_zones

/-- The descriptor loop makes as many passes as it is asked for. -/
theorem zone_loop_length (buf : List Nat) (len do_hex verbose : Int) (n k ucp : Nat) :
    (zone_loop buf len do_hex verbose n k ucp).length = n := by
  induction n generalizing k ucp with
  | zero => rfl
  | succ n ih => simp only [zone_loop, List.length_cons, ih]

/-- The i-th pass of the descriptor loop is for the descriptor at offset
`ucp + 64 i`. -/
theorem zone_loop_getElem? (buf : List Nat) (len do_hex verbose : Int) (n k ucp i : Nat)
    (hi : i < n) :
    (zone_loop buf len do_hex verbose n k ucp)[i]? =
      some (zone_body buf len do_hex verbose (k + i) (ucp + 64 * i)) := by
  induction n generalizing k ucp i with
  | zero => omega
  | succ n ih =>
    cases i with
    | zero => simp only [zone_loop, List.getElem?_cons_zero, Nat.mul_zero, Nat.add_zero]
    | succ i =>
      simp only [zone_loop, List.getElem?_cons_succ]
      rw [ih (k + 1) (ucp + 64) i (by omega)]
      have e1 : k + 1 + i = k + (i + 1) := by omega
      have e2 : ucp + 64 + 64 * i = ucp + 64 * (i + 1) := by omega
      rw [e1, e2]

/-- C11, at the failing input. For a response of 128 bytes whose zone list
length field is Z = 0x80000000, `zl_len` is -2147483584 and so is `len`: the
decoder reports a zone length that is too short, makes no pass of the
descriptor loop and prints no truncation warning, although
(min(Z + 64, rlen) - 64) / 64 is 1 and Z / 64 is more than that. -/
theorem report_zones_huge_list_len (K : sg_lib_h) :
    main K ([0x80, 0, 0, 0] ++ List.replicate 124 0) 128 0 0 0 0 =
      ⟨K.SG_LIB_CAT_MALFORMED, [.printf "Report zones response:\n" []],
       [.printf "Zone length [%d] too short (perhaps after truncation\n)"
          [.d (-2147483584)]], []⟩ ∧
    (min (0x80000000 + 64) 128 - 64) / 64 = 1 ∧ 0x80000000 / 64 > 1 := by
  refine ⟨rfl, by decide, by decide⟩

/-- For a zone list length Z with Z + 64 below 2^31 and 64 received bytes or
more, without `--raw` and with `--hex` absent or given twice, the decoder
makes (min(Z + 64, rlen) - 64) / 64 passes, for the descriptors at offsets
64 + 64 k, and prints the truncation warning when Z / 64 is more than the
number of passes. -/
theorem zones_main_in_range (K : sg_lib_h) (buf : List Nat) (maxlen resid do_hex verbose : Int)
    (Z : Nat) (hZd : sg_get_unaligned_be32 buf 0 = Z)
    (hZ : Z + 64 < 2 ^ 31)
    (hr : 64 ≤ maxlen - resid) (hr1 : maxlen - resid < 2 ^ 31)
    (hh : do_hex = 0 ∨ do_hex = 2) :
    (main K buf maxlen resid 0 do_hex verbose).ret = 0 ∧
    (main K buf maxlen resid 0 do_hex verbose).passes =
      zone_loop buf (min ((Z : Int) + 64) (maxlen - resid)) do_hex verbose
        ((min (Z + 64) (maxlen - resid).toNat - 64) / 64) 0 64 ∧
    (Z / 64 > (min (Z + 64) (maxlen - resid).toNat - 64) / 64 →
      .printf "\n>>> Beware: Zone list truncated, may need another call\n" [] ∈
        (main K buf maxlen resid 0 do_hex verbose).out) := by
  have h1 : toInt32 (maxlen - resid) = maxlen - resid := sg_luns.toInt32_of_range _ (by omega) hr1
  have h2 : toInt32 ((Z : Int) + 64) = (Z : Int) + 64 :=
    sg_luns.toInt32_of_range _ (by omega) (by omega)
  have h3 : ¬ (maxlen - resid < 4) := by omega
  have h4 : ¬ (do_hex ≠ 0 ∧ 2 ≠ do_hex) := by omega
  have hlen : (if (Z : Int) + 64 > maxlen - resid then maxlen - resid else (Z : Int) + 64) =
      min ((Z : Int) + 64) (maxlen - resid) := by
    split <;> omega
  have h5 : ¬ (min ((Z : Int) + 64) (maxlen - resid) < 64) := by omega
  have h6 : toInt32 (min ((Z : Int) + 64) (maxlen - resid) - 64) =
      min ((Z : Int) + 64) (maxlen - resid) - 64 := sg_luns.toInt32_of_range _ (by omega) (by omega)
  have h7 : (Int.tdiv (min ((Z : Int) + 64) (maxlen - resid) - 64) 64).toNat =
      (min (Z + 64) (maxlen - resid).toNat - 64) / 64 := by
    rw [Int.tdiv_eq_ediv (by omega) (by omega)]
    omega
  unfold main
  simp only [hZd, h1, h2, if_neg h3, hlen, ne_eq, not_true_eq_false, if_false, if_neg h4,
    if_neg h5, h6, h7]
  refine ⟨trivial, trivial, ?_⟩
  intro ht
  have hq : Int.tdiv (min ((Z : Int) + 64) (maxlen - resid) - 64) 64 =
      (((min (Z + 64) (maxlen - resid).toNat - 64) / 64 : Nat) : Int) := by
    rw [Int.tdiv_eq_ediv (by omega) (by omega)]
    omega
  rw [hq, sg_luns.toInt32_of_range (64 * _) (by omega) (by omega),
    sg_luns.toInt32_of_range (64 + _) (by omega) (by omega), if_pos (by omega)]
  simp only [List.mem_append, List.mem_singleton, or_true]

/-- The mask 0x2 tests bit 1. -/
theorem and_2 (x : Nat) : x &&& 2 = 2 * (x / 2 % 2) := by
  have h32 : (3 &&& 2 : Nat) = 2 := by decide
  have h : x &&& 2 = (x % 4) &&& 2 := by
    rw [← and_3, Nat.land_assoc, h32]
  have e : x / 2 % 2 = x % 4 / 2 := by omega
  have hr : x % 4 < 4 := Nat.mod_lt _ (by decide)
  rw [h, e]
  generalize x % 4 = r at hr
  interval_cases r <;> rfl

/-- One pass of the descriptor loop without `--hex`, line by line, for the
descriptor at offset `ucp`. -/
theorem zone_body_fields (buf : List Nat) (len verbose : Int) (k ucp : Nat) :
    zone_body buf len 0 verbose k ucp =
      ⟨k, ucp,
       [.printf " Zone descriptor: %d\n" [.d k],
        .printf "   Zone type: %s\n"
          [.s (zone_type_str (buf.getD ucp 0 % 16) verbose)],
        .printf "   Zone condition: %s\n"
          [.s (zone_condition_str (buf.getD (ucp + 1) 0 / 16 % 16) verbose)],
        .printf "   Non_seq: %d\n" [.d ((buf.getD (ucp + 1) 0 / 2 % 2 : Nat) : Int)],
        .printf "   Reset: %d\n" [.d ((buf.getD (ucp + 1) 0 % 2 : Nat) : Int)],
        .printf "   Zone Length: 0x%lx\n"
          [.u (beValue [buf.getD (ucp + 8) 0, buf.getD (ucp + 9) 0, buf.getD (ucp + 10) 0,
            buf.getD (ucp + 11) 0, buf.getD (ucp + 12) 0, buf.getD (ucp + 13) 0,
            buf.getD (ucp + 14) 0, buf.getD (ucp + 15) 0])],
        .printf "   Zone start LBA: 0x%lx\n"
          [.u (beValue [buf.getD (ucp + 16) 0, buf.getD (ucp + 17) 0, buf.getD (ucp + 18) 0,
            buf.getD (ucp + 19) 0, buf.getD (ucp + 20) 0, buf.getD (ucp + 21) 0,
            buf.getD (ucp + 22) 0, buf.getD (ucp + 23) 0])],
        .printf "   Write pointer LBA: 0x%lx\n"
          [.u (beValue [buf.getD (ucp + 24) 0, buf.getD (ucp + 25) 0, buf.getD (ucp + 26) 0,
            buf.getD (ucp + 27) 0, buf.getD (ucp + 28) 0, buf.getD (ucp + 29) 0,
            buf.getD (ucp + 30) 0, buf.getD (ucp + 31) 0])]]⟩ := by
  have hn : (if ¬ (buf.getD (ucp + 1) 0 &&& 2 = 0) then (1 : Int) else 0) =
      ((buf.getD (ucp + 1) 0 / 2 % 2 : Nat) : Int) := by
    rw [and_2]
    have hr : buf.getD (ucp + 1) 0 / 2 % 2 < 2 := Nat.mod_lt _ (by decide)
    generalize buf.getD (ucp + 1) 0 / 2 % 2 = r at hr
    interval_cases r <;> rfl
  simp only [zone_body, ne_eq, not_true_eq_false, if_false, sg_get_unaligned_be64,
    and_15, Nat.and_one_is_mod, Nat.shiftRight_eq_div_pow, Nat.add_zero, PRIx64, hn]
  rfl

/-- Every pass of the descriptor loop is the loop body at a counter `k + i`
and the offset `ucp + 64 i`. -/
theorem zone_loop_mem (buf : List Nat) (len do_hex verbose : Int) (n k ucp : Nat)
    (p : zone_pass) (hp : p ∈ zone_loop buf len do_hex verbose n k ucp) :
    ∃ i, i < n ∧ p = zone_body buf len do_hex verbose (k + i) (ucp + 64 * i) := by
  induction n generalizing k ucp with
  | zero => cases hp
  | succ n ih =>
    simp only [zone_loop, List.mem_cons] at hp
    rcases hp with hp | hp
    · exact ⟨0, by omega, by rw [hp]; rfl⟩
    · obtain ⟨i, hi, e⟩ := ih (k + 1) (ucp + 64) hp
      refine ⟨i + 1, by omega, ?_⟩
      have e1 : k + 1 + i = k + (i + 1) := by omega
      have e2 : ucp + 64 + 64 * i = ucp + 64 * (i + 1) := by omega
      rw [e, e1, e2]

/-- The counters of the passes of the descriptor loop are `k`, `k + 1`, ... -/
theorem zone_loop_counters (buf : List Nat) (len verbose : Int) (n k ucp : Nat) :
    (zone_loop buf len 0 verbose n k ucp).map (fun p => p.k) =
      (List.range n).map (fun i => k + i) := by
  induction n generalizing k ucp with
  | zero => rfl
  | succ n ih =>
    rw [zone_loop, List.map_cons, ih, zone_body_fields, List.range_succ_eq_map, List.map_cons,
      List.map_map]
    refine congrArg₂ _ rfl (List.map_congr_left ?_)
    intro i _
    show k + 1 + i = k + (i + 1)
    omega

/-- Without `--raw` and `--hex`, the decoder either stops before the Same
line and makes no pass, or prints the header line, the Same line, the lines
of the passes of the descriptor loop from offset 64 on and at most the
truncation warning. -/
theorem main_report_shape (K : sg_lib_h) (buf : List Nat) (maxlen resid verbose : Int) :
    ((main K buf maxlen resid 0 0 verbose).passes = [] ∧
      ((main K buf maxlen resid 0 0 verbose).out = [] ∨
       (main K buf maxlen resid 0 0 verbose).out = [.printf "Report zones response:\n" []])) ∨
    ∃ len n tail,
      (main K buf maxlen resid 0 0 verbose).passes = zone_loop buf len 0 verbose n 0 64 ∧
      (main K buf maxlen resid 0 0 verbose).out =
        [.printf "Report zones response:\n" [],
         .printf "  Same=%d: %s\n\n"
           [.d ((buf.getD 4 0 % 4 : Nat) : Int), .s (same_desc_arr.getD (buf.getD 4 0 % 4) "")]]
        ++ ((main K buf maxlen resid 0 0 verbose).passes.map (fun p => p.out)).flatten
        ++ tail := by
  unfold main
  dsimp only
  by_cases h1 : toInt32 (maxlen - resid) < 4
  · rw [if_pos h1]
    exact Or.inl ⟨rfl, Or.inl rfl⟩
  · rw [if_neg h1, if_neg (by simp), if_neg (by simp)]
    by_cases h2 : (if toInt32 ((sg_get_unaligned_be32 buf 0 : Nat) + 64) >
        toInt32 (maxlen - resid) then toInt32 (maxlen - resid)
        else toInt32 ((sg_get_unaligned_be32 buf 0 : Nat) + 64)) < 64
    · rw [if_pos h2]
      exact Or.inl ⟨rfl, Or.inr rfl⟩
    · rw [if_neg h2]
      dsimp only
      rw [and_3]
      exact Or.inr ⟨_, _, _, rfl, rfl⟩

/-- The texts of `zone_type_str` for the sixteen values of a zone type,
without and with `--verbose`. -/
theorem zone_type_str_values :
    (List.range 16).map (fun zt => zone_type_str zt 0) =
      ["Reserved [0x0]", "Conventional", "Sequential write required",
       "Sequential write preferred", "Reserved [0x4]", "Reserved [0x5]", "Reserved [0x6]",
       "Reserved [0x7]", "Reserved [0x8]", "Reserved [0x9]", "Reserved [0xa]",
       "Reserved [0xb]", "Reserved [0xc]", "Reserved [0xd]", "Reserved [0xe]",
       "Reserved [0xf]"] ∧
    ∀ vb : Int, vb ≠ 0 → (List.range 16).map (fun zt => zone_type_str zt vb) =
      ["Reserved [0x0]", "Conventional [0x1]", "Sequential write required [0x2]",
       "Sequential write preferred [0x3]", "Reserved [0x4]", "Reserved [0x5]",
       "Reserved [0x6]", "Reserved [0x7]", "Reserved [0x8]", "Reserved [0x9]",
       "Reserved [0xa]", "Reserved [0xb]", "Reserved [0xc]", "Reserved [0xd]",
       "Reserved [0xe]", "Reserved [0xf]"] := by
  refine ⟨by decide, ?_⟩
  intro vb hvb
  have h : ∀ zt, zone_type_str zt vb = zone_type_str zt 1 := by
    intro zt
    unfold zone_type_str
    dsimp only
    split <;> simp [hvb]
  simp only [h]
  decide

/-- The texts of `zone_condition_str` for the sixteen values of a zone
condition, without and with `--verbose`. -/
theorem zone_condition_str_values :
    (List.range 16).map (fun zc => zone_condition_str zc 0) =
      ["No write pointer", "Empty", "Open", "Reserved [0x3]", "Reserved [0x4]",
       "Reserved [0x5]", "Reserved [0x6]", "Reserved [0x7]", "Reserved [0x8]",
       "Reserved [0x9]", "Reserved [0xa]", "Reserved [0xb]", "Reserved [0xc]", "Read only",
       "Full", "Offline"] ∧
    ∀ vb : Int, vb ≠ 0 → (List.range 16).map (fun zc => zone_condition_str zc vb) =
      ["No write pointer [0x0]", "Empty [0x1]", "Open [0x2]", "Reserved [0x3]",
       "Reserved [0x4]", "Reserved [0x5]", "Reserved [0x6]", "Reserved [0x7]",
       "Reserved [0x8]", "Reserved [0x9]", "Reserved [0xa]", "Reserved [0xb]",
       "Reserved [0xc]", "Read only [0xd]", "Full [0xe]", "Offline [0xf]"] := by
  refine ⟨by decide, ?_⟩
  intro vb hvb
  have h : ∀ zc, zone_condition_str zc vb = zone_condition_str zc 1 := by
    intro zc
    unfold zone_condition_str
    dsimp only
    split <;> simp [hvb]
  simp only [h]
  decide

/-- For a zone list length Z with Z + 64 below 2^31 and 64 received bytes or
more, without `--raw` and `--hex`, the output is the header line, the Same
line, the lines of the passes and at most the truncation warning. -/
theorem zones_main_out_in_range (K : sg_lib_h) (buf : List Nat) (maxlen resid verbose : Int)
    (Z : Nat) (hZd : sg_get_unaligned_be32 buf 0 = Z)
    (hZ : Z + 64 < 2 ^ 31)
    (hr : 64 ≤ maxlen - resid) (hr1 : maxlen - resid < 2 ^ 31) :
    ∃ tail, (main K buf maxlen resid 0 0 verbose).out =
        [.printf "Report zones response:\n" [],
         .printf "  Same=%d: %s\n\n"
           [.d ((buf.getD 4 0 % 4 : Nat) : Int), .s (same_desc_arr.getD (buf.getD 4 0 % 4) "")]]
        ++ ((main K buf maxlen resid 0 0 verbose).passes.map (fun p => p.out)).flatten
        ++ tail := by
  have h1 : toInt32 (maxlen - resid) = maxlen - resid := sg_luns.toInt32_of_range _ (by omega) hr1
  have h2 : toInt32 ((Z : Int) + 64) = (Z : Int) + 64 :=
    sg_luns.toInt32_of_range _ (by omega) (by omega)
  have h3 : ¬ (maxlen - resid < 4) := by omega
  have hlen : (if (Z : Int) + 64 > maxlen - resid then maxlen - resid else (Z : Int) + 64) =
      min ((Z : Int) + 64) (maxlen - resid) := by
    split <;> omega
  have h5 : ¬ (min ((Z : Int) + 64) (maxlen - resid) < 64) := by omega
  unfold main
  simp only [hZd, h1, h2, if_neg h3, hlen, ne_eq, not_true_eq_false, if_false, false_and,
    if_neg h5, and_3]
  exact ⟨_, rfl⟩

/-- C12. In the REPORT ZONES decoder of `main`, without `--raw` and `--hex`,
for every response: (1) every pass `p` of the descriptor loop is for the 64
byte descriptor d at offset 64 + 64 k of the response, k the counter of the
pass, and it prints the counter, the text of `zone_type_str` for
`d[0] & 0x0F`, the text of `zone_condition_str` for `(d[1] >> 4) & 0x0F`,
Non_seq as bit 1 of d[1], Reset as bit 0 of d[1], and as zone length, zone
start LBA and write pointer LBA the big-endian values of bytes 8..15, 16..23
and 24..31 of d; (2) the output is empty (response shorter than 4 bytes), or
the header line alone (length below 64), or the header line, the Same line
with byte 4 of the header modulo 4 and the entry of `same_desc_arr` at that
index, then the lines of the passes in order and what follows them; (3) the
mask `& 3` is the value modulo 4, and it is an index into the four entries of
`same_desc_arr`; (4) for a zone list length Z with Z + 64 below 2^31 and 64
received bytes or more, the passes have the counters 0, 1, ... up to
(min(Z + 64, rlen) - 64) / 64 and the output has the third form; (5) and (6)
the texts of `zone_type_str` and `zone_condition_str` for the sixteen values,
without and with `--verbose`, name the value. -/
theorem zone_descriptor_fields (K : sg_lib_h) (buf : List Nat) (maxlen resid verbose : Int) :
    (∀ p ∈ (main K buf maxlen resid 0 0 verbose).passes,
      p.ucp = 64 + 64 * p.k ∧
      p.out =
        [.printf " Zone descriptor: %d\n" [.d p.k],
         .printf "   Zone type: %s\n"
           [.s (zone_type_str (buf.getD p.ucp 0 % 16) verbose)],
         .printf "   Zone condition: %s\n"
           [.s (zone_condition_str (buf.getD (p.ucp + 1) 0 / 16 % 16) verbose)],
         .printf "   Non_seq: %d\n" [.d ((buf.getD (p.ucp + 1) 0 / 2 % 2 : Nat) : Int)],
         .printf "   Reset: %d\n" [.d ((buf.getD (p.ucp + 1) 0 % 2 : Nat) : Int)],
         .printf "   Zone Length: 0x%lx\n"
           [.u (beValue [buf.getD (p.ucp + 8) 0, buf.getD (p.ucp + 9) 0,
             buf.getD (p.ucp + 10) 0, buf.getD (p.ucp + 11) 0, buf.getD (p.ucp + 12) 0,
             buf.getD (p.ucp + 13) 0, buf.getD (p.ucp + 14) 0, buf.getD (p.ucp + 15) 0])],
         .printf "   Zone start LBA: 0x%lx\n"
           [.u (beValue [buf.getD (p.ucp + 16) 0, buf.getD (p.ucp + 17) 0,
             buf.getD (p.ucp + 18) 0, buf.getD (p.ucp + 19) 0, buf.getD (p.ucp + 20) 0,
             buf.getD (p.ucp + 21) 0, buf.getD (p.ucp + 22) 0, buf.getD (p.ucp + 23) 0])],
         .printf "   Write pointer LBA: 0x%lx\n"
           [.u (beValue [buf.getD (p.ucp + 24) 0, buf.getD (p.ucp + 25) 0,
             buf.getD (p.ucp + 26) 0, buf.getD (p.ucp + 27) 0, buf.getD (p.ucp + 28) 0,
             buf.getD (p.ucp + 29) 0, buf.getD (p.ucp + 30) 0, buf.getD (p.ucp + 31) 0])]]) ∧
    ((main K buf maxlen resid 0 0 verbose).out = [] ∨
     (main K buf maxlen resid 0 0 verbose).out = [.printf "Report zones response:\n" []] ∨
     ∃ tail, (main K buf maxlen resid 0 0 verbose).out =
        [.printf "Report zones response:\n" [],
         .printf "  Same=%d: %s\n\n"
           [.d ((buf.getD 4 0 % 4 : Nat) : Int), .s (same_desc_arr.getD (buf.getD 4 0 % 4) "")]]
        ++ ((main K buf maxlen resid 0 0 verbose).passes.map (fun p => p.out)).flatten
        ++ tail) ∧
    (buf.getD 4 0 &&& 3 = buf.getD 4 0 % 4 ∧ same_desc_arr.length = 4 ∧
      same_desc_arr[buf.getD 4 0 % 4]? = some (same_desc_arr.getD (buf.getD 4 0 % 4) "")) ∧
    (∀ Z : Nat, sg_get_unaligned_be32 buf 0 = Z → Z + 64 < 2 ^ 31 →
      64 ≤ maxlen - resid → maxlen - resid < 2 ^ 31 →
      (main K buf maxlen resid 0 0 verbose).passes.map (fun p => p.k) =
        List.range ((min (Z + 64) (maxlen - resid).toNat - 64) / 64) ∧
      ∃ tail, (main K buf maxlen resid 0 0 verbose).out =
        [.printf "Report zones response:\n" [],
         .printf "  Same=%d: %s\n\n"
           [.d ((buf.getD 4 0 % 4 : Nat) : Int), .s (same_desc_arr.getD (buf.getD 4 0 % 4) "")]]
        ++ ((main K buf maxlen resid 0 0 verbose).passes.map (fun p => p.out)).flatten
        ++ tail) ∧
    ((List.range 16).map (fun zt => zone_type_str zt 0) =
      ["Reserved [0x0]", "Conventional", "Sequential write required",
       "Sequential write preferred", "Reserved [0x4]", "Reserved [0x5]", "Reserved [0x6]",
       "Reserved [0x7]", "Reserved [0x8]", "Reserved [0x9]", "Reserved [0xa]",
       "Reserved [0xb]", "Reserved [0xc]", "Reserved [0xd]", "Reserved [0xe]",
       "Reserved [0xf]"] ∧
     ∀ vb : Int, vb ≠ 0 → (List.range 16).map (fun zt => zone_type_str zt vb) =
      ["Reserved [0x0]", "Conventional [0x1]", "Sequential write required [0x2]",
       "Sequential write preferred [0x3]", "Reserved [0x4]", "Reserved [0x5]",
       "Reserved [0x6]", "Reserved [0x7]", "Reserved [0x8]", "Reserved [0x9]",
       "Reserved [0xa]", "Reserved [0xb]", "Reserved [0xc]", "Reserved [0xd]",
       "Reserved [0xe]", "Reserved [0xf]"]) ∧
    ((List.range 16).map (fun zc => zone_condition_str zc 0) =
      ["No write pointer", "Empty", "Open", "Reserved [0x3]", "Reserved [0x4]",
       "Reserved [0x5]", "Reserved [0x6]", "Reserved [0x7]", "Reserved [0x8]",
       "Reserved [0x9]", "Reserved [0xa]", "Reserved [0xb]", "Reserved [0xc]", "Read only",
       "Full", "Offline"] ∧
     ∀ vb : Int, vb ≠ 0 → (List.range 16).map (fun zc => zone_condition_str zc vb) =
      ["No write pointer [0x0]", "Empty [0x1]", "Open [0x2]", "Reserved [0x3]",
       "Reserved [0x4]", "Reserved [0x5]", "Reserved [0x6]", "Reserved [0x7]",
       "Reserved [0x8]", "Reserved [0x9]", "Reserved [0xa]", "Reserved [0xb]",
       "Reserved [0xc]", "Read only [0xd]", "Full [0xe]", "Offline [0xf]"]) := by
  refine ⟨?_, ?_, ⟨and_3 _, rfl, ?_⟩, ?_, zone_type_str_values, zone_condition_str_values⟩
  · intro p hp
    rcases main_report_shape K buf maxlen resid verbose with ⟨h, _⟩ | ⟨len, n, _, h, _⟩
    · rw [h] at hp
      cases hp
    · rw [h] at hp
      obtain ⟨i, _, e⟩ := zone_loop_mem buf len 0 verbose n 0 64 p hp
      rw [zone_body_fields, Nat.zero_add] at e
      subst e
      exact ⟨rfl, rfl⟩
  · rcases main_report_shape K buf maxlen resid verbose with ⟨_, h | h⟩ | ⟨_, _, tail, _, h⟩
    · exact Or.inl h
    · exact Or.inr (Or.inl h)
    · exact Or.inr (Or.inr ⟨tail, h⟩)
  · have hr : buf.getD 4 0 % 4 < 4 := Nat.mod_lt _ (by decide)
    generalize buf.getD 4 0 % 4 = r at hr
    interval_cases r <;> rfl
  · intro Z hZd hZ hr hr1
    refine ⟨?_, zones_main_out_in_range K buf maxlen resid verbose Z hZd hZ hr hr1⟩
    rw [(zones_main_in_range K buf maxlen resid 0 verbose Z hZd hZ hr hr1 (Or.inl rfl)).2.1,
      zone_loop_counters]
    simp only [Nat.zero_add]
    exact List.map_id _

/-- Witness of C12: a response of 128 bytes with zone list length 64 and
Same = 1; its one descriptor has zone type 2, zone condition 0xE, Non_seq 1,
Reset 1, zone length 0x10000, start LBA 0x12345678 and write pointer
0x12345700. -/
theorem zone_descriptor_fields_witness :
    sg_get_unaligned_be32 ([0, 0, 0, 64, 1] ++ List.replicate 59 0 ++ [2, 0xe3] ++ List.replicate 6 0 ++
        [0, 0, 0, 0, 0, 1, 0, 0] ++ [0, 0, 0, 0, 0x12, 0x34, 0x56, 0x78] ++
        [0, 0, 0, 0, 0x12, 0x34, 0x57, 0] ++ List.replicate 32 0) 0 = 64 ∧
    (main sg_lib.sample ([0, 0, 0, 64, 1] ++ List.replicate 59 0 ++ [2, 0xe3] ++ List.replicate 6 0 ++
        [0, 0, 0, 0, 0, 1, 0, 0] ++ [0, 0, 0, 0, 0x12, 0x34, 0x56, 0x78] ++
        [0, 0, 0, 0, 0x12, 0x34, 0x57, 0] ++ List.replicate 32 0) 128 0 0 0 0).passes.map (fun p => p.k) = [0] ∧
    main sg_lib.sample ([0, 0, 0, 64, 1] ++ List.replicate 59 0 ++ [2, 0xe3] ++ List.replicate 6 0 ++
        [0, 0, 0, 0, 0, 1, 0, 0] ++ [0, 0, 0, 0, 0x12, 0x34, 0x56, 0x78] ++
        [0, 0, 0, 0, 0x12, 0x34, 0x57, 0] ++ List.replicate 32 0) 128 0 0 0 0 =
      ⟨0,
       [.printf "Report zones response:\n" [],
        .printf "  Same=%d: %s\n\n"
          [.d 1, .s "zone type and length same in each descriptor"],
        .printf " Zone descriptor: %d\n" [.d 0],
        .printf "   Zone type: %s\n" [.s "Sequential write required"],
        .printf "   Zone condition: %s\n" [.s "Full"],
        .printf "   Non_seq: %d\n" [.d 1],
        .printf "   Reset: %d\n" [.d 1],
        .printf "   Zone Length: 0x%lx\n" [.u 0x10000],
        .printf "   Zone start LBA: 0x%lx\n" [.u 0x12345678],
        .printf "   Write pointer LBA: 0x%lx\n" [.u 0x12345700]],
       [],
       [⟨0, 64,
         [.printf " Zone descriptor: %d\n" [.d 0],
          .printf "   Zone type: %s\n" [.s "Sequential write required"],
          .printf "   Zone condition: %s\n" [.s "Full"],
          .printf "   Non_seq: %d\n" [.d 1],
          .printf "   Reset: %d\n" [.d 1],
          .printf "   Zone Length: 0x%lx\n" [.u 0x10000],
          .printf "   Zone start LBA: 0x%lx\n" [.u 0x12345678],
          .printf "   Write pointer LBA: 0x%lx\n" [.u 0x12345700]]⟩]⟩ :=
  ⟨rfl,
   ((zone_descriptor_fields sg_lib.sample ([0, 0, 0, 64, 1] ++ List.replicate 59 0 ++ [2, 0xe3] ++ List.replicate 6 0 ++
        [0, 0, 0, 0, 0, 1, 0, 0] ++ [0, 0, 0, 0, 0x12, 0x34, 0x56, 0x78] ++
        [0, 0, 0, 0, 0x12, 0x34, 0x57, 0] ++ List.replicate 32 0) 128 0 0).2.2.2.1 64 (by rfl) (by decide)
      (by decide) (by decide)).1,
   rfl⟩

end sg_rep_zones

/-! ## LUN decoding -/

namespace sg_luns

/-- C13. For every leadin and every setting of lu_cong, do_hex and verbose,
`decode_lun` on a LUN whose eight bytes are 0xFF prints exactly one line,
`<leadin>Logical unit not specified`, and nothing else. -/
theorem decode_lun_not_specified (leadin : String) (rest : List Nat)
    (lu_cong do_hex verbose : Int) :
    decode_lun leadin (not_spec ++ rest) lu_cong do_hex verbose =
      [.printf "%sLogical unit not specified\n" [.s leadin]] := by
  unfold decode_lun
  rw [if_pos]
  rfl

/-- A pass with LU_CONG clear: its level, its addressing method, and when it
asks for the next level. -/
theorem body_clear (leadin : String) (lun : List Nat) (do_hex verbose : Int) (k : Nat)
    (adm : Int) (ll : String) :
    (decode_lun_body leadin lun 0 do_hex verbose k adm ll).level.k = k ∧
    (decode_lun_body leadin lun 0 do_hex verbose k adm ll).level.a_method =
      some ((lun.getD (2 * k) 0 >>> 6) &&& 0x3) ∧
    ((decode_lun_body leadin lun 0 do_hex verbose k adm ll).level.next_level ≠ 0 ↔
      ((lun.getD (2 * k) 0 >>> 6) &&& 0x3 = 0 ∧ lun.getD (2 * k) 0 &&& 0x3f ≠ 0)) := by
  unfold decode_lun_body
  simp only [ne_eq, not_true_eq_false, false_and, and_false, if_false, Nat.add_zero]
  refine ⟨trivial, trivial, ?_⟩
  by_cases h0 : (lun.getD (2 * k) 0 >>> 6) &&& 0x3 = 0
  · simp only [h0, if_true, case_0, ne_eq, not_true_eq_false, if_false, true_and]
    by_cases hb : lun.getD (2 * k) 0 &&& 0x3f = 0
    · simp [hb]
    · simp [hb]
  · simp only [h0, if_false, false_and, iff_false, not_not]
    split_ifs <;> rfl

/-- The passes of the loop for LU_CONG clear, from level `k` on. -/
theorem loop_clear (leadin : String) (lun : List Nat) (do_hex verbose : Int) (n k : Nat)
    (adm : Int) (ll : String) :
    (decode_lun_loop leadin lun 0 do_hex verbose n k adm ll).length ≤ n ∧
    (0 < n → 0 < (decode_lun_loop leadin lun 0 do_hex verbose n k adm ll).length) ∧
    ∀ i, i < (decode_lun_loop leadin lun 0 do_hex verbose n k adm ll).length →
      (∃ l, (decode_lun_loop leadin lun 0 do_hex verbose n k adm ll)[i]? = some l ∧
        l.k = k + i ∧ l.a_method = some ((lun.getD (2 * (k + i)) 0 >>> 6) &&& 0x3)) ∧
      (i + 1 < (decode_lun_loop leadin lun 0 do_hex verbose n k adm ll).length ↔
        ((lun.getD (2 * (k + i)) 0 >>> 6) &&& 0x3 = 0 ∧
          lun.getD (2 * (k + i)) 0 &&& 0x3f ≠ 0 ∧ i + 1 < n)) := by
  induction n generalizing k adm ll with
  | zero =>
    simp only [decode_lun_loop, List.length_nil, Nat.le_refl, Nat.lt_irrefl, false_implies,
      Nat.not_lt_zero, implies_true, and_self]
  | succ n ih =>
    obtain ⟨hk, hm, hnl⟩ := body_clear leadin lun do_hex verbose k adm ll
    unfold decode_lun_loop
    simp only []
    by_cases hc : (decode_lun_body leadin lun 0 do_hex verbose k adm ll).level.next_level ≠ 0
    · rw [if_pos hc]
      obtain ⟨i1, i2, i3⟩ := ih (k + 1)
        (decode_lun_body leadin lun 0 do_hex verbose k adm ll).lu_cong_admin
        (decode_lun_body leadin lun 0 do_hex verbose k adm ll).l_leadin
      have hcond := hnl.mp hc
      refine ⟨by simp only [List.length_cons]; omega, fun _ => by simp only [List.length_cons]; omega, ?_⟩
      intro i hi
      cases i with
      | zero =>
        refine ⟨⟨_, List.getElem?_cons_zero, hk, hm⟩, ?_⟩
        simp only [List.length_cons, Nat.add_zero]
        constructor
        · intro h
          exact ⟨hcond.1, hcond.2, by omega⟩
        · intro h
          have := i2 (by omega)
          omega
      | succ j =>
        simp only [List.length_cons] at hi
        obtain ⟨⟨l, hl1, hl2, hl3⟩, hiff⟩ := i3 j (by omega)
        have e : k + 1 + j = k + (j + 1) := by omega
        rw [e] at hl2 hl3 hiff
        refine ⟨⟨l, by simpa using hl1, hl2, hl3⟩, ?_⟩
        simp only [List.length_cons]
        constructor
        · intro h
          have := hiff.mp (by omega)
          exact ⟨this.1, this.2.1, by omega⟩
        · intro h
          have := hiff.mpr ⟨h.1, h.2.1, by omega⟩
          omega
    · rw [if_neg hc]
      have hcond : ¬ ((lun.getD (2 * k) 0 >>> 6) &&& 0x3 = 0 ∧
          lun.getD (2 * k) 0 &&& 0x3f ≠ 0) := fun h => hc (hnl.mpr h)
      refine ⟨by simp, fun _ => by simp, ?_⟩
      intro i hi
      simp only [List.length_cons, List.length_nil] at hi
      have hi0 : i = 0 := by omega
      subst hi0
      refine ⟨⟨_, List.getElem?_cons_zero, hk, hm⟩, ?_⟩
      simp only [List.length_cons, List.length_nil, Nat.add_zero]
      constructor
      · intro h
        omega
      · intro h
        exact absurd ⟨h.1, h.2.1⟩ hcond

/-- The pass for level 0 with LU_CONG set. -/
theorem body_cong_0 (leadin : String) (lun : List Nat) (lu_cong do_hex verbose : Int)
    (adm : Int) (ll : String) (h : lu_cong ≠ 0) (ha : adm ≠ 0) :
    (decode_lun_body leadin lun lu_cong do_hex verbose 0 adm ll).level.k = 0 ∧
    (decode_lun_body leadin lun lu_cong do_hex verbose 0 adm ll).level.a_method =
      some ((lun.getD 0 0 >>> 6) &&& 0x3) ∧
    ((decode_lun_body leadin lun lu_cong do_hex verbose 0 adm ll).level.next_level ≠ 0 ↔
      (lun.getD 0 0 >>> 6) &&& 0x3 = 0) := by
  unfold decode_lun_body
  simp only [Nat.lt_irrefl, gt_iff_lt, false_and, if_false, Nat.mul_zero, Nat.zero_add]
  refine ⟨trivial, trivial, ?_⟩
  by_cases h0 : (lun.getD 0 0 >>> 6) &&& 0x3 = 0
  · simp only [h0, if_true, case_0, h, ne_eq, not_false_eq_true, ha, iff_true]
    decide
  · simp only [h0, if_false, iff_false, not_not]
    split_ifs <;> rfl

/-- The pass for level 1 with LU_CONG set never asks for a next level. -/
theorem body_cong_1 (leadin : String) (lun : List Nat) (lu_cong do_hex verbose : Int)
    (adm : Int) (ll : String) (h : lu_cong ≠ 0) :
    (decode_lun_body leadin lun lu_cong do_hex verbose 1 adm ll).level.k = 1 ∧
    (decode_lun_body leadin lun lu_cong do_hex verbose 1 adm ll).level.next_level = 0 ∧
    (lun.getD 2 0 = 0 → lun.getD 3 0 = 0 →
      (decode_lun_body leadin lun lu_cong do_hex verbose 1 adm ll).level.a_method = none ∧
      (decode_lun_body leadin lun lu_cong do_hex verbose 1 adm ll).level.out.head? =
        some (.printf "%s>>>> Administrative LU\n" [.s (strncpy_l_leadin ll leadin)])) := by
  unfold decode_lun_body
  simp only [gt_iff_lt, Nat.lt_one_iff, Nat.pos_of_ne_zero, Nat.one_pos, true_and, h, ne_eq,
    not_false_eq_true, Nat.mul_one, Nat.add_zero]
  by_cases hz : 0 = lun.getD 2 0 ∧ 0 = lun.getD (2 + 1) 0
  · rw [if_pos hz]
    refine ⟨rfl, rfl, fun _ _ => ⟨rfl, rfl⟩⟩
  · rw [if_neg hz]
    refine ⟨rfl, ?_, ?_⟩
    · by_cases h0 : (lun.getD 2 0 >>> 6) &&& 0x3 = 0
      · simp only [h0, if_true, case_0, h, ne_eq, not_false_eq_true, not_true_eq_false,
          if_false]
      · simp only [h0, if_false]
        split_ifs <;> rfl
    · intro h2 h3
      exact absurd ⟨h2.symm, h3.symm⟩ hz

/-- One unfolding of the loop. -/
theorem loop_succ (leadin : String) (lun : List Nat) (lu_cong do_hex verbose : Int)
    (n k : Nat) (adm : Int) (ll : String) :
    decode_lun_loop leadin lun lu_cong do_hex verbose (n + 1) k adm ll =
      (decode_lun_body leadin lun lu_cong do_hex verbose k adm ll).level ::
        (if (decode_lun_body leadin lun lu_cong do_hex verbose k adm ll).level.next_level ≠ 0
          then
            decode_lun_loop leadin lun lu_cong do_hex verbose n (k + 1)
              (decode_lun_body leadin lun lu_cong do_hex verbose k adm ll).lu_cong_admin
              (decode_lun_body leadin lun lu_cong do_hex verbose k adm ll).l_leadin
          else []) := rfl

/-- The pass for level 0 with LU_CONG clear and a first byte 0x00. -/
theorem body_peripheral (leadin : String) (lun : List Nat) (do_hex verbose : Int)
    (adm : Int) (ll : String) (h0 : lun.getD 0 0 = 0) :
    (decode_lun_body leadin lun 0 do_hex verbose 0 adm ll).level =
      ⟨0, some 0,
       [if verbose = 0 then
          (if do_hex ≠ 0 then
            .printf "%slun=0x%02x\n"
              [.s (strncpy_l_leadin ll leadin ++ "Peripheral device addressing: "),
               .d (lun.getD 1 0)]
           else
            .printf "%slun=%d\n"
              [.s (strncpy_l_leadin ll leadin ++ "Peripheral device addressing: "),
               .d (lun.getD 1 0)])
        else
          (if do_hex ≠ 0 then
            .printf "%sbus_id=0x%02x, %s=0x%02x\n"
              [.s (strncpy_l_leadin ll leadin ++ "Peripheral device addressing: "),
               .d 0, .s "lun", .d (lun.getD 1 0)]
           else
            .printf "%sbus_id=%d, %s=%d\n"
              [.s (strncpy_l_leadin ll leadin ++ "Peripheral device addressing: "),
               .d 0, .s "lun", .d (lun.getD 1 0)])],
       0⟩ := by
  unfold decode_lun_body
  simp only [Nat.lt_irrefl, gt_iff_lt, false_and, if_false, Nat.mul_zero, Nat.zero_add,
    Nat.add_zero, h0, ne_eq, not_true_eq_false, false_or, Nat.zero_shiftRight, Nat.zero_and,
    if_true, case_0, true_and, and_false, List.nil_append, List.append_nil]
  by_cases hv : verbose = 0
  · subst hv
    simp only [if_true]
    rfl
  · have hv' : ¬ ((0 : Int) = verbose) := fun h => hv h.symm
    simp only [hv, hv', if_false]
    rfl

/-- C14. With LU_CONG clear, for a LUN whose first byte is 0x00 and whose
second byte is v, `decode_lun` prints exactly one line, the line
`Peripheral device addressing: ` with `lun=v` (preceded by `bus_id=0` when
verbose), and makes one pass only, whatever the other bytes are. -/
theorem decode_lun_peripheral (leadin : String) (lun : List Nat) (do_hex verbose : Int)
    (h0 : lun.getD 0 0 = 0) :
    decode_lun leadin lun 0 do_hex verbose =
      [if verbose = 0 then
          (if do_hex ≠ 0 then
            .printf "%slun=0x%02x\n"
              [.s (strncpy_l_leadin "" leadin ++ "Peripheral device addressing: "),
               .d (lun.getD 1 0)]
           else
            .printf "%slun=%d\n"
              [.s (strncpy_l_leadin "" leadin ++ "Peripheral device addressing: "),
               .d (lun.getD 1 0)])
        else
          (if do_hex ≠ 0 then
            .printf "%sbus_id=0x%02x, %s=0x%02x\n"
              [.s (strncpy_l_leadin "" leadin ++ "Peripheral device addressing: "),
               .d 0, .s "lun", .d (lun.getD 1 0)]
           else
            .printf "%sbus_id=%d, %s=%d\n"
              [.s (strncpy_l_leadin "" leadin ++ "Peripheral device addressing: "),
               .d 0, .s "lun", .d (lun.getD 1 0)])] ∧
    (decode_lun_levels leadin lun 0 do_hex verbose).length = 1 := by
  have hns : ¬ ((List.range 8).map (fun i => lun.getD i 0) = not_spec) := by
    intro h
    have h8 : List.range 8 = [0, 1, 2, 3, 4, 5, 6, 7] := by decide
    rw [h8] at h
    simp only [List.map_cons, not_spec, List.cons.injEq, h0] at h
    exact absurd h.1 (by decide)
  have hb := body_peripheral leadin lun do_hex verbose 0 "" h0
  have hl : decode_lun_levels leadin lun 0 do_hex verbose =
      [(decode_lun_body leadin lun 0 do_hex verbose 0 0 "").level] := by
    unfold decode_lun_levels
    rw [loop_succ, hb]
    simp only [ne_eq, not_true_eq_false, if_false]
  unfold decode_lun
  rw [if_neg hns, hl, hb]
  exact ⟨rfl, rfl⟩

/-- Witness of C14: the LUN 00 05 01 02 03 04 05 06 reports lun=5. -/
theorem decode_lun_peripheral_witness :
    decode_lun "  " [0x00, 0x05, 1, 2, 3, 4, 5, 6] 0 0 0 =
      [.printf "%slun=%d\n" [.s "  Peripheral device addressing: ", .d 5]] :=
  (decode_lun_peripheral "  " [0x00, 0x05, 1, 2, 3, 4, 5, 6] 0 0 rfl).1

/-- C15. With LU_CONG clear, `decode_lun` makes between one and four passes,
the i-th for level i with the addressing method in the top two bits of byte
2 i, and a pass for level i is followed by another exactly when that method
is 0, the bus_id (the low six bits of byte 2 i) is not zero and i is less
than 3; so a level of method 1, 2 or 3 is the last one. With LU_CONG set it
makes at most two passes, a second one exactly when level 0 has method 0,
and when bytes 2 and 3 are zero the second pass prints `Administrative LU`
and leaves the loop before reading an addressing method. -/
theorem decode_lun_next_level (leadin : String) (lun : List Nat) (do_hex verbose : Int) :
    (1 ≤ (decode_lun_levels leadin lun 0 do_hex verbose).length ∧
     (decode_lun_levels leadin lun 0 do_hex verbose).length ≤ 4 ∧
     ∀ i, i < (decode_lun_levels leadin lun 0 do_hex verbose).length →
       (∃ l, (decode_lun_levels leadin lun 0 do_hex verbose)[i]? = some l ∧ l.k = i ∧
         l.a_method = some ((lun.getD (2 * i) 0 >>> 6) &&& 0x3)) ∧
       (i + 1 < (decode_lun_levels leadin lun 0 do_hex verbose).length ↔
         ((lun.getD (2 * i) 0 >>> 6) &&& 0x3 = 0 ∧ lun.getD (2 * i) 0 &&& 0x3f ≠ 0 ∧
           i < 3))) ∧
    (∀ lu_cong : Int, lu_cong ≠ 0 →
      1 ≤ (decode_lun_levels leadin lun lu_cong do_hex verbose).length ∧
      (decode_lun_levels leadin lun lu_cong do_hex verbose).length ≤ 2 ∧
      (1 < (decode_lun_levels leadin lun lu_cong do_hex verbose).length ↔
        (lun.getD 0 0 >>> 6) &&& 0x3 = 0) ∧
      (1 < (decode_lun_levels leadin lun lu_cong do_hex verbose).length →
        lun.getD 2 0 = 0 → lun.getD 3 0 = 0 →
        ∃ l str, (decode_lun_levels leadin lun lu_cong do_hex verbose)[1]? = some l ∧
          l.a_method = none ∧
          l.out.head? = some (.printf "%s>>>> Administrative LU\n" [.s str]))) := by
  constructor
  · obtain ⟨c1, c2, c3⟩ := loop_clear leadin lun do_hex verbose 4 0 0 ""
    refine ⟨c2 (by decide), c1, ?_⟩
    intro i hi
    obtain ⟨⟨l, d1, d2, d3⟩, d4⟩ := c3 i hi
    rw [Nat.zero_add] at d2 d3 d4
    refine ⟨⟨l, d1, d2, d3⟩, ?_⟩
    constructor
    · intro h
      have := d4.mp h
      exact ⟨this.1, this.2.1, by omega⟩
    · intro h
      exact d4.mpr ⟨h.1, h.2.1, by omega⟩
  · intro lu_cong hc
    obtain ⟨_, _, a3⟩ := body_cong_0 leadin lun lu_cong do_hex verbose lu_cong "" hc hc
    obtain ⟨_, b2, b3⟩ := body_cong_1 leadin lun lu_cong do_hex verbose
      (decode_lun_body leadin lun lu_cong do_hex verbose 0 lu_cong "").lu_cong_admin
      (decode_lun_body leadin lun lu_cong do_hex verbose 0 lu_cong "").l_leadin hc
    unfold decode_lun_levels
    rw [loop_succ]
    by_cases hn : (decode_lun_body leadin lun lu_cong do_hex verbose 0 lu_cong
        "").level.next_level ≠ 0
    · have hm := a3.mp hn
      rw [if_pos hn, loop_succ, b2]
      simp only [ne_eq, not_true_eq_false, if_false, List.length_cons, List.length_nil]
      refine ⟨by omega, by omega, ⟨fun _ => hm, fun _ => by omega⟩, ?_⟩
      intro _ h2 h3
      obtain ⟨e1, e2⟩ := b3 h2 h3
      exact ⟨_, _, List.getElem?_cons_succ.trans List.getElem?_cons_zero, e1, e2⟩
    · have hm : ¬ ((lun.getD 0 0 >>> 6) &&& 0x3 = 0) := fun h => hn (a3.mpr h)
      rw [if_neg hn]
      simp only [List.length_cons, List.length_nil]
      refine ⟨by omega, by omega, ⟨fun h => by omega, fun h => absurd h hm⟩, ?_⟩
      intro h
      omega

/-- Witness of C15: a LUN of four peripheral levels with bus ids 1, 2, 3, 5,
with LU_CONG clear and with LU_CONG set to 1. -/
theorem decode_lun_next_level_witness :
    1 ≤ (decode_lun_levels "" [1, 5, 2, 2, 3, 4, 5, 6] 0 0 0).length ∧
    (decode_lun_levels "" [1, 5, 2, 2, 3, 4, 5, 6] 0 0 0).length ≤ 4 ∧
    (decode_lun_levels "" [1, 5, 2, 2, 3, 4, 5, 6] 1 0 0).length ≤ 2 :=
  ⟨(decode_lun_next_level "" [1, 5, 2, 2, 3, 4, 5, 6] 0 0).1.1,
   (decode_lun_next_level "" [1, 5, 2, 2, 3, 4, 5, 6] 0 0).1.2.1,
   ((decode_lun_next_level "" [1, 5, 2, 2, 3, 4, 5, 6] 0 0).2 1 (by decide)).2.1⟩

end sg_luns

/-! ## SET FEATURES through ATA PASS-THROUGH -/

namespace sg_lib

theorem cat_distinct (K : sg_lib_h) (hK : K.wf) :
    K.SG_LIB_CAT_ABORTED_COMMAND ≠ K.SG_LIB_CAT_RECOVERED ∧
    (0 : Int) ≠ K.SG_LIB_CAT_RECOVERED ∧
    SG_LIB_CAT_MISCOMPARE ≠ K.SG_LIB_CAT_RECOVERED ∧
    SG_LIB_CAT_MISCOMPARE ≠ K.SG_LIB_CAT_NO_SENSE ∧
    SG_LIB_CAT_MISCOMPARE ≠ K.SG_LIB_CAT_MEDIUM_HARD := by
  have h := hK.1
  simp only [List.nodup_cons, List.mem_cons, not_or, List.mem_singleton] at h
  tauto

theorem sk_distinct (K : sg_lib_h) (hK : K.wf) :
    SPC_SK_NO_SENSE ≠ K.SPC_SK_ILLEGAL_REQUEST ∧
    K.SPC_SK_RECOVERED_ERROR ≠ K.SPC_SK_ILLEGAL_REQUEST ∧
    SPC_SK_NO_SENSE ≠ K.SPC_SK_RECOVERED_ERROR := by
  have h := hK.2
  simp only [List.nodup_cons, List.mem_cons, not_or, List.mem_singleton] at h
  tauto

end sg_lib

namespace sg_sat_set_features

/-- The classification of `do_set_features` for a CHECK CONDITION whose
sense key is NO SENSE or RECOVERED ERROR, once the sense header is split
off. -/
theorem do_set_features_no_sense (K : sg_lib_h) (hK : K.wf) (cdb_len verbose res : Int)
    (sense_buffer ata_return_desc : List Nat) (ssh : sg_scsi_sense_hdr)
    (hres : res > 0) (hcc : cand32 res K.SAM_STAT_CHECK_CONDITION ≠ 0)
    (hsk : ssh.sense_key = SPC_SK_NO_SENSE ∨ ssh.sense_key = K.SPC_SK_RECOVERED_ERROR) :
    do_set_features K cdb_len verbose res sense_buffer (some ssh) ata_return_desc =
      (let err : List outev :=
        if verbose > 1 then
          [.call "sg_print_sense" [.s "ATA pass through", .d 64,
            .d (if verbose > 2 then 1 else 0)]]
        else []
      if 0x0 = ssh.asc ∧ ASCQ_ATA_PT_INFO_AVAILABLE = ssh.ascq then
        if SAT_ATA_RETURN_DESC ≠ ata_return_desc.getD 0 0 then
          ⟨K.SG_LIB_CAT_RECOVERED,
            err ++ (if verbose ≠ 0 then
              [.printf "did not find ATA Return (sense) Descriptor\n" []] else [])⟩
        else do_set_features_format K sense_buffer ata_return_desc 1 err
      else if K.SPC_SK_RECOVERED_ERROR = ssh.sense_key then
        ⟨K.SG_LIB_CAT_RECOVERED, err⟩
      else if 0x0 = ssh.asc ∧ 0x0 = ssh.ascq then
        do_set_features_format K sense_buffer ata_return_desc 0 err
      else ⟨K.SG_LIB_CAT_SENSE, err⟩) := by
  obtain ⟨h1, h2, _⟩ := sk_distinct K hK
  have h0 : ¬ (0 = res) := by omega
  have hir : ¬ (ssh.sense_key = K.SPC_SK_ILLEGAL_REQUEST) := by
    rcases hsk with h | h <;> rw [h] <;> assumption
  unfold do_set_features
  simp only [h0, if_false, hres, hcc, ne_eq, not_false_eq_true, and_self, if_true, hir, hsk]

/-- The result of `do_set_features` for a CHECK CONDITION with sense key
NO SENSE and ASC = ASCQ = 0: of the descriptor only byte 0 is read, and only
when the sense data is in descriptor format. -/
theorem do_set_features_plain (K : sg_lib_h) (hK : K.wf) (cdb_len verbose res : Int)
    (sense_buffer ata_return_desc : List Nat) (ssh : sg_scsi_sense_hdr)
    (hres : res > 0) (hcc : cand32 res K.SAM_STAT_CHECK_CONDITION ≠ 0)
    (hsk : ssh.sense_key = SPC_SK_NO_SENSE) (ha : ssh.asc = 0) (hq : ssh.ascq = 0) :
    do_set_features K cdb_len verbose res sense_buffer (some ssh) ata_return_desc =
      (let err : List outev :=
        if verbose > 1 then
          [.call "sg_print_sense" [.s "ATA pass through", .d 64,
            .d (if verbose > 2 then 1 else 0)]]
        else []
      if sense_buffer.getD 0 0 &&& 0x7f = 0x72 then
        ⟨0, err ++
          (if ata_return_desc.getD 0 0 = 9 then
            [.printf "Seem to have got ATA Result Descriptor but it was not indicated\n" []]
           else [])⟩
      else
        ⟨K.SG_LIB_CAT_MALFORMED,
          err ++ [.printf "expected descriptor sense format, response code=0x%x\n"
            [.d (sense_buffer.getD 0 0)]]⟩) := by
  obtain ⟨_, _, hs3⟩ := sk_distinct K hK
  rw [do_set_features_no_sense K hK cdb_len verbose res sense_buffer ata_return_desc ssh
    hres hcc (Or.inl hsk)]
  have e1 : ¬ (0x0 = ssh.asc ∧ ASCQ_ATA_PT_INFO_AVAILABLE = ssh.ascq) := by
    rw [hq]; intro h; exact absurd h.2 (by decide)
  have e2 : ¬ (K.SPC_SK_RECOVERED_ERROR = ssh.sense_key) := by
    rw [hsk]; exact fun h => hs3 h.symm
  have e3 : (0x0 = ssh.asc ∧ 0x0 = ssh.ascq) := by rw [ha, hq]; exact ⟨rfl, rfl⟩
  clear ha hq
  dsimp only
  rw [if_neg e1, if_neg e2, if_pos e3, do_set_features_format]
  by_cases hf : sense_buffer.getD 0 0 &&& 0x7f = 0x72
  · have e4 : ¬ (0x72 ≠ (sense_buffer.getD 0 0 &&& 0x7f)) := fun h => h hf.symm
    have e5 : ¬ ((0 : Int) ≠ 0 ∧ (ata_return_desc.getD 3 0 &&& 0x4) ≠ 0) :=
      fun h => h.1 rfl
    rw [if_neg e4, if_pos hf, do_set_features_end, if_neg e5]
    by_cases h9 : ata_return_desc.getD 0 0 = 9
    · have e6 : SAT_ATA_RETURN_DESC = ata_return_desc.getD 0 0 ∧ (0 : Int) = 0 :=
        ⟨h9.symm, rfl⟩
      rw [if_pos e6, if_pos h9]
    · have e6 : ¬ (SAT_ATA_RETURN_DESC = ata_return_desc.getD 0 0 ∧ (0 : Int) = 0) :=
        fun h => h9 h.1.symm
      rw [if_neg e6, if_neg h9]
  · have e4 : (0x72 ≠ (sense_buffer.getD 0 0 &&& 0x7f)) := fun h => hf h.symm
    rw [if_pos e4, if_neg hf]

/-- Claim C16, amended: for a CHECK CONDITION result of `do_set_features`
with a sense header, (1) sense key NO SENSE or RECOVERED ERROR with ASC 0x00
and ASCQ 0x1D, an ATA return descriptor (first byte 0x09) and descriptor
format sense (response code 0x72) returns SG_LIB_CAT_ABORTED_COMMAND when
bit 0x04 of descriptor byte 3 is set and 0 otherwise, never
SG_LIB_CAT_RECOVERED; (2) RECOVERED ERROR with any other ASC/ASCQ returns
SG_LIB_CAT_RECOVERED; (3) NO SENSE with ASC = ASCQ = 0 returns 0 when the
sense data has response code 0x72 and SG_LIB_CAT_MALFORMED otherwise; the
value returned is the same for every descriptor, and so is the whole result
(the messages included) for every descriptor with the same first byte, and
for every descriptor at all when the response code is not 0x72: the error
bit in byte 3 is not examined, and byte 0 only for a message; (4) NO SENSE
with any other ASC/ASCQ returns SG_LIB_CAT_SENSE. -/
theorem set_features_sense_classes (K : sg_lib_h) (hK : K.wf) (cdb_len verbose res : Int)
    (sense_buffer ata_return_desc : List Nat) (ssh : sg_scsi_sense_hdr)
    (hres : res > 0) (hcc : cand32 res K.SAM_STAT_CHECK_CONDITION ≠ 0) :
    ((ssh.sense_key = SPC_SK_NO_SENSE ∨ ssh.sense_key = K.SPC_SK_RECOVERED_ERROR) →
      ssh.asc = 0x00 → ssh.ascq = 0x1d → ata_return_desc.getD 0 0 = 0x09 →
      sense_buffer.getD 0 0 &&& 0x7f = 0x72 →
      (do_set_features K cdb_len verbose res sense_buffer (some ssh) ata_return_desc).ret =
        (if ata_return_desc.getD 3 0 &&& 0x4 ≠ 0 then K.SG_LIB_CAT_ABORTED_COMMAND else 0) ∧
      (do_set_features K cdb_len verbose res sense_buffer (some ssh) ata_return_desc).ret ≠
        K.SG_LIB_CAT_RECOVERED) ∧
    (ssh.sense_key = K.SPC_SK_RECOVERED_ERROR → ¬ (ssh.asc = 0x00 ∧ ssh.ascq = 0x1d) →
      (do_set_features K cdb_len verbose res sense_buffer (some ssh) ata_return_desc).ret =
        K.SG_LIB_CAT_RECOVERED) ∧
    (ssh.sense_key = SPC_SK_NO_SENSE → ssh.asc = 0 → ssh.ascq = 0 →
      (do_set_features K cdb_len verbose res sense_buffer (some ssh) ata_return_desc).ret =
        (if sense_buffer.getD 0 0 &&& 0x7f = 0x72 then 0 else K.SG_LIB_CAT_MALFORMED) ∧
      ∀ ard : List Nat,
        (do_set_features K cdb_len verbose res sense_buffer (some ssh) ard).ret =
          (do_set_features K cdb_len verbose res sense_buffer (some ssh)
            ata_return_desc).ret ∧
        (ard.getD 0 0 = ata_return_desc.getD 0 0 ∨ sense_buffer.getD 0 0 &&& 0x7f ≠ 0x72 →
          do_set_features K cdb_len verbose res sense_buffer (some ssh) ard =
            do_set_features K cdb_len verbose res sense_buffer (some ssh) ata_return_desc)) ∧
    (ssh.sense_key = SPC_SK_NO_SENSE → ¬ (ssh.asc = 0x00 ∧ ssh.ascq = 0x1d) →
      ¬ (ssh.asc = 0 ∧ ssh.ascq = 0) →
      (do_set_features K cdb_len verbose res sense_buffer (some ssh) ata_return_desc).ret =
        K.SG_LIB_CAT_SENSE) := by
  obtain ⟨hc1, hc2, _⟩ := cat_distinct K hK
  obtain ⟨_, _, hs3⟩ := sk_distinct K hK
  refine ⟨?_, ?_, ?_, ?_⟩
  · intro hsk ha hq hd hf
    rw [do_set_features_no_sense K hK cdb_len verbose res sense_buffer ata_return_desc ssh
      hres hcc hsk]
    have e1 : (0x0 = ssh.asc ∧ ASCQ_ATA_PT_INFO_AVAILABLE = ssh.ascq) := by
      rw [ha, hq]; exact ⟨rfl, rfl⟩
    have e2 : ¬ (SAT_ATA_RETURN_DESC ≠ ata_return_desc.getD 0 0) := by
      rw [hd]; exact fun h => h rfl
    have e3 : ¬ (0x72 ≠ (sense_buffer.getD 0 0 &&& 0x7f)) := by
      rw [hf]; exact fun h => h rfl
    have e4 : ¬ (SAT_ATA_RETURN_DESC = ata_return_desc.getD 0 0 ∧ (0 : Int) = 1) := by
      intro h; exact absurd h.2 (by decide)
    clear ha hq hd hf
    dsimp only
    rw [if_pos e1, if_neg e2, do_set_features_format, if_neg e3, do_set_features_end]
    by_cases hb : ata_return_desc.getD 3 0 &&& 0x4 = 0
    · have e5 : ¬ ((1 : Int) ≠ 0 ∧ (ata_return_desc.getD 3 0 &&& 0x4) ≠ 0) :=
        fun h => h.2 hb
      have e6 : ¬ (ata_return_desc.getD 3 0 &&& 0x4 ≠ 0) := fun h => h hb
      rw [if_neg e5, if_neg e6]
      exact ⟨rfl, hc2⟩
    · have e5 : ((1 : Int) ≠ 0 ∧ (ata_return_desc.getD 3 0 &&& 0x4) ≠ 0) :=
        ⟨by decide, hb⟩
      rw [if_pos e5, if_pos hb]
      exact ⟨rfl, hc1⟩
  · intro hsk hn
    rw [do_set_features_no_sense K hK cdb_len verbose res sense_buffer ata_return_desc ssh
      hres hcc (Or.inr hsk)]
    have e1 : ¬ (0x0 = ssh.asc ∧ ASCQ_ATA_PT_INFO_AVAILABLE = ssh.ascq) := by
      intro h; exact hn ⟨h.1.symm, h.2.symm⟩
    dsimp only
    rw [if_neg e1, if_pos hsk.symm]
  · intro hsk ha hq
    have hp := fun ard => do_set_features_plain K hK cdb_len verbose res sense_buffer ard ssh
      hres hcc hsk ha hq
    by_cases hf : sense_buffer.getD 0 0 &&& 0x7f = 0x72
    · refine ⟨?_, fun ard => ⟨?_, ?_⟩⟩
      · rw [hp]
        dsimp only
        rw [if_pos hf, if_pos hf]
      · rw [hp, hp]
        dsimp only
        rw [if_pos hf, if_pos hf]
      · intro h
        rcases h with h | h
        · rw [hp, hp, h]
        · exact absurd hf h
    · refine ⟨?_, fun ard => ⟨?_, ?_⟩⟩
      · rw [hp]
        dsimp only
        rw [if_neg hf, if_neg hf]
      · rw [hp, hp]
        dsimp only
        rw [if_neg hf, if_neg hf]
      · intro _
        rw [hp, hp]
        dsimp only
        rw [if_neg hf, if_neg hf]
  · intro hsk hn1 hn2
    rw [do_set_features_no_sense K hK cdb_len verbose res sense_buffer ata_return_desc ssh
      hres hcc (Or.inl hsk)]
    have e1 : ¬ (0x0 = ssh.asc ∧ ASCQ_ATA_PT_INFO_AVAILABLE = ssh.ascq) := by
      intro h; exact hn1 ⟨h.1.symm, h.2.symm⟩
    have e2 : ¬ (K.SPC_SK_RECOVERED_ERROR = ssh.sense_key) := by
      rw [hsk]; exact fun h => hs3 h.symm
    have e3 : ¬ (0x0 = ssh.asc ∧ 0x0 = ssh.ascq) := by
      intro h; exact hn2 ⟨h.1.symm, h.2.symm⟩
    dsimp only
    rw [if_neg e1, if_neg e2, if_neg e3]

/-- The amended C16 at a concrete input: NO SENSE with ASC 0x00 and ASCQ
0x1D, descriptor present with its error bit set, descriptor format sense. -/
theorem set_features_sense_classes_witness :
    sample.wf ∧ (2 : Int) > 0 ∧ cand32 2 sample.SAM_STAT_CHECK_CONDITION ≠ 0 ∧
    (do_set_features sample 16 0 2 [0x72] (some ⟨0x72, SPC_SK_NO_SENSE, 0, 0x1d⟩)
      [9, 0, 0, 4]).ret = sample.SG_LIB_CAT_ABORTED_COMMAND ∧
    (do_set_features sample 16 0 2 [0x72] (some ⟨0x72, SPC_SK_NO_SENSE, 0, 0⟩)
      [9, 0, 0, 4]).ret = 0 :=
  ⟨by decide, by decide, by decide,
   ((set_features_sense_classes sample (by decide) 16 0 2 [0x72] [9, 0, 0, 4]
      ⟨0x72, SPC_SK_NO_SENSE, 0, 0x1d⟩ (by decide) (by decide)).1
        (Or.inl rfl) rfl rfl rfl (by decide)).1,
   ((set_features_sense_classes sample (by decide) 16 0 2 [0x72] [9, 0, 0, 4]
      ⟨0x72, SPC_SK_NO_SENSE, 0, 0⟩ (by decide) (by decide)).2.2.1 rfl rfl rfl).1⟩

/-- Claim C16 as written fails in its clause on NO SENSE with
ASC = ASCQ = 0, in both halves. A CHECK CONDITION with fixed format sense
data (response code 0x70) makes `do_set_features` return
SG_LIB_CAT_MALFORMED, not 0. And with descriptor format sense data the
descriptor is examined: its first byte is read, and the result differs
between a descriptor that starts with 0x09 and one that does not, by the
message on stderr. -/
theorem set_features_no_sense_fixed_format :
    sample.wf ∧ (2 : Int) > 0 ∧ cand32 2 sample.SAM_STAT_CHECK_CONDITION ≠ 0 ∧
    do_set_features sample 16 0 2 [0x70] (some ⟨0x70, SPC_SK_NO_SENSE, 0, 0⟩) [] =
      ⟨sample.SG_LIB_CAT_MALFORMED,
        [.printf "expected descriptor sense format, response code=0x%x\n" [.d 0x70]]⟩ ∧
    sample.SG_LIB_CAT_MALFORMED ≠ 0 ∧
    do_set_features sample 16 0 2 [0x72] (some ⟨0x72, SPC_SK_NO_SENSE, 0, 0⟩) [9, 0, 0, 0] =
      ⟨0, [.printf "Seem to have got ATA Result Descriptor but it was not indicated\n" []]⟩ ∧
    do_set_features sample 16 0 2 [0x72] (some ⟨0x72, SPC_SK_NO_SENSE, 0, 0⟩) [0, 0, 0, 0] =
      ⟨0, []⟩ := by
  refine ⟨by decide, by decide, by decide, by rfl, by decide, by rfl, by rfl⟩

end sg_sat_set_features

/-! ## COMPARE AND WRITE: status, input files and timeout -/

namespace sg_compare_and_write

/-- When `main` executes the command, all the steps before it succeeded and
its result is built from that of `sg_compare_and_write`. -/
theorem main_run (K : sg_lib_h) (op : opts_t) (E : main_env)
    (hrun : (main K op E).pt ≠ none) :
    main_read op E = none ∧
    main K op E =
      main_fin K op
        (sg_compare_and_write K op.numblocks (toInt64 op.lba) op.xfer_len op.flags
          (if op.quiet = 0 then 1 else 0) op.verbose E.pt).ret
        (sg_compare_and_write K op.numblocks (toInt64 op.lba) op.xfer_len op.flags
          (if op.quiet = 0 then 1 else 0) op.verbose E.pt).err
        (sg_compare_and_write K op.numblocks (toInt64 op.lba) op.xfer_len op.flags
          (if op.quiet = 0 then 1 else 0) op.verbose E.pt).pt := by
  unfold main at hrun ⊢
  by_cases h1 : E.infd < 0
  · rw [if_pos h1] at hrun; exact absurd rfl hrun
  rw [if_neg h1] at hrun ⊢
  by_cases h2 : op.wfn_given ≠ 0 ∧ op.wfn = some "-"
  · rw [if_pos h2] at hrun; exact absurd rfl hrun
  rw [if_neg h2] at hrun ⊢
  by_cases h3 : op.wfn_given ≠ 0 ∧ E.wfd < 0
  · rw [if_pos h3] at hrun; exact absurd rfl hrun
  rw [if_neg h3] at hrun ⊢
  by_cases h4 : E.devfd < 0
  · rw [if_pos h4] at hrun; exact absurd rfl hrun
  rw [if_neg h4] at hrun ⊢
  by_cases h5 : ¬ E.malloc_ok
  · rw [if_pos h5] at hrun; exact absurd rfl hrun
  rw [if_neg h5] at hrun ⊢
  cases h6 : main_read op E with
  | some p =>
    rw [h6] at hrun
    exact absurd rfl hrun
  | none => exact ⟨rfl, rfl⟩

/-- The result of `sg_compare_and_write` once the pass-through object
exists: the command is executed. -/
theorem caw_pt (K : sg_lib_h) (blocks lba xfer_len : Int) (flags : caw_flags)
    (noisy verbose : Int) (T : pt_outcome) (hT : T.ptvp_null = false) :
    (sg_compare_and_write K blocks lba xfer_len flags noisy verbose T).pt =
      some ⟨(sg_build_scsi_cdb (bits32 blocks) lba flags).2, xfer_len, DEF_TIMEOUT_SECS,
        verbose⟩ := by
  unfold sg_compare_and_write
  have hb : ¬ ((sg_build_scsi_cdb (bits32 blocks) lba flags).1 ≠ 0) := fun h => h rfl
  dsimp only
  rw [if_neg hb, hT]
  simp only [Bool.false_eq_true, if_false]
  split_ifs <;> rfl

theorem miscompare_fmt :
    ("Miscompare at byte offset: %" ++ PRIu64 ++ " [0x%" ++ PRIx64 ++ "]\n") =
      "Miscompare at byte offset: %lu [0x%lx]\n" := by decide

theorem trace_no_miscompare (cawCmd : List Nat) (xfer_len verbose : Int) (u : Nat) :
    outev.printf ("Miscompare at byte offset: %" ++ PRIu64 ++ " [0x%" ++ PRIx64 ++ "]\n")
        [.u u, .u u] ∉ caw_trace cawCmd xfer_len verbose ∧
    outev.printf "Miscompare reported\n" [] ∉ caw_trace cawCmd xfer_len verbose := by
  rw [miscompare_fmt]
  unfold caw_trace
  constructor <;> split_ifs <;> simp <;>
    exact fun h => by have h2 := List.mem_of_mem_take h; simp at h2

theorem device_fmt :
    ("device=%s\n  lba=0x%" ++ PRIx64 ++ " num_blocks=%d xfer_len=%d timeout=%d\n") =
      "device=%s\n  lba=0x%lx num_blocks=%d xfer_len=%d timeout=%d\n" := by decide

theorem banner_no_miscompare (op : opts_t) (u : Nat) :
    outev.printf ("Miscompare at byte offset: %" ++ PRIu64 ++ " [0x%" ++ PRIx64 ++ "]\n")
        [.u u, .u u] ∉ main_banner op ∧
    outev.printf "Miscompare reported\n" [] ∉ main_banner op := by
  rw [miscompare_fmt]
  unfold main_banner
  rw [device_fmt]
  constructor <;> split_ifs <;> simp

/-- The result of `sg_compare_and_write` when the command ends with sense
category MISCOMPARE. -/
theorem caw_miscompare (K : sg_lib_h) (hK : K.wf) (blocks lba xfer_len : Int)
    (flags : caw_flags) (noisy verbose : Int) (T : pt_outcome) (hT : T.ptvp_null = false)
    (hr : T.process_resp = -2) (hc : T.sense_cat = SG_LIB_CAT_MISCOMPARE) :
    sg_compare_and_write K blocks lba xfer_len flags noisy verbose T =
      ⟨SG_LIB_CAT_MISCOMPARE,
       caw_trace (sg_build_scsi_cdb (bits32 blocks) lba flags).2 xfer_len verbose ++
         (if noisy ≠ 0 ∨ verbose ≠ 0 then
           [if T.valid ≠ 0 then
              .printf ("Miscompare at byte offset: %" ++ PRIu64 ++ " [0x%" ++ PRIx64 ++
                "]\n") [.u T.ull, .u T.ull]
            else .printf "Miscompare reported\n" []]
          else []),
       some ⟨(sg_build_scsi_cdb (bits32 blocks) lba flags).2, xfer_len, DEF_TIMEOUT_SECS,
         verbose⟩⟩ := by
  obtain ⟨_, _, c1, c2, c3⟩ := cat_distinct K hK
  unfold sg_compare_and_write
  have hb : ¬ ((sg_build_scsi_cdb (bits32 blocks) lba flags).1 ≠ 0) := fun h => h rfl
  have h1 : ¬ ((-1 : Int) = -2) := by decide
  have h4 : ¬ (SG_LIB_CAT_MISCOMPARE = K.SG_LIB_CAT_RECOVERED ∨
      SG_LIB_CAT_MISCOMPARE = K.SG_LIB_CAT_NO_SENSE) := fun h => h.elim c1 c2
  dsimp only
  rw [if_neg hb, hT, hr, hc, if_neg h1, if_pos rfl, if_neg h4, if_neg c3, if_pos rfl]
  simp only [Bool.false_eq_true, if_false]
  by_cases hn : noisy ≠ 0 ∨ verbose ≠ 0
  · rw [if_neg (not_not.mpr hn), if_pos hn]
  · rw [if_pos hn, if_neg hn, List.append_nil]

/-- The results of `sg_compare_and_write` that are 0: sense categories
RECOVERED and NO_SENSE, and a response that is not an error. -/
theorem caw_zero (K : sg_lib_h) (blocks lba xfer_len : Int)
    (flags : caw_flags) (noisy verbose : Int) (T : pt_outcome) (hT : T.ptvp_null = false)
    (hr : (T.process_resp = -2 ∧
        (T.sense_cat = K.SG_LIB_CAT_RECOVERED ∨ T.sense_cat = K.SG_LIB_CAT_NO_SENSE)) ∨
      (T.process_resp ≠ -1 ∧ T.process_resp ≠ -2)) :
    (sg_compare_and_write K blocks lba xfer_len flags noisy verbose T).ret = 0 := by
  unfold sg_compare_and_write
  have hb : ¬ ((sg_build_scsi_cdb (bits32 blocks) lba flags).1 ≠ 0) := fun h => h rfl
  dsimp only
  rw [if_neg hb, hT]
  simp only [Bool.false_eq_true, if_false]
  rcases hr with ⟨h2, hc⟩ | ⟨h1, h2⟩
  · have h1 : ¬ ((-1 : Int) = -2) := by decide
    rw [h2, if_neg h1, if_pos rfl, if_pos hc]
  · rw [if_neg (fun h => h1 h.symm), if_neg (fun h => h2 h.symm)]

theorem caw_pt_null (K : sg_lib_h) (blocks lba xfer_len : Int) (flags : caw_flags)
    (noisy verbose : Int) (T : pt_outcome) (hT : T.ptvp_null = true) :
    (sg_compare_and_write K blocks lba xfer_len flags noisy verbose T).pt = none := by
  unfold sg_compare_and_write
  have hb : ¬ ((sg_build_scsi_cdb (bits32 blocks) lba flags).1 ≠ 0) := fun h => h rfl
  dsimp only
  rw [if_neg hb, hT, if_pos rfl]

/-- When `main` executes the command the pass-through object was built. -/
theorem main_run_pt (K : sg_lib_h) (op : opts_t) (E : main_env)
    (hrun : (main K op E).pt ≠ none) : E.pt.ptvp_null = false := by
  cases h : E.pt.ptvp_null with
  | false => rfl
  | true =>
    have h2 := (main_run K op E hrun).2
    rw [h2] at hrun
    exact absurd (caw_pt_null K _ _ _ _ _ _ E.pt h) hrun

theorem tail_iff (pre : List outev) (c v : Prop) [Decidable c] [Decidable v]
    (A B : outev) (hA : A ∉ pre) (hB : B ∉ pre) :
    (A ∈ pre ++ (if c then [if v then A else B] else []) ∨
      B ∈ pre ++ (if c then [if v then A else B] else [])) ↔ c := by
  by_cases hc : c <;> by_cases hv : v <;> simp [hc, hv, hA, hB]

theorem main_out_miscompare (K : sg_lib_h) (op : opts_t) :
    main_out K op SG_LIB_CAT_MISCOMPARE = [] := by
  unfold main_out
  have h0 : (0 : Int) ≠ SG_LIB_CAT_MISCOMPARE := by decide
  rw [if_pos h0, if_pos (Or.inr (Or.inl rfl))]

theorem main_out_zero (K : sg_lib_h) (op : opts_t) : main_out K op 0 = [] := by
  unfold main_out
  rw [if_neg (fun h => h rfl)]

/-- Claim C17: for every value of the quiet and verbose options, when the
COMPARE AND WRITE command ends with sense category MISCOMPARE,
`sg_compare_and_write` returns SG_LIB_CAT_MISCOMPARE (14) and `main` exits
with that status; one of the two Miscompare messages is printed if and only
if quiet is off or verbose is on (for the function: noisy or verbose). Sense
categories RECOVERED and NO_SENSE, and a response that is not an error,
give 0 from the function and from `main`. -/
theorem caw_miscompare_status (K : sg_lib_h) (hK : K.wf) :
    (∀ (blocks lba xfer_len : Int) (flags : caw_flags) (noisy verbose : Int)
        (T : pt_outcome),
      T.ptvp_null = false → T.process_resp = -2 → T.sense_cat = SG_LIB_CAT_MISCOMPARE →
      (sg_compare_and_write K blocks lba xfer_len flags noisy verbose T).ret = 14 ∧
      ((outev.printf ("Miscompare at byte offset: %" ++ PRIu64 ++ " [0x%" ++ PRIx64 ++
            "]\n") [.u T.ull, .u T.ull] ∈
          (sg_compare_and_write K blocks lba xfer_len flags noisy verbose T).err ∨
        outev.printf "Miscompare reported\n" [] ∈
          (sg_compare_and_write K blocks lba xfer_len flags noisy verbose T).err) ↔
       (noisy ≠ 0 ∨ verbose ≠ 0))) ∧
    (∀ (op : opts_t) (E : main_env),
      (main K op E).pt ≠ none → E.pt.process_resp = -2 →
      E.pt.sense_cat = SG_LIB_CAT_MISCOMPARE →
      (main K op E).res = 14 ∧
      ((outev.printf ("Miscompare at byte offset: %" ++ PRIu64 ++ " [0x%" ++ PRIx64 ++
            "]\n") [.u E.pt.ull, .u E.pt.ull] ∈ (main K op E).err ∨
        outev.printf "Miscompare reported\n" [] ∈ (main K op E).err) ↔
       (op.quiet = 0 ∨ op.verbose ≠ 0))) ∧
    (∀ (blocks lba xfer_len : Int) (flags : caw_flags) (noisy verbose : Int)
        (T : pt_outcome),
      T.ptvp_null = false →
      ((T.process_resp = -2 ∧
          (T.sense_cat = K.SG_LIB_CAT_RECOVERED ∨ T.sense_cat = K.SG_LIB_CAT_NO_SENSE)) ∨
        (T.process_resp ≠ -1 ∧ T.process_resp ≠ -2)) →
      (sg_compare_and_write K blocks lba xfer_len flags noisy verbose T).ret = 0) ∧
    (∀ (op : opts_t) (E : main_env),
      (main K op E).pt ≠ none →
      ((E.pt.process_resp = -2 ∧
          (E.pt.sense_cat = K.SG_LIB_CAT_RECOVERED ∨
            E.pt.sense_cat = K.SG_LIB_CAT_NO_SENSE)) ∨
        (E.pt.process_resp ≠ -1 ∧ E.pt.process_resp ≠ -2)) →
      (main K op E).res = 0) := by
  refine ⟨?_, ?_, ?_, ?_⟩
  · intro blocks lba xfer_len flags noisy verbose T hT hr hc
    rw [caw_miscompare K hK blocks lba xfer_len flags noisy verbose T hT hr hc]
    refine ⟨rfl, ?_⟩
    exact tail_iff _ _ _ _ _ (trace_no_miscompare _ _ _ _).1 (trace_no_miscompare _ _ _ 0).2
  · intro op E hrun hr hc
    have hT := main_run_pt K op E hrun
    rw [(main_run K op E hrun).2,
      caw_miscompare K hK op.numblocks (toInt64 op.lba) op.xfer_len op.flags _ op.verbose
        E.pt hT hr hc]
    unfold main_fin
    refine ⟨rfl, ?_⟩
    dsimp only
    rw [main_out_miscompare, List.append_nil, ← List.append_assoc]
    have hq : ((if op.quiet = 0 then (1 : Int) else 0) ≠ 0 ∨ op.verbose ≠ 0) ↔
        (op.quiet = 0 ∨ op.verbose ≠ 0) := by
      by_cases h : op.quiet = 0 <;> simp [h]
    rw [← hq]
    refine tail_iff _ _ _ _ _ ?_ ?_
    · intro h
      rcases List.mem_append.mp h with h | h
      · exact (banner_no_miscompare op _).1 h
      · exact (trace_no_miscompare _ _ _ _).1 h
    · intro h
      rcases List.mem_append.mp h with h | h
      · exact (banner_no_miscompare op 0).2 h
      · exact (trace_no_miscompare _ _ _ 0).2 h
  · intro blocks lba xfer_len flags noisy verbose T hT hr
    exact caw_zero K blocks lba xfer_len flags noisy verbose T hT hr
  · intro op E hrun hr
    have hT := main_run_pt K op E hrun
    rw [(main_run K op E hrun).2]
    unfold main_fin
    exact caw_zero K _ _ _ _ _ _ E.pt hT hr

/-- Claim C17 at a concrete run: `--quiet` with a miscompare gives status 14
and no message, and a recovered error gives status 0. -/
theorem caw_miscompare_status_witness :
    sample.wf ∧
    (main sample ⟨some "f", none, 0, 5, 1, 1, 0, 60, 1024, some "/dev/sg1", ⟨0, 0, 0, 0, 0⟩⟩
      ⟨3, -1, 4, true, 1024, 0, ⟨false, -2, 14, 1, 77⟩⟩).res = 14 ∧
    (main sample ⟨some "f", none, 0, 5, 1, 1, 0, 60, 1024, some "/dev/sg1", ⟨0, 0, 0, 0, 0⟩⟩
      ⟨3, -1, 4, true, 1024, 0, ⟨false, -2, 21, 1, 77⟩⟩).res = 0 :=
  ⟨by decide,
   ((caw_miscompare_status sample (by decide)).2.1
      ⟨some "f", none, 0, 5, 1, 1, 0, 60, 1024, some "/dev/sg1", ⟨0, 0, 0, 0, 0⟩⟩
      ⟨3, -1, 4, true, 1024, 0, ⟨false, -2, 14, 1, 77⟩⟩ (by decide) rfl rfl).1,
   (caw_miscompare_status sample (by decide)).2.2.2
      ⟨some "f", none, 0, 5, 1, 1, 0, 60, 1024, some "/dev/sg1", ⟨0, 0, 0, 0, 0⟩⟩
      ⟨3, -1, 4, true, 1024, 0, ⟨false, -2, 21, 1, 77⟩⟩ (by decide)
      (Or.inl ⟨rfl, Or.inl rfl⟩)⟩

/-- Claim C18, failing input: with `--in=empty --lba=0 /dev/sg1`, where the
file `empty` has no bytes, `parse_args` sets `xfer_len` to 1024, the read
returns 0, and `main` prints the short read message, sends no command and
returns 0 as the exit status. -/
theorem caw_short_read_exit_zero (K : sg_lib_h) (T : pt_outcome) :
    (∃ op : opts_t,
      parse_args [.i "empty", .l 0] ["/dev/sg1"] = .ok op ∧ op.xfer_len = 1024 ∧
      op.wfn_given = 0 ∧
      main K op ⟨3, -1, 4, true, 0, 0, T⟩ =
        ⟨0, [.printf "Read only %d bytes (expected %d) from %s\n"
          [.d 0, .d 1024, .s "empty"]], none⟩) :=
  ⟨⟨some "empty", none, 0, 0, 1, 0, 0, 60, 1024, some "/dev/sg1", ⟨0, 0, 0, 0, 0⟩⟩,
    rfl, rfl, rfl, rfl⟩

/-- Claim C19, failing input: with `--timeout=120 --in=f --lba=0 /dev/sg1`
the options hold the timeout 120, and when `main` executes the command the
timeout given to `do_scsi_pt` is 60. -/
theorem caw_timeout_ignored (K : sg_lib_h) (process_resp sense_cat valid : Int)
    (ull : Nat) :
    (∃ op : opts_t,
      parse_args [.t 120, .i "f", .l 0] ["/dev/sg1"] = .ok op ∧ op.timeout = 120 ∧
      (main K op ⟨3, -1, 4, true, 1024, 0, ⟨false, process_resp, sense_cat, valid, ull⟩⟩).pt =
        some ⟨[0x89, 0, 0, 0, 0, 0, 0, 0, 0, 0, 0, 0, 0, 1, 0, 0], 1024, 60, 0⟩) :=
  ⟨⟨some "f", none, 0, 0, 1, 0, 0, 120, 1024, some "/dev/sg1", ⟨0, 0, 0, 0, 0⟩⟩,
    rfl, rfl,
    caw_pt K 1 (toInt64 0) 1024 ⟨0, 0, 0, 0, 0⟩ 1 0
      ⟨false, process_resp, sense_cat, valid, ull⟩ rfl⟩

end sg_compare_and_write

/-! ## READ BUFFER: the mode option -/

namespace sg_read_buffer

/-- Claim C20, failing input: for `--mode=xxx`, which starts with no digit
and is a prefix of no mode acronym, the loop over `modes` stops at the end
sentinel (index 8), a table entry and not NULL, so the `case 'm'` of `main`
prints nothing, does not return, and leaves `rb_mode` as it was. -/
theorem mode_xxx_accepted (rb_mode num : Int) :
    mode_loop "xxx" 3 modes 0 = (8, none) ∧
    modes.get? 8 = some ⟨none, 999, none⟩ ∧
    main_mode "xxx" rb_mode num = ⟨none, rb_mode, []⟩ :=
  ⟨by decide, rfl, by
    unfold main_mode
    have hd : ("xxx".data.headD (Char.ofNat 0)).isDigit = false := by decide
    have hl : mode_loop "xxx" "xxx".data.length modes 0 = (8, none) := by decide
    simp only [hd, hl, Bool.false_eq_true, if_false, reduceCtorEq]⟩

end sg_read_buffer

/-! ## READ BUFFER: the decoding of the response -/

namespace sg_read_buffer

end sg_read_buffer

/-! ## The Linux form of a LUN -/

namespace sg_luns

theorem and_65535 (x : Nat) : x &&& 65535 = x % 65536 :=
  Nat.and_pow_two_sub_one_eq_mod x 16

/-- The eight bytes `linux2t10_lun` stores, for a 64 bit value. -/
theorem linux2t10_lun_shape (x : Nat) (hx : x < 2 ^ 64) (t0 t1 t2 t3 t4 t5 t6 t7 : Nat) :
    linux2t10_lun x [t0, t1, t2, t3, t4, t5, t6, t7] =
      [x / 2 ^ 8 % 256, x % 256, x / 2 ^ 24 % 256, x / 2 ^ 16 % 256,
       x / 2 ^ 40 % 256, x / 2 ^ 32 % 256, x / 2 ^ 56 % 256, x / 2 ^ 48 % 256] := by
  unfold linux2t10_lun
  have hr : List.range 4 = [0, 1, 2, 3] := by decide
  rw [hr, Nat.mod_eq_of_lt hx]
  simp only [List.foldl_cons, List.foldl_nil, put, List.set_cons_zero, List.set_cons_succ,
    Nat.shiftRight_eq_div_pow, and_65535, and_255, Nat.mul_zero, Nat.zero_add, Nat.mul_one,
    Nat.reduceMul, Nat.reduceAdd, List.cons.injEq, and_true]
  refine ⟨?_, ?_, ?_, ?_, ?_, ?_, ?_, ?_⟩ <;> omega

/-- The value `t10_2linux_lun` returns for eight bytes. -/
theorem t10_2linux_lun_shape (b0 b1 b2 b3 b4 b5 b6 b7 : Nat)
    (h0 : b0 < 256) (h1 : b1 < 256) (h2 : b2 < 256) (h3 : b3 < 256)
    (h4 : b4 < 256) (h5 : b5 < 256) (h6 : b6 < 256) (h7 : b7 < 256) :
    t10_2linux_lun [b0, b1, b2, b3, b4, b5, b6, b7] =
      (b6 * 256 + b7) * 2 ^ 48 + (b4 * 256 + b5) * 2 ^ 32 + (b2 * 256 + b3) * 2 ^ 16 +
        (b0 * 256 + b1) := by
  unfold t10_2linux_lun
  simp only [List.foldl_cons, List.foldl_nil, List.getD_cons_zero, List.getD_cons_succ,
    Nat.shiftLeft_eq, Nat.reduceAdd]
  omega

/-- Claim C29: `linux2t10_lun` and `t10_2linux_lun` are mutually inverse. For
every 64 bit integer x, `t10_2linux_lun (linux2t10_lun x) = x`; for every
eight bytes b, `linux2t10_lun (t10_2linux_lun b) = b`; and the big-endian
16 bit word at bytes 2k, 2k+1 of the T10 form is bits 16k..16k+15 of the
Linux integer, for k = 0..3. The array `t10_lun` the function fills is any
array of eight bytes. -/
theorem lun_linux_t10_inverse (t0 t1 t2 t3 t4 t5 t6 t7 : Nat) :
    (∀ x : Nat, x < 2 ^ 64 →
      t10_2linux_lun (linux2t10_lun x [t0, t1, t2, t3, t4, t5, t6, t7]) = x) ∧
    (∀ b0 b1 b2 b3 b4 b5 b6 b7 : Nat,
      b0 < 256 → b1 < 256 → b2 < 256 → b3 < 256 → b4 < 256 → b5 < 256 → b6 < 256 →
      b7 < 256 →
      linux2t10_lun (t10_2linux_lun [b0, b1, b2, b3, b4, b5, b6, b7])
        [t0, t1, t2, t3, t4, t5, t6, t7] = [b0, b1, b2, b3, b4, b5, b6, b7]) ∧
    (∀ x : Nat, x < 2 ^ 64 → ∀ k : Nat, k < 4 →
      (linux2t10_lun x [t0, t1, t2, t3, t4, t5, t6, t7]).getD (2 * k) 0 * 256 +
        (linux2t10_lun x [t0, t1, t2, t3, t4, t5, t6, t7]).getD (2 * k + 1) 0 =
        x / 2 ^ (16 * k) % 2 ^ 16) := by
  refine ⟨?_, ?_, ?_⟩
  · intro x hx
    rw [linux2t10_lun_shape x hx,
      t10_2linux_lun_shape _ _ _ _ _ _ _ _ (by omega) (by omega) (by omega) (by omega)
        (by omega) (by omega) (by omega) (by omega)]
    omega
  · intro b0 b1 b2 b3 b4 b5 b6 b7 h0 h1 h2 h3 h4 h5 h6 h7
    rw [t10_2linux_lun_shape _ _ _ _ _ _ _ _ h0 h1 h2 h3 h4 h5 h6 h7,
      linux2t10_lun_shape _ (by omega)]
    simp only [List.cons.injEq, and_true]
    refine ⟨?_, ?_, ?_, ?_, ?_, ?_, ?_, ?_⟩ <;> omega
  · intro x hx k hk
    rw [linux2t10_lun_shape x hx]
    interval_cases k <;>
      simp only [List.getD_cons_zero, List.getD_cons_succ, Nat.mul_zero, Nat.mul_one,
        Nat.reduceMul, Nat.reduceAdd, Nat.zero_add] <;> omega

/-- Claim C29 at the integer 0x0011223344556677. -/
theorem lun_linux_t10_inverse_witness :
    t10_2linux_lun (linux2t10_lun 0x0011223344556677 [0, 0, 0, 0, 0, 0, 0, 0]) =
      0x0011223344556677 :=
  (lun_linux_t10_inverse 0 0 0 0 0 0 0 0).1 0x0011223344556677 (by decide)

/-- The 64 bit pattern of an `int`: when bit 32 is set the value is negative
and bit 63 is set as well (sign extension). -/
theorem bits64_int_bit (v : Int) :
    (bits64 (toInt32 v)).testBit 32 = true → (bits64 (toInt32 v)).testBit 63 = true := by
  have hr : -2 ^ 31 ≤ toInt32 v ∧ toInt32 v < 2 ^ 31 := by
    unfold toInt32
    split <;> omega
  generalize toInt32 v = w at hr
  intro h
  by_cases hw : 0 ≤ w
  · have hlt : bits64 w < 2 ^ 32 := by
      unfold bits64
      omega
    rw [Nat.testBit_lt_two_pow hlt] at h
    exact absurd h (by decide)
  · have hge : 2 ^ 63 ≤ bits64 w ∧ bits64 w < 2 ^ 64 := by
      unfold bits64
      omega
    rw [Nat.testBit_to_div_mod]
    have h1 : bits64 w / 2 ^ 63 % 2 = 1 := by omega
    exact decide_eq_true h1

/-- Claim C24: with a 32 bit `int`, whatever `int` the undefined shifts by 32
and 48 deliver, there is a T10 LUN of eight bytes, namely
00 00 00 00 00 01 00 00, for which `t10_2linux_lun64bitBR` differs from the
word flipped value of `t10_2linux_lun`, which is 2^32 for this LUN (the word
01 at bytes 4, 5 in bits 32..47). -/
theorem lun64bitBR_broken (ub : Int → Nat → Int) :
    (∃ t10_lun : List Nat, t10_lun.length = 8 ∧ (∀ b ∈ t10_lun, b < 256) ∧
      t10_2linux_lun64bitBR ub t10_lun ≠ t10_2linux_lun t10_lun) ∧
    t10_2linux_lun [0, 0, 0, 0, 0, 1, 0, 0] = 2 ^ 32 ∧
    t10_2linux_lun64bitBR ub [0, 0, 0, 0, 0, 1, 0, 0] ≠ 2 ^ 32 := by
  have hv : t10_2linux_lun [0, 0, 0, 0, 0, 1, 0, 0] = 2 ^ 32 := by decide
  have hne : t10_2linux_lun64bitBR ub [0, 0, 0, 0, 0, 1, 0, 0] ≠ 2 ^ 32 := by
    intro h
    have e : t10_2linux_lun64bitBR ub [0, 0, 0, 0, 0, 1, 0, 0] =
        bits64 (toInt32 (ub 1 32)) ||| bits64 (toInt32 (ub 0 48)) := by
      unfold t10_2linux_lun64bitBR shl32
      simp only [List.foldl_cons, List.foldl_nil, List.getD_cons_zero, List.getD_cons_succ]
      have z : bits64 (toInt32 0) = 0 := by decide
      simp [z]
    rw [e] at h
    have h32 : (bits64 (toInt32 (ub 1 32)) ||| bits64 (toInt32 (ub 0 48))).testBit 32 =
        true := by rw [h]; decide
    have h63 : (bits64 (toInt32 (ub 1 32)) ||| bits64 (toInt32 (ub 0 48))).testBit 63 =
        false := by rw [h]; decide
    rw [Nat.testBit_or, Bool.or_eq_true] at h32
    rw [Nat.testBit_or, Bool.or_eq_false_iff] at h63
    rcases h32 with h1 | h1
    · have := bits64_int_bit _ h1
      rw [h63.1] at this
      exact absurd this (by decide)
    · have := bits64_int_bit _ h1
      rw [h63.2] at this
      exact absurd this (by decide)
  refine ⟨⟨[0, 0, 0, 0, 0, 1, 0, 0], rfl, by decide, ?_⟩, hv, hne⟩
  rw [hv]
  exact hne

end sg_luns

/-! ## Reads past the LUN, the buffer and the response length -/

namespace sg_luns

/-- Claim C25, failing input: the LUN 01 00 f0 00 00 00 00 00 (as with
`--test=0100f00000000000`), here followed in memory by two more bytes. Level
0 is peripheral device addressing with bus_id 1, so the loop goes on to
level 1 at offset 2, whose first byte 0xf0 selects extended addressing with
length 3: the value printed is made of `lunp[1..7]`, the bytes at offsets
3..9 of the LUN. What `decode_lun` prints changes with the bytes at offsets
8 and 9, which are not part of the eight byte LUN. -/
theorem decode_lun_reads_past_lun :
    decode_lun "  " ([0x01, 0x00, 0xf0, 0, 0, 0, 0, 0] ++ [0x12, 0x34]) 0 0 0 =
      [.printf "%sbus_id=%d, %s=%d\n"
         [.s "  Peripheral device addressing: ", .d 1, .s "target", .d 0],
       .printf "%s>>%s level addressing:\n" [.s "  ", .s "Second"],
       .printf "%sExtended logical unit addressing: length=%d, e. a. method=%d, value=%lu\n"
         [.s "    ", .d 3, .d 0, .u 0x1234]] ∧
    decode_lun "  " ([0x01, 0x00, 0xf0, 0, 0, 0, 0, 0] ++ [0, 0]) 0 0 0 =
      [.printf "%sbus_id=%d, %s=%d\n"
         [.s "  Peripheral device addressing: ", .d 1, .s "target", .d 0],
       .printf "%s>>%s level addressing:\n" [.s "  ", .s "Second"],
       .printf "%sExtended logical unit addressing: length=%d, e. a. method=%d, value=%lu\n"
         [.s "    ", .d 3, .d 0, .u 0]] := by
  constructor <;> decide

/-- Claim C26, failing input: `--maxlen=1`, which `main` accepts, gives a
buffer of one byte, and `list_len` is made of the bytes at offsets 0..3. Two
memories that agree on the one byte of the buffer (offset 0) and differ at
offset 3 give different values of `list_len`: the header read goes past
`maxlen`. -/
theorem report_luns_header_past_maxlen :
    (0 : Int) ≤ 1 ∧ (1 : Int) ≤ MAX_RLUNS_BUFF_LEN ∧
    main [0, 0, 0, 0x10] 1 = ⟨16, 0, 1, []⟩ ∧
    main [0, 0, 0, 0] 1 = ⟨0, 0, 1, []⟩ := by
  decide

end sg_luns

namespace sg_rep_zones

/-- Claim C27, failing input: `--hex --hex --maxlen=128` and a response of
128 bytes (resid 0) whose zone list length is 64, one descriptor. The
clamped length `len` is 128; in the pass for descriptor 0 the hex dump is
called for the range that starts at offset 64 and is `len` = 128 bytes long,
not 64: it ends at offset 192, past `len` and past the buffer. -/
theorem zone_hex_dump_past_len (K : sg_lib_h) :
    main K ([0, 0, 0, 64] ++ List.replicate 124 0) 128 0 0 2 0 =
      ⟨0,
       [.printf "Report zones response:\n" [],
        .printf "  Same=%d: %s\n\n"
          [.d 0, .s "zone type and length may differ in each descriptor"],
        .printf " Zone descriptor: %d\n" [.d 0],
        .call "dStrHex" [.u 64, .d 128, .d (-1)]],
       [],
       [⟨0, 64, [.printf " Zone descriptor: %d\n" [.d 0],
                 .call "dStrHex" [.u 64, .d 128, .d (-1)]]⟩]⟩ ∧
    (64 : Int) + 128 > 128 :=
  ⟨rfl, by decide⟩

end sg_rep_zones

/-! ## START STOP UNIT: the two option interfaces -/

namespace sg_start

/-- In the legacy interface the text after `--mod` handed to `sscanf` starts
with the character '=', which is no hexadecimal number. -/
theorem sscanf_x_eq (v : List Char) : sscanf_x ('=' :: v) = none := by
  unfold sscanf_x
  have hs : List.dropWhile isspace ('=' :: v) = '=' :: v := by
    rw [List.dropWhile_cons_of_neg (by decide)]
  have hh : ('=' :: v).head? = some '=' := rfl
  simp only [hs, hh]
  have e1 : ¬ (some '=' = some '-' ∨ some '=' = some '+') := by decide
  rw [if_neg e1]
  have hr : hexrun ('=' :: v) 0 false = (0, false) := by
    unfold hexrun
    have hv : hexval '=' = none := by decide
    rw [hv]
  have hb : (match '=' :: v with
      | '0' :: x :: d :: cs =>
        if (x = 'x' ∨ x = 'X') ∧ (hexval d).isSome = true then d :: cs else '=' :: v
      | _ => '=' :: v) = '=' :: v := rfl
  rw [hb, hr]
  rfl

/-- Claim C23, failing input: in the legacy interface every argument of the
form `--mod=PC_MOD` makes the body of the argument loop of `process_cl_old`
return SG_LIB_SYNTAX_ERROR, whatever PC_MOD is: the text converted by
`sscanf` is taken from `cp + 3`, the character '=' included. So
`--mod=7 /dev/sg1` with SG3_UTILS_OLD_OPTS set is rejected by
`process_cl_old` and by `main`, and `do_mod` is not set. -/
theorem old_mod_rejected (K : sg_lib_h) (fd res close_res : Int) :
    (∀ (v : List Char) (st : old_st),
      old_body (String.mk ("--mod=".data ++ v)) st = .ret SG_LIB_SYNTAX_ERROR st.op) ∧
    process_cl_old { main_opts with opt_new := 0 } ["--mod=7", "/dev/sg1"] =
      (SG_LIB_SYNTAX_ERROR, { main_opts with opt_new := 0 }) ∧
    main K true [.m 7] ["/dev/sg1"] ["--mod=7", "/dev/sg1"] fd res close_res =
      ⟨SG_LIB_SYNTAX_ERROR, none⟩ := by
  have hgen : ∀ (v : List Char) (st : old_st),
      old_body (String.mk ("--mod=".data ++ v)) st = .ret SG_LIB_SYNTAX_ERROR st.op := by
    intro v st
    have hd : (String.mk ("--mod=".data ++ v)).data = '-' :: '-' :: 'm' :: 'o' :: 'd' :: '=' :: v :=
      rfl
    unfold old_body
    rw [hd]
    dsimp only
    rw [if_pos rfl]
    have hf : old_flags ('-' :: 'm' :: 'o' :: 'd' :: '=' :: v) st.op =
        ⟨'m' :: 'o' :: 'd' :: '=' :: v, 1, st.op, false⟩ := by
      unfold old_flags
      simp
    rw [hf]
    simp only [Bool.false_eq_true, if_false, reduceCtorEq]
    unfold old_words
    have n1 : ¬ (0 = sg_read_buffer.strncmp ('m' :: 'o' :: 'd' :: '=' :: v) "eject".data 5) := by
      simp [sg_read_buffer.strncmp]
    have n2 : ¬ (0 = sg_read_buffer.strncmp "fl=".data ('m' :: 'o' :: 'd' :: '=' :: v) 3) := by
      simp [sg_read_buffer.strncmp]
    have n3 : ¬ (0 = sg_read_buffer.strncmp "imm=".data ('m' :: 'o' :: 'd' :: '=' :: v) 4) := by
      simp [sg_read_buffer.strncmp]
    have n4 : ¬ (0 = sg_read_buffer.strncmp ('m' :: 'o' :: 'd' :: '=' :: v) "load".data 4) := by
      simp [sg_read_buffer.strncmp]
    have n5 : ¬ (0 = sg_read_buffer.strncmp ('m' :: 'o' :: 'd' :: '=' :: v) "loej".data 4) := by
      simp [sg_read_buffer.strncmp]
    have n6 : ¬ (0 = sg_read_buffer.strncmp "pc=".data ('m' :: 'o' :: 'd' :: '=' :: v) 3) := by
      simp [sg_read_buffer.strncmp]
    have p7 : 0 = sg_read_buffer.strncmp "mod=".data ('m' :: 'o' :: 'd' :: '=' :: v) 4 := by
      simp [sg_read_buffer.strncmp]
    have hdrop : List.drop 3 ('m' :: 'o' :: 'd' :: '=' :: v) = '=' :: v := rfl
    dsimp only
    rw [if_neg n1, if_neg n2, if_neg n3, if_neg n4, if_neg n5, if_neg n6, if_pos p7, hdrop,
      sscanf_x_eq]
  refine ⟨hgen, by decide, ?_⟩
  have hp : process_cl_old { main_opts with opt_new := 0 } ["--mod=7", "/dev/sg1"] =
      (SG_LIB_SYNTAX_ERROR, { main_opts with opt_new := 0 }) := by decide
  unfold main process_cl
  simp only [if_true, hp]
  rfl

end sg_start

/-! ## WRITE AND VERIFY: the repeat mode -/

namespace sg_write_verify

/-- Claim C28, failing input: `--repeat --in=f --ilen=512 --num=0 --lba=0
/dev/sg1`. The value 0 of `--num` passes the only test of the option (it is
not -1), so with `--repeat` the statement `b_p_lb = ilen / num_lb` divides
by zero: `main` neither rejects the command line nor reaches a value of
`b_p_lb`. -/
theorem repeat_num_zero_divides (K : sg_lib_h) (E : wv_env) :
    main_case { main_vars with repeat_ := 1, ifnp := "f", has_filename := 1, ilen := 512 }
        (.n 0) =
      .ok { main_vars with repeat_ := 1, ifnp := "f", has_filename := 1, ilen := 512,
                           num_lb := 0 } ∧
    main K [.R, .i "f", .I 512, .n 0, .l 0] ["/dev/sg1"] E = ⟨.div_by_zero, []⟩ :=
  ⟨rfl, rfl⟩

/-- Claim C30, failing input: `--repeat --in=f --ilen=512 --lba=0xffffffff
/dev/sg1` with a file of 1024 bytes. The 10 byte command is chosen once,
before the loop (the LBA is not above UINT_MAX). The first command has LBA
0xffffffff; for the second `llba` is 0x100000000 and the command is still
WRITE AND VERIFY(10), whose bytes 2..5 are 00 00 00 00: they decode to 0,
not to the LBA of the command. -/
theorem repeat_lba_wraps_in_wv10 (K : sg_lib_h) :
    main K [.R, .i "f", .I 512, .l 0xffffffff] ["/dev/sg1"]
        ⟨3, 4, 0, true, 0, true, [512, 512], [], 0⟩ =
      ⟨.ret 0,
       [⟨[0x2e, 0, 0xff, 0xff, 0xff, 0xff, 0, 0, 1, 0], 0xffffffff, 1, 512, 60, 0⟩,
        ⟨[0x2e, 0, 0, 0, 0, 0, 0, 0, 1, 0], 0x100000000, 1, 512, 60, 0⟩]⟩ ∧
    beValue [0, 0, 0, 0] ≠ 0x100000000 ∧ (0x100000000 : Nat) > 0xFFFFFFFF :=
  ⟨rfl, by decide, by decide⟩

end sg_write_verify
